import Mathlib

/-!
KillZone client: field extractor and transport.

A shallow embedding of `src/atari/json.c` (the flat-JSON field extractor) and of
`src/atari/network.c` (the FujiNet HTTP transport with its bounded read-retry loop),
followed by theorems about them.

Conventions of the embedding.

* A byte is a `Nat`; a buffer is a `List Nat`.  A C string argument is a buffer that is
  read up to (not including) its first `0` byte, the end of the list standing for the
  terminator when no `0` occurs (`cstr`).  Pointers into a C string are the suffixes of
  its contents, so `p + n` is `List.drop n` and `end - start` is a difference of lengths.
* Pointer arguments are taken to be non-null, so of the guard
  `!json || !key || !value || value_len == 0` only `value_len == 0` remains.
* Memory written through an output pointer is a function `Nat → Nat` from offsets to
  bytes, so that a write at any offset is visible.
* Output parameters (`int32_t *value`) are passed in and returned.
* Console output (`printf`) is not part of the model.
-/

namespace KillZone

/-! ## C library functions used by the extractor -/

/-- Bytes of a string literal, for concrete inputs. -/
def bytes (s : String) : List Nat := s.toList.map Char.toNat

/-- Contents of the C string stored in a buffer: the bytes before the first NUL. -/
def cstr (buf : List Nat) : List Nat := buf.takeWhile (fun c => c != 0)

/-- C `isspace` in the "C" locale: space, and the controls `\t \n \v \f \r`. -/
def isspace (c : Nat) : Bool := c == 32 || (9 ≤ c && c ≤ 13)

/-- C `isdigit`. -/
def isdigit (c : Nat) : Bool := 48 ≤ c && c ≤ 57

/-- C `strstr` on string contents: the suffix that starts at the first occurrence of
`needle`, or `none` (a null pointer) when there is no occurrence. -/
def strstr : List Nat → List Nat → Option (List Nat)
  | [], needle => if needle.isPrefixOf [] then some [] else none
  | c :: hay, needle =>
    if needle.isPrefixOf (c :: hay) then some (c :: hay) else strstr hay needle

/-- C `strchr` on string contents: the suffix that starts at the first byte equal to `c`;
the terminator itself matches `c = 0`. -/
def strchr : List Nat → Nat → Option (List Nat)
  | [], c => if c = 0 then some [] else none
  | x :: s, c => if x = c then some (x :: s) else strchr s c

/-- C `strncpy(dst, src, n)`: offsets below `n` receive the bytes of `src`, padded with
NUL once `src` has ended; the other offsets of `dst` are untouched. -/
def strncpy (dst : Nat → Nat) (src : List Nat) (n : Nat) : Nat → Nat :=
  fun i => if i < n then src.getD i 0 else dst i

/-- A single byte store `p[i] = b`. -/
def store (p : Nat → Nat) (i b : Nat) : Nat → Nat :=
  fun j => if j = i then b else p j

/-- C `strncmp(a, b, n)` on string contents (end of list reads as NUL). -/
def strncmp : List Nat → List Nat → Nat → Int
  | _, _, 0 => 0
  | a, b, n + 1 =>
    if a.headD 0 ≠ b.headD 0 then (a.headD 0 : Int) - (b.headD 0 : Int)
    else if a.headD 0 = 0 then 0
    else strncmp a.tail b.tail n

/-- The digit loop of `strtol` in base 10: accumulates while the next byte is a digit. -/
def strtol_digits : List Nat → Nat → Nat
  | [], acc => acc
  | c :: s, acc => if isdigit c then strtol_digits s (acc * 10 + (c - 48)) else acc

/-- The largest `long` of the 32-bit target. -/
def LONG_MAX : Int := 2147483647

/-- The smallest `long` of the 32-bit target. -/
def LONG_MIN : Int := -2147483648

/-- C `strtol(s, NULL, 10)` with a 32-bit `long`: skips leading white space, takes an
optional sign, converts the digits that follow (zero when there are none) and clamps to
the range of `long`. -/
def strtol (s : List Nat) : Int :=
  if (s.dropWhile isspace).head? = some 45 then
    max LONG_MIN (-(strtol_digits (s.dropWhile isspace).tail 0 : Int))
  else if (s.dropWhile isspace).head? = some 43 then
    min LONG_MAX (strtol_digits (s.dropWhile isspace).tail 0 : Int)
  else min LONG_MAX (strtol_digits (s.dropWhile isspace) 0 : Int)

/-! ## `src/atari/json.c` -/

/-- The pattern built by `snprintf(search_key, sizeof(search_key), "\"%s\":", key)` with
`char search_key[128]`: the text `"key":` cut to the 127 bytes that fit. -/
def search_key (key : List Nat) : List Nat :=
  (34 :: cstr key ++ [34, 58]).take 127

/-- The loop `while (*pos && isspace(*pos)) pos++`. -/
def skip_space : List Nat → List Nat
  | [] => []
  | c :: pos => if c ≠ 0 ∧ isspace c = true then skip_space pos else c :: pos

/-- Embedding of `json_get_string(json, key, value, value_len)`: the returned length and
the memory behind `value` afterwards. -/
def json_get_string (json key : List Nat) (value : Nat → Nat) (value_len : Nat) :
    Nat × (Nat → Nat) :=
  if value_len = 0 then (0, value)
  else
    match strstr (cstr json) (search_key key) with
    | none => (0, value)
    | some pos =>
      match skip_space (pos.drop (search_key key).length) with
      | [] => (0, value)
      | c :: start =>
        if c ≠ 34 then (0, value)
        else
          match strchr start 34 with
          | none => (0, value)
          | some e =>
            let len := (start.length - e.length) % 65536
            let len := if len ≥ value_len then value_len - 1 else len
            (len, store (strncpy value start len) len 0)

/-- Embedding of `json_get_int(json, key, value)`: the returned flag and `*value`
afterwards. -/
def json_get_int (json key : List Nat) (value : Int) : Nat × Int :=
  match strstr (cstr json) (search_key key) with
  | none => (0, value)
  | some pos => (1, strtol (skip_space (pos.drop (search_key key).length)))

/-- Embedding of `json_get_uint(json, key, value)`: the returned flag and `*value`
afterwards.  The local `signed_value` is only read after `json_get_int` has set it. -/
def json_get_uint (json key : List Nat) (value : Nat) : Nat × Nat :=
  match json_get_int json key 0 with
  | (0, _) => (0, value)
  | (_, signed_value) =>
    if signed_value < 0 then (0, value) else (1, signed_value.toNat)

/-- Embedding of `json_is_success(json)`. -/
def json_is_success (json : List Nat) : Nat :=
  match strstr (cstr json) (bytes "\"success\":") with
  | none => 0
  | some pos =>
    if strncmp (skip_space (pos.drop (bytes "\"success\":").length)) (bytes "true") 4 = 0
    then 1 else 0


/-! ## Reference notions of the specification -/

/-- Offset of the first occurrence of `pat` in `text`: the least `i` such that `pat` is a
prefix of `text` from offset `i` on. -/
def first_occurrence (pat text : List Nat) : Option Nat :=
  (List.range (text.length + 1)).find? (fun i => pat.isPrefixOf (text.drop i))

/-- The string value that the pattern `pat` selects in `text`: after the first occurrence
of `pat` and any white space an opening quote must follow, and the value is made of the
bytes between that quote and the next one.  There is no value when the pattern does not
occur, when no opening quote follows, or when the opening quote is never closed. -/
def field_value (pat text : List Nat) : Option (List Nat) :=
  match first_occurrence pat text with
  | none => none
  | some i =>
    match (text.drop (i + pat.length)).dropWhile isspace with
    | [] => none
    | c :: rest =>
      if c = 34 ∧ 34 ∈ rest then some (rest.takeWhile (fun c => c != 34)) else none

/-- Reference definition of `get_string`, after the specification: the value selected by
the literal `"<key>":` in the text, truncated to what the caller's buffer of `cap` bytes
can hold next to its terminating NUL; no bytes at all when there is no value. -/
def get_string_ref (text key : List Nat) (cap : Nat) : List Nat :=
  match field_value (34 :: key ++ [34, 58]) text with
  | none => []
  | some v => v.take (cap - 1)

/-- The first `n` bytes of a memory, as a list. -/
def mem_take (m : Nat → Nat) (n : Nat) : List Nat := (List.range n).map m

/-- Decimal digits of `m`, most significant first (`fuel` bounds the number of digits). -/
def decimal_aux : Nat → Nat → List Nat
  | 0, _ => []
  | fuel + 1, m => if m < 10 then [48 + m] else decimal_aux fuel (m / 10) ++ [48 + m % 10]

/-- The base-10 numeral of a natural number, without leading zeros. -/
def decimal (m : Nat) : List Nat := decimal_aux (m + 1) m

/-- The base-10 numeral of an integer: a minus sign before the digits when negative. -/
def numeral (n : Int) : List Nat :=
  if n < 0 then 45 :: decimal n.natAbs else decimal n.natAbs

/-- A token starts like a number when it starts with a decimal digit, or with a sign
directly followed by a decimal digit (the end of the text reads as NUL). -/
def starts_numeral (tok : List Nat) : Bool :=
  isdigit (tok.headD 0) ||
    ((tok.headD 0 == 45 || tok.headD 0 == 43) && isdigit (tok.tail.headD 0))

/-! ## `src/atari/network.c` -/

/-- Connection status of the transport. -/
inductive network_status_t
  | NET_DISCONNECTED
  | NET_CONNECTING
  | NET_CONNECTED
  | NET_ERROR
  deriving DecidableEq

/-- The open modes of the FujiNet library that the transport uses. -/
inductive open_mode
  | OPEN_MODE_HTTP_GET
  | OPEN_MODE_HTTP_POST
  deriving DecidableEq

/-- Status `FN_ERR_OK` of the FujiNet library. -/
def FN_ERR_OK : Nat := 0

/-- The build constants of the transport's header, taken as parameters. -/
structure Config where
  SERVER_HOST : List Nat
  SERVER_PORT : Nat
  DEVICE_SPEC_SIZE : Nat

/-- A call of the FujiNet device library, with the arguments that matter. -/
inductive DevCall
  | network_open (devicespec : List Nat) (mode : open_mode)
  | network_http_start_add_headers (devicespec : List Nat)
  | network_http_add_header (devicespec header : List Nat)
  | network_http_end_add_headers (devicespec : List Nat)
  | network_http_post (devicespec body : List Nat)
  | network_read_nb (devicespec : List Nat) (len : Nat)
  | network_close (devicespec : List Nat)
  deriving DecidableEq

/-- A simulated FujiNet device for one exchange: the status that each step reports and,
for the `k`-th call of `network_read_nb` (counted from 0) asking for `len` bytes, the
byte count it returns together with the bytes it stores at the start of the buffer. -/
structure Device where
  open_status : Nat
  start_add_headers_status : Nat
  add_header_status : Nat
  end_add_headers_status : Nat
  post_status : Nat
  read_nb : Nat → Nat → Int × List Nat

/-- The device side of an exchange: how many reads were made and the calls so far. -/
structure Wire where
  reads : Nat
  trace : List DevCall

/-- `build_device_spec(path)`: `snprintf(device_spec, DEVICE_SPEC_SIZE,
"N:HTTP://%s:%d%s", SERVER_HOST, SERVER_PORT, path)`. -/
def build_device_spec (cfg : Config) (path : List Nat) : List Nat :=
  (bytes "N:HTTP://" ++ cstr cfg.SERVER_HOST ++ [58] ++ decimal cfg.SERVER_PORT ++
    cstr path).take (cfg.DEVICE_SPEC_SIZE - 1)

/-- Storing `data` at the start of a buffer. -/
def blit (buf : Nat → Nat) (data : List Nat) : Nat → Nat :=
  fun i => if i < data.length then data.getD i 0 else buf i

/-- Device call `network_open(devicespec, mode, OPEN_TRANS_NONE)`. -/
def network_open (dev : Device) (w : Wire) (devicespec : List Nat) (mode : open_mode) :
    Nat × Wire :=
  (dev.open_status, { w with trace := w.trace ++ [DevCall.network_open devicespec mode] })

/-- Device call `network_http_start_add_headers(devicespec)`. -/
def network_http_start_add_headers (dev : Device) (w : Wire) (devicespec : List Nat) :
    Nat × Wire :=
  (dev.start_add_headers_status,
    { w with trace := w.trace ++ [DevCall.network_http_start_add_headers devicespec] })

/-- Device call `network_http_add_header(devicespec, header)`. -/
def network_http_add_header (dev : Device) (w : Wire) (devicespec header : List Nat) :
    Nat × Wire :=
  (dev.add_header_status,
    { w with trace := w.trace ++ [DevCall.network_http_add_header devicespec header] })

/-- Device call `network_http_end_add_headers(devicespec)`. -/
def network_http_end_add_headers (dev : Device) (w : Wire) (devicespec : List Nat) :
    Nat × Wire :=
  (dev.end_add_headers_status,
    { w with trace := w.trace ++ [DevCall.network_http_end_add_headers devicespec] })

/-- Device call `network_http_post(devicespec, body)`. -/
def network_http_post (dev : Device) (w : Wire) (devicespec body : List Nat) : Nat × Wire :=
  (dev.post_status,
    { w with trace := w.trace ++ [DevCall.network_http_post devicespec (cstr body)] })

/-- Device call `network_read_nb(devicespec, buf, len)`: the byte count, the buffer
afterwards and the device side afterwards. -/
def network_read_nb (dev : Device) (w : Wire) (devicespec : List Nat) (buf : Nat → Nat)
    (len : Nat) : Int × (Nat → Nat) × Wire :=
  ((dev.read_nb w.reads len).1, blit buf (dev.read_nb w.reads len).2,
    { reads := w.reads + 1, trace := w.trace ++ [DevCall.network_read_nb devicespec len] })

/-- Device call `network_close(devicespec)`. -/
def network_close (w : Wire) (devicespec : List Nat) : Wire :=
  { w with trace := w.trace ++ [DevCall.network_close devicespec] }

/-- The loop `while (bytes_read == 0 && retry < 10) { bytes_read = network_read_nb(...);
retry++; }`.  The first argument bounds the iterations still possible; it is `10 - retry`,
the loop being over at the latest when `retry` reaches 10. -/
def read_retry (dev : Device) (devicespec : List Nat) (len : Nat) :
    Nat → Int → Nat → (Nat → Nat) → Wire → Int × (Nat → Nat) × Wire
  | 0, bytes_read, _, response, w => (bytes_read, response, w)
  | fuel + 1, bytes_read, retry, response, w =>
    if bytes_read = 0 ∧ retry < 10 then
      read_retry dev devicespec len fuel
        (network_read_nb dev w devicespec response len).1 (retry + 1)
        (network_read_nb dev w devicespec response len).2.1
        (network_read_nb dev w devicespec response len).2.2
    else (bytes_read, response, w)

/-- Outcome of an exchange: the value returned, the caller's response buffer afterwards
and the device calls made, oldest first. -/
structure Exchange where
  ret : Int
  response : Nat → Nat
  trace : List DevCall

/-- The read phase shared, line for line, by `kz_network_http_get` (from "Reading
response..." to the `return`) and `kz_network_http_post`: the first non-blocking read for
`response_len - 1` bytes (a `uint16_t`), the retry loop, the terminating NUL after a
positive count, the close, and the count as result. -/
def read_response (dev : Device) (w : Wire) (device_spec : List Nat)
    (response : Nat → Nat) (response_len : Nat) : Exchange :=
  let len := (response_len + 65535) % 65536
  let first := network_read_nb dev w device_spec response len
  let last := read_retry dev device_spec len 10 first.1 0 first.2.1 first.2.2
  { ret := last.1
    response := if last.1 > 0 then store last.2.1 last.1.toNat 0 else last.2.1
    trace := (network_close last.2.2 device_spec).trace }

/-- Embedding of `kz_network_http_get(path, response, response_len)`, with the static
`current_status` as a parameter. -/
def kz_network_http_get (cfg : Config) (dev : Device) (current_status : network_status_t)
    (path : List Nat) (response : Nat → Nat) (response_len : Nat) : Exchange :=
  if current_status ≠ network_status_t.NET_CONNECTED then
    { ret := -1, response := response, trace := [] }
  else
    let device_spec := build_device_spec cfg path
    let opened := network_open dev ⟨0, []⟩ device_spec open_mode.OPEN_MODE_HTTP_GET
    if opened.1 ≠ FN_ERR_OK then
      { ret := -1, response := response, trace := opened.2.trace }
    else read_response dev opened.2 device_spec response response_len

/-- Embedding of `kz_network_http_post(path, body, response, response_len)`, with the
static `current_status` as a parameter. -/
def kz_network_http_post (cfg : Config) (dev : Device) (current_status : network_status_t)
    (path body : List Nat) (response : Nat → Nat) (response_len : Nat) : Exchange :=
  if current_status ≠ network_status_t.NET_CONNECTED then
    { ret := -1, response := response, trace := [] }
  else
    let device_spec := build_device_spec cfg path
    let opened := network_open dev ⟨0, []⟩ device_spec open_mode.OPEN_MODE_HTTP_POST
    if opened.1 ≠ FN_ERR_OK then
      { ret := -1, response := response, trace := opened.2.trace }
    else
      let started := network_http_start_add_headers dev opened.2 device_spec
      if started.1 ≠ FN_ERR_OK then
        { ret := -1, response := response, trace := (network_close started.2 device_spec).trace }
      else
        let added := network_http_add_header dev started.2 device_spec
          (bytes "Content-Type: application/json")
        if added.1 ≠ FN_ERR_OK then
          { ret := -1, response := response,
            trace := (network_close added.2 device_spec).trace }
        else
          let ended := network_http_end_add_headers dev added.2 device_spec
          if ended.1 ≠ FN_ERR_OK then
            { ret := -1, response := response,
              trace := (network_close ended.2 device_spec).trace }
          else
            let posted := network_http_post dev ended.2 device_spec body
            if posted.1 ≠ FN_ERR_OK then
              { ret := -1, response := response,
                trace := (network_close posted.2 device_spec).trace }
            else read_response dev posted.2 device_spec response response_len

/-- Whether a device call is a non-blocking read. -/
def is_read : DevCall → Bool
  | DevCall.network_read_nb _ _ => true
  | _ => false

/-- Number of non-blocking reads in a trace of device calls. -/
def read_calls (t : List DevCall) : Nat := t.countP is_read

/-- The byte count that the `j`-th read of an exchange returns. -/
def read_count (dev : Device) (response_len : Nat) (j : Nat) : Int :=
  (dev.read_nb j ((response_len + 65535) % 65536)).1

/-- The first read that returns a non-zero count is the `a`-th one, counted from 1. -/
def attempts_until_nonzero (dev : Device) (response_len : Nat) (a : Nat) : Prop :=
  1 ≤ a ∧ read_count dev response_len (a - 1) ≠ 0 ∧
    ∀ j < a - 1, read_count dev response_len j = 0

/-- A sample configuration. -/
def sample_config : Config :=
  { SERVER_HOST := bytes "localhost", SERVER_PORT := 3000, DEVICE_SPEC_SIZE := 256 }

/-- A device whose steps all succeed and whose reads return the scripted counts, zero
once the script is over. -/
def scripted_device (counts : List Int) : Device :=
  { open_status := 0, start_add_headers_status := 0, add_header_status := 0,
    end_add_headers_status := 0, post_status := 0,
    read_nb := fun k _ => (counts.getD k 0, []) }

/-- Whether a device call is a close. -/
def is_close : DevCall → Bool
  | DevCall.network_close _ => true
  | _ => false

/-- Number of close calls in a trace of device calls. -/
def close_calls (t : List DevCall) : Nat := t.countP is_close

/-- A device whose open reports the status `err`, whose other steps succeed and whose
reads deliver the scripted data, the byte count being the length of what is delivered. -/
def data_device (err : Nat) (reads : List (List Nat)) : Device :=
  { open_status := err, start_add_headers_status := 0, add_header_status := 0,
    end_add_headers_status := 0, post_status := 0,
    read_nb := fun k _ => (((reads.getD k []).length : Nat), reads.getD k []) }

/-! ## `client/input.c` -/

/-- The directions of `input.h`. -/
inductive input_direction_t
  | INPUT_NONE
  | INPUT_UP
  | INPUT_DOWN
  | INPUT_LEFT
  | INPUT_RIGHT
  | INPUT_FIRE
  deriving DecidableEq

/-- Joystick bit mask `JOY_UP`. -/
def JOY_UP : Nat := 1

/-- Joystick bit mask `JOY_DOWN`. -/
def JOY_DOWN : Nat := 2

/-- Joystick bit mask `JOY_LEFT`. -/
def JOY_LEFT : Nat := 4

/-- Joystick bit mask `JOY_RIGHT`. -/
def JOY_RIGHT : Nat := 8

/-- The number of polls `DEBOUNCE_FRAMES`. -/
def DEBOUNCE_FRAMES : Nat := 3

/-- The statics of the input module: `last_direction` and the `uint8_t`
`debounce_counter`. -/
structure InputState where
  last_direction : input_direction_t
  debounce_counter : Nat
  deriving DecidableEq

/-- Embedding of `input_init`. -/
def input_init : InputState :=
  { last_direction := input_direction_t.INPUT_NONE, debounce_counter := 0 }

/-- Embedding of `input_read_direction`, on the byte `raw` that `input_read_raw()` returns:
the joystick port, which the placeholder of the sources reads as 0. -/
def input_read_direction (raw : Nat) : input_direction_t :=
  if raw &&& JOY_UP ≠ 0 then input_direction_t.INPUT_UP
  else if raw &&& JOY_DOWN ≠ 0 then input_direction_t.INPUT_DOWN
  else if raw &&& JOY_LEFT ≠ 0 then input_direction_t.INPUT_LEFT
  else if raw &&& JOY_RIGHT ≠ 0 then input_direction_t.INPUT_RIGHT
  else input_direction_t.INPUT_NONE

/-- Embedding of `input_update`, on the byte `raw` read from the joystick port; the
counter is a `uint8_t`, so its increment wraps at 256. -/
def input_update (raw : Nat) (st : InputState) : InputState :=
  if input_read_direction raw = st.last_direction then
    { st with debounce_counter := (st.debounce_counter + 1) % 256 }
  else
    { last_direction := input_read_direction raw, debounce_counter := 0 }

/-- Embedding of `input_get_debounced`. -/
def input_get_debounced (st : InputState) : input_direction_t :=
  if st.debounce_counter ≥ DEBOUNCE_FRAMES then st.last_direction
  else input_direction_t.INPUT_NONE

/-- The input state after a sequence of polls, given the port byte of each poll. -/
def input_polls (raws : List Nat) (st : InputState) : InputState :=
  raws.foldl (fun s raw => input_update raw s) st

/-! ## `client/graphics.c` -/

/-- Screen width of `graphics.h`. -/
def SCREEN_WIDTH : Nat := 40

/-- Screen height of `graphics.h`. -/
def SCREEN_HEIGHT : Nat := 20

/-- Size of the screen buffer. -/
def SCREEN_BUFFER_SIZE : Nat := SCREEN_WIDTH * SCREEN_HEIGHT

/-- Display character `'.'`. -/
def CHAR_EMPTY : Nat := 46

/-- Display character `'@'`. -/
def CHAR_PLAYER : Nat := 64

/-- Display character `'*'`. -/
def CHAR_ENEMY : Nat := 42

/-- Embedding of `graphics_clear_screen`: `memset(screen_buffer, CHAR_EMPTY,
SCREEN_BUFFER_SIZE)`. -/
def graphics_clear_screen (screen_buffer : Nat → Nat) : Nat → Nat :=
  fun i => if i < SCREEN_BUFFER_SIZE then CHAR_EMPTY else screen_buffer i

/-- Embedding of `graphics_draw_char`. -/
def graphics_draw_char (screen_buffer : Nat → Nat) (x y c : Nat) : Nat → Nat :=
  if x < SCREEN_WIDTH ∧ y < SCREEN_HEIGHT then store screen_buffer (y * SCREEN_WIDTH + x) c
  else screen_buffer

/-- The loop of `graphics_draw_world` over the other players, from index `i` on, with
`n` iterations left. -/
def graphics_draw_others (other_players_x other_players_y : List Nat) :
    Nat → Nat → (Nat → Nat) → Nat → Nat
  | 0, _, screen_buffer => screen_buffer
  | n + 1, i, screen_buffer =>
    graphics_draw_others other_players_x other_players_y n (i + 1)
      (if other_players_x.getD i 0 < SCREEN_WIDTH ∧ other_players_y.getD i 0 < SCREEN_HEIGHT
        then graphics_draw_char screen_buffer (other_players_x.getD i 0)
          (other_players_y.getD i 0) CHAR_ENEMY
        else screen_buffer)

/-- Embedding of `graphics_draw_world`. -/
def graphics_draw_world (screen_buffer : Nat → Nat) (player_x player_y : Nat)
    (other_players_x other_players_y : List Nat) (other_player_count : Nat) : Nat → Nat :=
  let cleared := graphics_clear_screen screen_buffer
  let drawn := graphics_draw_others other_players_x other_players_y other_player_count 0
    cleared
  if player_x < SCREEN_WIDTH ∧ player_y < SCREEN_HEIGHT then
    graphics_draw_char drawn player_x player_y CHAR_PLAYER
  else drawn

/-! ## The state module used by `client/main.c` -/

/-- The states of the session state machine. -/
inductive client_state_t
  | STATE_INIT
  | STATE_CONNECTING
  | STATE_JOINING
  | STATE_PLAYING
  | STATE_DEAD
  | STATE_ERROR
  deriving DecidableEq

/-- Modelled from the spec: `state.h` is not among the sources; this is the Player record
of the data model, `{id, x, y, health, status}`. -/
structure player_state_t where
  id : List Nat
  x : Nat
  y : Nat
  health : Nat
  status : List Nat
  deriving DecidableEq

/-- Modelled from the spec: `state.h` and `state.c` are not among the sources; this is
the Session record of the data model, `{current_state, last_error: optional string,
local_player: optional Player}`, with the sequence of other players. -/
structure Session where
  current_state : client_state_t
  last_error : Option (List Nat)
  local_player : Option player_state_t
  other_players : List player_state_t
  deriving DecidableEq

/-- Modelled from the spec: `state_init` of the absent `state.c`; `INIT` is the sole
initial state, no error is recorded and no player is set. -/
def state_init : Session :=
  { current_state := client_state_t.STATE_INIT, last_error := none, local_player := none,
    other_players := [] }

/-- Modelled from the spec: `state_set_current` of the absent `state.c` sets
`current_state` and nothing else. -/
def state_set_current (s : Session) (st : client_state_t) : Session :=
  { s with current_state := st }

/-- Modelled from the spec: `state_get_current` of the absent `state.c`. -/
def state_get_current (s : Session) : client_state_t := s.current_state

/-- Modelled from the spec: `state_set_error` of the absent `state.c` records the message
as `last_error` and changes nothing else. -/
def state_set_error (s : Session) (msg : List Nat) : Session :=
  { s with last_error := some (cstr msg) }

/-- Modelled from the spec: `state_get_local_player` of the absent `state.c`; the record
that is read through the returned pointer, zeroed while no player is set. -/
def state_get_local_player (s : Session) : player_state_t :=
  s.local_player.getD { id := [], x := 0, y := 0, health := 0, status := [] }

/-- Modelled from the spec: `state_get_other_players` of the absent `state.c`; the
sequence of other players, its length being the count stored through the argument. -/
def state_get_other_players (s : Session) : List player_state_t := s.other_players

/-- The session has an error recorded: `last_error` is a non-empty string. -/
def last_error_set (s : Session) : Prop :=
  ∃ msg, s.last_error = some msg ∧ msg ≠ []

/-! ## `client/network.c` -/

/-- The functions of the client's `network.h` that the state machine calls, over the
state `σ` of the network module: each takes the module state and returns its result, the
response buffer afterwards where there is one, and the module state afterwards. -/
structure Network (σ : Type) where
  network_init : σ → Int × σ
  network_health_check : σ → Int × σ
  network_join_player : σ → List Nat → (Nat → Nat) → Nat → Int × (Nat → Nat) × σ
  network_move_player : σ → List Nat → List Nat → (Nat → Nat) → Nat →
    Int × (Nat → Nat) × σ

/-- The statics of `client/network.c`. -/
structure ClientNet where
  current_status : network_status_t
  response_buffer : Nat → Nat

/-- Size `RESPONSE_BUFFER_SIZE` of the static response buffer. -/
def RESPONSE_BUFFER_SIZE : Nat := 2048

/-- C `strlen` on memory: the offset of the first NUL, searched from offset `i` over at
most `fuel` bytes. -/
def strlen_from (m : Nat → Nat) : Nat → Nat → Nat
  | 0, i => i
  | fuel + 1, i => if m i = 0 then i else strlen_from m fuel (i + 1)

/-- Embedding of `network_init` of `client/network.c`. -/
def network_init (ns : ClientNet) : Int × ClientNet :=
  (0, { ns with current_status := network_status_t.NET_CONNECTED })

/-- The placeholder body shared by `network_get` and `network_post` of
`client/network.c`: the fixed text `reply` is copied with `strncpy(response, reply,
response_len - 1)`, `response[response_len - 1]` is set to NUL and `strlen(response)` is
returned.  The scan of `strlen` ends within the `response_len` bytes just written; for
`response_len = 0` the C code scans memory the call has not written, which the model
does not follow (it returns 0). -/
def stub_exchange (ns : ClientNet) (reply : List Nat) (response : Nat → Nat)
    (response_len : Nat) : Int × (Nat → Nat) :=
  if ns.current_status ≠ network_status_t.NET_CONNECTED then (-1, response)
  else
    ((strlen_from
        (if response_len > 0 then
          store (strncpy response reply (response_len - 1)) (response_len - 1) 0
        else response) response_len 0 : Nat),
      if response_len > 0 then
        store (strncpy response reply (response_len - 1)) (response_len - 1) 0
      else response)

/-- Embedding of `network_get` of `client/network.c`. -/
def network_get (ns : ClientNet) (_path : List Nat) (response : Nat → Nat)
    (response_len : Nat) : Int × (Nat → Nat) :=
  stub_exchange ns (bytes "\x7b\"status\":\"ok\"\x7d") response response_len

/-- Embedding of `network_post` of `client/network.c`. -/
def network_post (ns : ClientNet) (_path _body : List Nat) (response : Nat → Nat)
    (response_len : Nat) : Int × (Nat → Nat) :=
  stub_exchange ns (bytes "\x7b\"success\":true\x7d") response response_len

/-- Embedding of `network_health_check` of `client/network.c`. -/
def network_health_check (ns : ClientNet) : Int × ClientNet :=
  (if (network_get ns (bytes "/api/health") ns.response_buffer RESPONSE_BUFFER_SIZE).1 > 0
    then 0 else -1,
    { ns with response_buffer :=
      (network_get ns (bytes "/api/health") ns.response_buffer RESPONSE_BUFFER_SIZE).2 })

/-- The text written by `snprintf(buf, 256, fmt, ...)` once formatted: cut to 255 bytes. -/
def snprintf256 (text : List Nat) : List Nat := text.take 255

/-- Embedding of `network_join_player` of `client/network.c`. -/
def network_join_player (ns : ClientNet) (name : List Nat) (response : Nat → Nat)
    (response_len : Nat) : Int × (Nat → Nat) × ClientNet :=
  ((network_post ns (bytes "/api/player/join")
      (snprintf256 (bytes "\x7b\"name\":\"" ++ cstr name ++ bytes "\"\x7d"))
      response response_len).1,
    (network_post ns (bytes "/api/player/join")
      (snprintf256 (bytes "\x7b\"name\":\"" ++ cstr name ++ bytes "\"\x7d"))
      response response_len).2, ns)

/-- Embedding of `network_move_player` of `client/network.c`. -/
def network_move_player (ns : ClientNet) (player_id direction : List Nat)
    (response : Nat → Nat) (response_len : Nat) : Int × (Nat → Nat) × ClientNet :=
  ((network_post ns
      (snprintf256 (bytes "/api/player/" ++ cstr player_id ++ bytes "/move"))
      (snprintf256 (bytes "\x7b\"direction\":\"" ++ cstr direction ++ bytes "\"\x7d"))
      response response_len).1,
    (network_post ns
      (snprintf256 (bytes "/api/player/" ++ cstr player_id ++ bytes "/move"))
      (snprintf256 (bytes "\x7b\"direction\":\"" ++ cstr direction ++ bytes "\"\x7d"))
      response response_len).2, ns)

/-- The network module of `client/network.c`, as the state machine is linked with it. -/
def client_network : Network ClientNet :=
  { network_init := network_init
    network_health_check := network_health_check
    network_join_player := network_join_player
    network_move_player := network_move_player }

/-! ## `client/main.c` -/

/-- The statics the state machine works on: the session of the state module, the state
of the network module, the input module, the `frame_count` of `handle_state_playing` and
the screen buffer of the graphics module. -/
structure Client (σ : Type) where
  session : Session
  net : σ
  input : InputState
  frame_count : Nat
  screen_buffer : Nat → Nat

/-- What one step reads from outside the program: the bytes waiting on standard input,
the byte of the joystick port, the contents of the stack where the local `response`
array lies, and the bytes that lie on the stack where the local `player_name` array of
`handle_state_joining` begins (the array is not initialised). -/
structure Env where
  stdin : List Nat
  raw : Nat
  stack : Nat → Nat
  player_name : List Nat

/-- C `fgets(buf, size, stdin)`: the bytes of the next line, its newline included, at most
`size - 1` of them; at end of file, with no byte read, the null pointer (`none`), and
nothing is written to `buf`. -/
def fgets (size : Nat) (stdin : List Nat) : Option (List Nat) :=
  if stdin = [] then none
  else
    some ((stdin.takeWhile (fun c => c != 10) ++
      (if 10 ∈ stdin then [10] else [])).take (size - 1))

/-- C `getchar()`: the next byte of standard input, `EOF` when there is none. -/
def getchar (stdin : List Nat) : Int :=
  match stdin with
  | [] => -1
  | c :: _ => (c : Int)

/-- Size `PLAYER_NAME_MAX` of the name buffer. -/
def PLAYER_NAME_MAX : Nat := 32

/-- Embedding of `game_init`, from the statics as the program starts. -/
def game_init {σ : Type} (net : Network σ) (boot : Client σ) : Client σ :=
  { session := state_set_current state_init client_state_t.STATE_CONNECTING
    net := (net.network_init boot.net).2
    input := input_init
    frame_count := boot.frame_count
    screen_buffer := graphics_clear_screen boot.screen_buffer }

/-- Embedding of `handle_state_init`. -/
def handle_state_init {σ : Type} (c : Client σ) : Client σ :=
  { c with session := state_set_current c.session client_state_t.STATE_CONNECTING }

/-- Embedding of `handle_state_connecting`. -/
def handle_state_connecting {σ : Type} (net : Network σ) (c : Client σ) : Client σ :=
  if (net.network_health_check c.net).1 = 0 then
    { c with
      net := (net.network_health_check c.net).2
      session := state_set_current c.session client_state_t.STATE_JOINING }
  else
    { c with
      net := (net.network_health_check c.net).2
      session := state_set_current
        (state_set_error c.session (bytes "Server connection failed"))
        client_state_t.STATE_ERROR }

/-- The player name of `handle_state_joining`: the string in the array `player_name`
after the call of `fgets`, whose result is not tested (the line read, or what lay in the
array when `fgets` wrote nothing), without its trailing newline, and `Player` when that
is empty. -/
def read_player_name (env : Env) : List Nat :=
  let player_name :=
    match fgets PLAYER_NAME_MAX env.stdin with
    | some line => cstr line
    | none => cstr env.player_name
  let player_name :=
    if player_name.length > 0 ∧ player_name.getLast? = some 10 then player_name.dropLast
    else player_name
  if player_name.length = 0 then bytes "Player" else player_name

/-- Embedding of `handle_state_joining`. -/
def handle_state_joining {σ : Type} (net : Network σ) (env : Env) (c : Client σ) :
    Client σ :=
  if (net.network_join_player c.net (read_player_name env) env.stack 2048).1 > 0 then
    { c with
      net := (net.network_join_player c.net (read_player_name env) env.stack
        2048).2.2
      session := state_set_current c.session client_state_t.STATE_PLAYING }
  else
    { c with
      net := (net.network_join_player c.net (read_player_name env) env.stack
        2048).2.2
      session := state_set_current
        (state_set_error c.session (bytes "Join request failed"))
        client_state_t.STATE_ERROR }

/-- The `switch` of `handle_state_playing` from a direction to `dir_str`, `none` being
the null pointer. -/
def dir_str (direction : input_direction_t) : Option (List Nat) :=
  match direction with
  | input_direction_t.INPUT_UP => some (bytes "up")
  | input_direction_t.INPUT_DOWN => some (bytes "down")
  | input_direction_t.INPUT_LEFT => some (bytes "left")
  | input_direction_t.INPUT_RIGHT => some (bytes "right")
  | _ => none

/-- The network module after the movement part of `handle_state_playing`: a move request
is made when the debounced direction has a `dir_str`; its result is only printed. -/
def playing_move {σ : Type} (net : Network σ) (env : Env) (c : Client σ)
    (direction : input_direction_t) : σ :=
  if direction ≠ input_direction_t.INPUT_NONE then
    match dir_str direction with
    | some d =>
      (net.network_move_player c.net (state_get_local_player c.session).id d env.stack
        2048).2.2
    | none => c.net
  else c.net

/-- Embedding of `handle_state_playing` (`frame_count` is taken without overflow). -/
def handle_state_playing {σ : Type} (net : Network σ) (env : Env) (c : Client σ) :
    Client σ :=
  { session := c.session
    net := playing_move net env c (input_get_debounced (input_update env.raw c.input))
    input := input_update env.raw c.input
    frame_count := c.frame_count + 1
    screen_buffer :=
      if c.frame_count % 5 = 0 then
        graphics_draw_world c.screen_buffer (state_get_local_player c.session).x
          (state_get_local_player c.session).y
          ((state_get_other_players c.session).map (fun p => p.x))
          ((state_get_other_players c.session).map (fun p => p.y))
          (state_get_other_players c.session).length
      else c.screen_buffer }

/-- Embedding of `handle_state_dead`. -/
def handle_state_dead {σ : Type} (env : Env) (c : Client σ) : Client σ :=
  if getchar env.stdin = 121 ∨ getchar env.stdin = 89 then
    { c with session := state_set_current c.session client_state_t.STATE_JOINING }
  else
    { c with session := state_set_current c.session client_state_t.STATE_ERROR }

/-- Embedding of `handle_state_error`: it only prints the error. -/
def handle_state_error {σ : Type} (c : Client σ) : Client σ := c

/-- One iteration of the `while (running)` loop of `game_loop`: the statics afterwards
and the value of `running`. -/
def game_loop_step {σ : Type} (net : Network σ) (env : Env) (c : Client σ) :
    Client σ × Bool :=
  match state_get_current c.session with
  | client_state_t.STATE_INIT => (handle_state_init c, true)
  | client_state_t.STATE_CONNECTING => (handle_state_connecting net c, true)
  | client_state_t.STATE_JOINING => (handle_state_joining net env c, true)
  | client_state_t.STATE_PLAYING => (handle_state_playing net env c, true)
  | client_state_t.STATE_DEAD => (handle_state_dead env c, true)
  | client_state_t.STATE_ERROR => (handle_state_error c, false)

/-- The statics reachable from `game_init` by iterations of `game_loop`, whatever each
iteration reads from outside. -/
inductive Reachable {σ : Type} (net : Network σ) (boot : Client σ) : Client σ → Prop
  | init : Reachable net boot (game_init net boot)
  | step (env : Env) (c : Client σ) :
      Reachable net boot c → Reachable net boot (game_loop_step net env c).1

/-- The statics of the program as it starts, with the network module of the sources. -/
def boot_client : Client ClientNet :=
  { session := state_init
    net := { current_status := network_status_t.NET_DISCONNECTED,
             response_buffer := fun _ => 0 }
    input := input_init
    frame_count := 0
    screen_buffer := fun _ => 0 }

/-- A network module whose join request delivers the given response and returns its
length, for trying the state machine on a server response. -/
def replying_network (reply : List Nat) : Network Unit :=
  { network_init := fun _ => (0, ())
    network_health_check := fun _ => (0, ())
    network_join_player := fun _ _ response _ =>
      ((reply.length : Nat), store (blit response reply) reply.length 0, ())
    network_move_player := fun _ _ _ response _ =>
      ((reply.length : Nat), store (blit response reply) reply.length 0, ()) }

/-- A network module whose every request fails with -1. -/
def refusing_network : Network Unit :=
  { network_init := fun _ => (0, ())
    network_health_check := fun _ => (-1, ())
    network_join_player := fun _ _ response _ => (-1, response, ())
    network_move_player := fun _ _ _ response _ => (-1, response, ()) }

/-- A client in the given state of the state machine, nothing else having happened. -/
def client_in (st : client_state_t) : Client Unit :=
  { session := state_set_current state_init st
    net := ()
    input := input_init
    frame_count := 0
    screen_buffer := fun _ => 0 }

/-- An environment with nothing typed and the joystick at rest. -/
def idle_env : Env := { stdin := [], raw := 0, stack := fun _ => 0, player_name := [] }

/-! ## The endpoint operations of `src/atari/network.c` and `client/network.c` -/

/-- The body written by `snprintf(body_buf, sizeof(body_buf), "{\"name\":\"%s\"}", name)`. -/
def join_body (name : List Nat) : List Nat :=
  snprintf256 (bytes "\x7b\"name\":\"" ++ cstr name ++ bytes "\"\x7d")

/-- The path written by `snprintf(path_buf, sizeof(path_buf), "/api/player/%s/move",
player_id)`. -/
def move_path (player_id : List Nat) : List Nat :=
  snprintf256 (bytes "/api/player/" ++ cstr player_id ++ bytes "/move")

/-- The body written by `snprintf(body_buf, sizeof(body_buf), "{\"direction\":\"%s\"}",
direction)`. -/
def move_body (direction : List Nat) : List Nat :=
  snprintf256 (bytes "\x7b\"direction\":\"" ++ cstr direction ++ bytes "\"\x7d")

/-- The body written by `snprintf(body_buf, sizeof(body_buf), "{\"id\":\"%s\"}",
player_id)`. -/
def leave_body (player_id : List Nat) : List Nat :=
  snprintf256 (bytes "\x7b\"id\":\"" ++ cstr player_id ++ bytes "\"\x7d")

/-- Embedding of `kz_network_init`, on the status `err` that the FujiNet `network_init()`
reports: the returned value and `current_status` afterwards. -/
def kz_network_init (err : Nat) (_current_status : network_status_t) :
    Nat × network_status_t :=
  if err ≠ FN_ERR_OK then (err, network_status_t.NET_ERROR)
  else (0, network_status_t.NET_CONNECTED)

/-- Embedding of `kz_network_close`: the returned value and `current_status` afterwards. -/
def kz_network_close (_current_status : network_status_t) : Nat × network_status_t :=
  (0, network_status_t.NET_DISCONNECTED)

/-- Embedding of `kz_network_get_status`. -/
def kz_network_get_status (current_status : network_status_t) : network_status_t :=
  current_status

/-- Embedding of `kz_network_join_player`. -/
def kz_network_join_player (cfg : Config) (dev : Device)
    (current_status : network_status_t) (name : List Nat) (response : Nat → Nat)
    (response_len : Nat) : Exchange :=
  kz_network_http_post cfg dev current_status (bytes "/api/player/join") (join_body name)
    response response_len

/-- Embedding of `kz_network_move_player`. -/
def kz_network_move_player (cfg : Config) (dev : Device)
    (current_status : network_status_t) (player_id direction : List Nat)
    (response : Nat → Nat) (response_len : Nat) : Exchange :=
  kz_network_http_post cfg dev current_status (move_path player_id) (move_body direction)
    response response_len

/-- Embedding of `kz_network_leave_player`. -/
def kz_network_leave_player (cfg : Config) (dev : Device)
    (current_status : network_status_t) (player_id : List Nat) (response : Nat → Nat)
    (response_len : Nat) : Exchange :=
  kz_network_http_post cfg dev current_status (bytes "/api/player/leave")
    (leave_body player_id) response response_len

/-- Embedding of `network_close` of `client/network.c` (the name `network_close` is that
of the FujiNet device call above). -/
def client_network_close (ns : ClientNet) : Int × ClientNet :=
  (0, { ns with current_status := network_status_t.NET_DISCONNECTED })

/-- The status after `kz_network_close` followed by calls of `kz_network_init` on which
the FujiNet `network_init()` reports the statuses `errs`, in this order. -/
def status_after_inits (errs : List Nat) (current_status : network_status_t) :
    network_status_t :=
  errs.foldl (fun st err => (kz_network_init err st).2) (kz_network_close current_status).2

/-- A network module that records the player id and the direction of every move request
and answers each request with `result`. -/
def recording_network (result : Int) : Network (List (List Nat × List Nat)) :=
  { network_init := fun log => (0, log)
    network_health_check := fun log => (0, log)
    network_join_player := fun log _ response _ => (result, response, log)
    network_move_player := fun log player_id direction response _ =>
      (result, response, log ++ [(player_id, direction)]) }

/-! ## `src/atari/display.c` -/

/-- Display width of `display.h`. -/
def DISPLAY_WIDTH : Nat := 40

/-- Display height of `display.h`. -/
def DISPLAY_HEIGHT : Nat := 20

/-- Modelled from the spec: `state.h` is not among the sources; the world snapshot that
`display_draw_world` reads: the local player, the other players and their count. -/
structure world_state_t where
  local_player : player_state_t
  other_players : List player_state_t
  other_player_count : Nat

/-- The inner loop of `display_clear` on row `y`, from column `x` on, with `n` iterations
left; `screen_buffer[y][x]` lies at offset `y * DISPLAY_WIDTH + x`. -/
def display_clear_cols (y : Nat) : Nat → Nat → (Nat → Nat) → Nat → Nat
  | 0, _, screen_buffer => screen_buffer
  | n + 1, x, screen_buffer =>
    display_clear_cols y n (x + 1) (store screen_buffer (y * DISPLAY_WIDTH + x) CHAR_EMPTY)

/-- The outer loop of `display_clear`, from row `y` on, with `n` iterations left. -/
def display_clear_rows : Nat → Nat → (Nat → Nat) → Nat → Nat
  | 0, _, screen_buffer => screen_buffer
  | n + 1, y, screen_buffer =>
    display_clear_rows n (y + 1) (display_clear_cols y DISPLAY_WIDTH 0 screen_buffer)

/-- Embedding of `display_clear`. -/
def display_clear (screen_buffer : Nat → Nat) : Nat → Nat :=
  display_clear_rows DISPLAY_HEIGHT 0 screen_buffer

/-- Embedding of `display_draw_char`. -/
def display_draw_char (screen_buffer : Nat → Nat) (x y c : Nat) : Nat → Nat :=
  if x < DISPLAY_WIDTH ∧ y < DISPLAY_HEIGHT then
    store screen_buffer (y * DISPLAY_WIDTH + x) c
  else screen_buffer

/-- The record read at `world->other_players[i]`, zeroed beyond the sequence. -/
def other_player_at (other_players : List player_state_t) (i : Nat) : player_state_t :=
  other_players.getD i { id := [], x := 0, y := 0, health := 0, status := [] }

/-- The loop of `display_draw_world` over the other players, from index `i` on, with `n`
iterations left. -/
def display_draw_others (other_players : List player_state_t) :
    Nat → Nat → (Nat → Nat) → Nat → Nat
  | 0, _, screen_buffer => screen_buffer
  | n + 1, i, screen_buffer =>
    display_draw_others other_players n (i + 1)
      (if (other_player_at other_players i).x < DISPLAY_WIDTH ∧
          (other_player_at other_players i).y < DISPLAY_HEIGHT
        then display_draw_char screen_buffer (other_player_at other_players i).x
          (other_player_at other_players i).y CHAR_ENEMY
        else screen_buffer)

/-- Embedding of `display_draw_world`. -/
def display_draw_world (screen_buffer : Nat → Nat) (world : world_state_t) : Nat → Nat :=
  let cleared := display_clear screen_buffer
  let drawn := display_draw_others world.other_players world.other_player_count 0 cleared
  if world.local_player.x < DISPLAY_WIDTH ∧ world.local_player.y < DISPLAY_HEIGHT then
    display_draw_char drawn world.local_player.x world.local_player.y CHAR_PLAYER
  else drawn

/-- The cell of the world picture at column `x` and row `y`, as the claim words it: the
local player if it stands there, else an enemy if one of the first `count` other players
stands there, else empty. -/
def world_cell (player_x player_y : Nat) (other_players_x other_players_y : List Nat)
    (count x y : Nat) : Nat :=
  if player_x = x ∧ player_y = y then CHAR_PLAYER
  else if ∃ j, j < count ∧ other_players_x.getD j 0 = x ∧ other_players_y.getD j 0 = y then
    CHAR_ENEMY
  else CHAR_EMPTY

/-! ## Flat JSON objects -/

/-- A letter, a digit or an underscore. -/
def ident_char (c : Nat) : Bool :=
  (48 ≤ c && c ≤ 57) || (65 ≤ c && c ≤ 90) || (97 ≤ c && c ≤ 122) || c == 95

/-- A value of a flat JSON object: a string or an integer. -/
inductive JValue
  | str (v : List Nat)
  | num (n : Int)
  deriving DecidableEq

/-- A member of a flat JSON object: its key, the white space written after the colon, and
its value. -/
structure JField where
  key : List Nat
  ws : List Nat
  value : JValue
  deriving DecidableEq

/-- The text of a value: a string between double quotes, an integer as its numeral. -/
def render_value : JValue → List Nat
  | JValue.str v => 34 :: v ++ [34]
  | JValue.num n => numeral n

/-- The text of a member: `"key":`, the white space, the value. -/
def render_field (f : JField) : List Nat :=
  34 :: f.key ++ [34, 58] ++ f.ws ++ render_value f.value

/-- The text after a member: each further member behind a comma, then the closing
brace. -/
def render_tail : List JField → List Nat
  | [] => [125]
  | f :: fs => 44 :: render_field f ++ render_tail fs

/-- The text of a flat JSON object. -/
def render_object : List JField → List Nat
  | [] => [123, 125]
  | f :: fs => 123 :: render_field f ++ render_tail fs

/-- A member is well formed: its key is made of letters, digits and underscores and has
at most 124 bytes, the white space is white space, a string value has no double quote
and no NUL, an integer value is in the int32 range. -/
def field_ok (f : JField) : Prop :=
  (∀ c ∈ f.key, ident_char c = true) ∧ f.key.length ≤ 124 ∧
    (∀ c ∈ f.ws, isspace c = true) ∧
    match f.value with
    | JValue.str v => 34 ∉ v ∧ 0 ∉ v
    | JValue.num n => -2147483648 ≤ n ∧ n ≤ 2147483647

/-- A client in state PLAYING whose local player is `p1` at `(5, 3)` and whose joystick
has read "up" for three polls. -/
def playing_client (σ : Type) (ns : σ) : Client σ :=
  { session :=
      { current_state := client_state_t.STATE_PLAYING, last_error := none,
        local_player := some { id := bytes "p1", x := 5, y := 3, health := 100,
                               status := bytes "alive" },
        other_players := [] }
    net := ns
    input := input_polls [1, 1, 1] input_init
    frame_count := 0
    screen_buffer := fun _ => 0 }

/-- The transition table of the session state machine, as the specification words it:
INIT goes to CONNECTING, CONNECTING to JOINING or ERROR, JOINING to PLAYING or ERROR,
PLAYING to PLAYING, DEAD to JOINING or ERROR, and nothing follows ERROR. -/
def table_allows : client_state_t → client_state_t → Bool
  | client_state_t.STATE_INIT, client_state_t.STATE_CONNECTING => true
  | client_state_t.STATE_CONNECTING, client_state_t.STATE_JOINING => true
  | client_state_t.STATE_CONNECTING, client_state_t.STATE_ERROR => true
  | client_state_t.STATE_JOINING, client_state_t.STATE_PLAYING => true
  | client_state_t.STATE_JOINING, client_state_t.STATE_ERROR => true
  | client_state_t.STATE_PLAYING, client_state_t.STATE_PLAYING => true
  | client_state_t.STATE_DEAD, client_state_t.STATE_JOINING => true
  | client_state_t.STATE_DEAD, client_state_t.STATE_ERROR => true
  | _, _ => false

/-- The `while (running)` loop of `game_loop`, its iterations reading the given
environments in order: the state at the start of every iteration made (the loop is left
when an iteration clears `running`), followed by the state in which the run is left when
the environments are used up. -/
def game_loop_states {σ : Type} (net : Network σ) : List Env → Client σ → List client_state_t
  | [], c => [state_get_current c.session]
  | env :: envs, c =>
    if (game_loop_step net env c).2 = true then
      state_get_current c.session :: game_loop_states net envs (game_loop_step net env c).1
    else [state_get_current c.session]

/-! ## Lemmas on the C library models -/

theorem first_occurrence_cons (pat : List Nat) (c : Nat) (t : List Nat) :
    first_occurrence pat (c :: t) =
      if pat.isPrefixOf (c :: t) then some 0 else (first_occurrence pat t).map (· + 1) := by
  unfold first_occurrence
  rw [List.length_cons, List.range_succ_eq_map, List.find?_cons]
  simp only [List.drop_zero]
  cases h : pat.isPrefixOf (c :: t)
  · simp only [List.find?_map, Bool.false_eq_true, if_false]
    congr 1
  · simp

theorem strstr_eq (text pat : List Nat) :
    strstr text pat = (first_occurrence pat text).map (fun i => text.drop i) := by
  induction text with
  | nil =>
    simp only [strstr, first_occurrence]
    cases h : pat.isPrefixOf [] <;> simp [h, List.range_succ]
  | cons c t ih =>
    rw [strstr, first_occurrence_cons, ih]
    cases h : pat.isPrefixOf (c :: t)
    · simp [Option.map_map, Function.comp_def]
    · simp


theorem skip_space_eq (l : List Nat) : skip_space l = l.dropWhile isspace := by
  induction l with
  | nil => rfl
  | cons c t ih =>
    rw [skip_space, List.dropWhile_cons]
    by_cases h : isspace c = true
    · have hc : c ≠ 0 := by
        rintro rfl
        exact absurd h (by decide)
      simp [h, hc, ih]
    · simp [h]

theorem strchr_eq (s : List Nat) (c : Nat) (hc : c ≠ 0) :
    strchr s c = if c ∈ s then some (s.dropWhile (fun x => x != c)) else none := by
  induction s with
  | nil => simp [strchr, hc]
  | cons x t ih =>
    rw [strchr, ih, List.dropWhile_cons]
    by_cases hx : x = c
    · simp [hx]
    · have hx' : ¬ c = x := fun h => hx h.symm
      simp [hx, hx']

theorem length_sub_dropWhile (p : Nat → Bool) (l : List Nat) :
    l.length - (l.dropWhile p).length = (l.takeWhile p).length := by
  have h := congrArg List.length (List.takeWhile_append_dropWhile p l)
  rw [List.length_append] at h
  omega

theorem getD_takeWhile (p : Nat → Bool) (l : List Nat) (i d : Nat)
    (h : i < (l.takeWhile p).length) : l.getD i d = (l.takeWhile p).getD i d := by
  conv_lhs => rw [← List.takeWhile_append_dropWhile p l]
  rw [List.getD_append _ _ _ _ h]

theorem search_key_eq (key : List Nat) (h : (cstr key).length ≤ 124) :
    search_key key = 34 :: cstr key ++ [34, 58] := by
  unfold search_key
  apply List.take_of_length_le
  simp
  omega

/-- What `json_get_string` does, in terms of the value selected by its search pattern. -/
theorem json_get_string_eq (json key : List Nat) (value : Nat → Nat) (value_len : Nat)
    (h : 0 < value_len) :
    json_get_string json key value value_len =
      match field_value (search_key key) (cstr json) with
      | none => (0, value)
      | some v =>
        (if v.length % 65536 ≥ value_len then value_len - 1 else v.length % 65536,
         store (strncpy value v
            (if v.length % 65536 ≥ value_len then value_len - 1 else v.length % 65536))
            (if v.length % 65536 ≥ value_len then value_len - 1 else v.length % 65536) 0) := by
  unfold json_get_string field_value
  rw [if_neg (by omega), strstr_eq]
  cases hf : first_occurrence (search_key key) (cstr json) with
  | none => rfl
  | some i =>
    have e : List.drop (search_key key).length (List.drop i (cstr json)) =
        List.drop (i + (search_key key).length) (cstr json) := by
      rw [List.drop_drop, Nat.add_comm]
    simp only [Option.map_some', skip_space_eq, e]
    cases hd : List.dropWhile isspace (List.drop (i + (search_key key).length) (cstr json)) with
    | nil => rfl
    | cons c start =>
      simp only
      by_cases hc : c = 34
      · subst hc
        rw [if_neg (by simp), strchr_eq _ _ (by decide)]
        by_cases hm : 34 ∈ start
        · simp only [hm, if_true, and_self, length_sub_dropWhile]
          have hlen : (if (start.takeWhile (fun c => c != 34)).length % 65536 ≥ value_len
              then value_len - 1
              else (start.takeWhile (fun c => c != 34)).length % 65536) ≤
              (start.takeWhile (fun c => c != 34)).length := by
            split
            · have := Nat.mod_le (start.takeWhile (fun c => c != 34)).length 65536
              omega
            · exact Nat.mod_le _ _
          congr 1
          funext j
          unfold store strncpy
          by_cases hj : j < (if (start.takeWhile (fun c => c != 34)).length % 65536 ≥ value_len
              then value_len - 1
              else (start.takeWhile (fun c => c != 34)).length % 65536)
          · simp only [hj, if_true]
            rw [getD_takeWhile (fun c => c != 34) start j 0 (by omega)]
          · simp only [hj, if_false]
        · simp [hm]
      · simp [hc]


theorem first_occurrence_eq_none (pat text : List Nat) :
    first_occurrence pat text = none ↔ ¬ pat <:+: text := by
  unfold first_occurrence
  rw [List.find?_eq_none]
  constructor
  · rintro h ⟨pre, suf, rfl⟩
    apply h pre.length (by simp; omega)
    simp
  · intro h i _ hp
    apply h
    rw [List.isPrefixOf_iff_prefix] at hp
    exact hp.isInfix.trans (List.drop_suffix i text).isInfix

theorem takeWhile_ne_append (c : Nat) (v rest : List Nat) (hv : c ∉ v) :
    (v ++ c :: rest).takeWhile (fun x => x != c) = v := by
  induction v with
  | nil => simp
  | cons a t ih =>
    have ha : a ≠ c := fun h => hv (by simp [h])
    have ht : c ∉ t := fun h => hv (by simp [h])
    simp [List.takeWhile_cons, ha, ih ht]

theorem field_value_length_le (pat text v : List Nat) (h : field_value pat text = some v) :
    v.length ≤ text.length := by
  unfold field_value at h
  split at h
  · exact absurd h (by simp)
  · rename_i i _
    split at h
    · exact absurd h (by simp)
    · rename_i c rest hrest
      split at h
      · have hv : v = rest.takeWhile (fun c => c != 34) := by simpa using h.symm
        have h1 : v.length ≤ rest.length := by
          rw [hv]
          exact (List.takeWhile_sublist _).length_le
        have h2 := congrArg List.length hrest
        have h3 := (List.dropWhile_suffix (l := List.drop (i + pat.length) text) isspace).length_le
        rw [List.length_cons] at h2
        rw [List.length_drop] at h3
        omega
      · exact absurd h (by simp)

theorem field_value_of_quoted (pat text : List Nat) (i : Nat) (v rest : List Nat)
    (hfirst : first_occurrence pat text = some i)
    (hafter : text.drop (i + pat.length) = 34 :: v ++ 34 :: rest) (hv : 34 ∉ v) :
    field_value pat text = some v := by
  unfold field_value
  rw [hfirst]
  simp only [hafter]
  have hd : List.dropWhile isspace (34 :: v ++ 34 :: rest) = 34 :: (v ++ 34 :: rest) := by
    rw [List.cons_append, List.dropWhile_cons]
    simp [isspace]
  rw [hd]
  simp [takeWhile_ne_append 34 v rest hv]

theorem mem_take_store_strncpy (value : Nat → Nat) (v : List Nat) (len : Nat)
    (h : len ≤ v.length) : mem_take (store (strncpy value v len) len 0) len = v.take len := by
  unfold mem_take
  apply List.ext_getElem
  · simp
    omega
  · intro j h1 h2
    simp only [List.length_map, List.length_range] at h1
    have hj : j ≠ len := by omega
    simp [store, strncpy, hj, h1, List.getD_eq_getElem?_getD]
    rw [List.getElem?_eq_getElem (by omega)]
    rfl

/-! ## Theorems on the field extractor -/

/-- C1. For every buffer of the 16-bit target, every key of at most 124 bytes and every
capacity above zero, `json_get_string` agrees with the reference definition: the length
it returns and the bytes it leaves in the output are those of the value that follows the
first occurrence of the literal `"<key>":`, truncated to the capacity, and nothing (length
zero) when that literal does not occur or no opening quote follows. -/
theorem json_get_string_refines_reference (json key : List Nat) (value : Nat → Nat)
    (value_len : Nat) (hkey : (cstr key).length ≤ 124) (hcap : 0 < value_len)
    (hjson : json.length < 65536) :
    (json_get_string json key value value_len).1 =
        (get_string_ref (cstr json) (cstr key) value_len).length ∧
      mem_take (json_get_string json key value value_len).2
          (json_get_string json key value value_len).1 =
        get_string_ref (cstr json) (cstr key) value_len := by
  rw [json_get_string_eq json key value value_len hcap, search_key_eq key hkey]
  unfold get_string_ref
  cases hf : field_value (34 :: cstr key ++ [34, 58]) (cstr json) with
  | none => simp [mem_take]
  | some v =>
    have h1 := field_value_length_le _ _ _ hf
    have h2 : (cstr json).length ≤ json.length := (List.takeWhile_sublist _).length_le
    have h3 : v.length % 65536 = v.length := Nat.mod_eq_of_lt (by omega)
    simp only [h3]
    have h4 : (if v.length ≥ value_len then value_len - 1 else v.length) =
        min (value_len - 1) v.length := by
      split <;> omega
    rw [h4]
    constructor
    · simp
    · rw [mem_take_store_strncpy _ _ _ (by omega)]
      simp [List.take_eq_take]

/-- An instance: the field `id` of `{"id": "p12"}` read into a buffer of 3 bytes. -/
theorem json_get_string_refines_reference_witness :
    (json_get_string (bytes "\x7b\"id\": \"p12\"\x7d") (bytes "id") (fun _ => 7) 3).1 = 2 ∧
      mem_take (json_get_string (bytes "\x7b\"id\": \"p12\"\x7d") (bytes "id") (fun _ => 7) 3).2
          (json_get_string (bytes "\x7b\"id\": \"p12\"\x7d") (bytes "id") (fun _ => 7) 3).1 =
        bytes "p1" :=
  have h := json_get_string_refines_reference (bytes "\x7b\"id\": \"p12\"\x7d") (bytes "id")
    (fun _ => 7) 3 (by decide) (by decide) (by decide)
  ⟨h.1.trans (by decide), h.2.trans (by decide)⟩

/-- C2, as stated, fails: the buffer `{"k":"a","k":"b"}` contains the substring `"k":"b"`,
yet `json_get_string` with key `k` returns the value `a` of the first occurrence. -/
theorem json_get_string_later_pair_counterexample :
    bytes "\"k\":\"b\"" <:+: cstr (bytes "\x7b\"k\":\"a\",\"k\":\"b\"\x7d") ∧
      34 ∉ bytes "b" ∧
      (json_get_string (bytes "\x7b\"k\":\"a\",\"k\":\"b\"\x7d") (bytes "k") (fun _ => 0) 16).1 = 1 ∧
      mem_take (json_get_string (bytes "\x7b\"k\":\"a\",\"k\":\"b\"\x7d") (bytes "k") (fun _ => 0) 16).2
          (json_get_string (bytes "\x7b\"k\":\"a\",\"k\":\"b\"\x7d") (bytes "k") (fun _ => 0) 16).1 =
        bytes "a" ∧
      mem_take (json_get_string (bytes "\x7b\"k\":\"a\",\"k\":\"b\"\x7d") (bytes "k") (fun _ => 0) 16).2
          (json_get_string (bytes "\x7b\"k\":\"a\",\"k\":\"b\"\x7d") (bytes "k") (fun _ => 0) 16).1 ≠
        (bytes "b").take 16 := by
  decide

/-- C2, amended. For every key of at most 124 bytes and every capacity above zero: when
the FIRST occurrence of the literal `"<key>":` in the buffer is directly followed by
`"<v>"` with `v` free of double quotes (and shorter than 65536 bytes), `json_get_string`
returns the length of `v` truncated to `value_len - 1` and leaves exactly those bytes of
`v` in the output; when the literal does not occur it returns zero and leaves the output
as it was. -/
theorem json_get_string_first_pair (json key : List Nat) (value : Nat → Nat)
    (value_len : Nat) (hkey : (cstr key).length ≤ 124) (hcap : 0 < value_len) :
    (∀ (i : Nat) (v rest : List Nat),
        first_occurrence (34 :: cstr key ++ [34, 58]) (cstr json) = some i →
        (cstr json).drop (i + (34 :: cstr key ++ [34, 58]).length) = 34 :: v ++ 34 :: rest →
        34 ∉ v → v.length < 65536 →
        (json_get_string json key value value_len).1 = min v.length (value_len - 1) ∧
          mem_take (json_get_string json key value value_len).2
              (json_get_string json key value value_len).1 = v.take (value_len - 1)) ∧
      (¬ (34 :: cstr key ++ [34, 58]) <:+: cstr json →
        json_get_string json key value value_len = (0, value)) := by
  rw [json_get_string_eq json key value value_len hcap, search_key_eq key hkey]
  constructor
  · intro i v rest hfirst hafter hv hlen
    rw [field_value_of_quoted _ _ i v rest hfirst hafter hv]
    have h3 : v.length % 65536 = v.length := Nat.mod_eq_of_lt hlen
    have h4 : (if v.length ≥ value_len then value_len - 1 else v.length) =
        min v.length (value_len - 1) := by
      split <;> omega
    simp only [h3, h4, true_and]
    rw [mem_take_store_strncpy _ _ _ (by omega)]
    simp [List.take_eq_take]
    omega
  · intro h
    have hnone := (first_occurrence_eq_none _ _).2 h
    unfold field_value
    rw [hnone]

/-- An instance: the first `k` of `{"k":"abc","k":"b"}` read into a buffer of 3 bytes. -/
theorem json_get_string_first_pair_witness :
    (json_get_string (bytes "\x7b\"k\":\"abc\",\"k\":\"b\"\x7d") (bytes "k") (fun _ => 0) 3).1 = 2 ∧
      mem_take (json_get_string (bytes "\x7b\"k\":\"abc\",\"k\":\"b\"\x7d") (bytes "k") (fun _ => 0) 3).2
          (json_get_string (bytes "\x7b\"k\":\"abc\",\"k\":\"b\"\x7d") (bytes "k") (fun _ => 0) 3).1 =
        bytes "ab" :=
  (json_get_string_first_pair (bytes "\x7b\"k\":\"abc\",\"k\":\"b\"\x7d") (bytes "k") (fun _ => 0) 3
    (by decide) (by decide)).1 1 (bytes "abc") (bytes ",\"k\":\"b\"\x7d")
    (by decide) (by decide) (by decide) (by decide)

/-- C3. For every input and every capacity `value_len ≥ 1`: the returned length is below
`value_len` and no byte at an offset `≥ value_len` is changed; when the search pattern
selects no value (no key, no opening quote, no closing quote) the function returns 0 and
the output is unchanged; when it selects a value `v`, the returned length is
`min (length v) (value_len - 1)` (for `v` shorter than 65536 bytes, as on the 16-bit
target), the output holds exactly that many leading bytes of `v`, a NUL at the offset
equal to the returned length, and nothing else is changed. -/
theorem json_get_string_truncates (json key : List Nat) (value : Nat → Nat)
    (value_len : Nat) (hcap : 1 ≤ value_len) :
    (json_get_string json key value value_len).1 < value_len ∧
      (∀ j, value_len ≤ j → (json_get_string json key value value_len).2 j = value j) ∧
      (field_value (search_key key) (cstr json) = none →
        json_get_string json key value value_len = (0, value)) ∧
      (∀ v, field_value (search_key key) (cstr json) = some v →
        (v.length < 65536 →
          (json_get_string json key value value_len).1 = min v.length (value_len - 1)) ∧
        mem_take (json_get_string json key value value_len).2
            (json_get_string json key value value_len).1 =
          v.take (json_get_string json key value value_len).1 ∧
        (json_get_string json key value value_len).2
            (json_get_string json key value value_len).1 = 0 ∧
        ∀ j, (json_get_string json key value value_len).1 < j →
          (json_get_string json key value value_len).2 j = value j) := by
  rw [json_get_string_eq json key value value_len hcap]
  cases hf : field_value (search_key key) (cstr json) with
  | none =>
    refine ⟨hcap, fun _ _ => rfl, fun _ => rfl, ?_⟩
    intro v hv
    exact absurd hv (by simp)
  | some v =>
    dsimp only
    have hdef : v.length < 65536 →
        (if v.length % 65536 ≥ value_len then value_len - 1 else v.length % 65536) =
          min v.length (value_len - 1) := by
      intro h
      rw [Nat.mod_eq_of_lt h]
      split <;> omega
    have hle : (if v.length % 65536 ≥ value_len then value_len - 1 else v.length % 65536) ≤
        v.length := by
      have := Nat.mod_le v.length 65536
      split <;> omega
    have hlt : (if v.length % 65536 ≥ value_len then value_len - 1 else v.length % 65536) <
        value_len := by
      split <;> omega
    generalize (if v.length % 65536 ≥ value_len then value_len - 1 else v.length % 65536) = len
      at hdef hle hlt ⊢
    refine ⟨hlt, ?_, fun h => absurd h (by simp), ?_⟩
    · intro j hj
      have h1 : j ≠ len := by omega
      have h2 : ¬ j < len := by omega
      simp [store, strncpy, h1, h2]
    · intro w hw
      have hwv : v = w := by simpa using hw
      subst hwv
      refine ⟨hdef, mem_take_store_strncpy value v len hle, by simp [store], ?_⟩
      intro j hj
      have h1 : j ≠ len := by omega
      have h2 : ¬ j < len := by omega
      simp [store, strncpy, h1, h2]


/-- An instance: the value `p12` truncated to the two bytes that fit a buffer of 3. -/
theorem json_get_string_truncates_witness :
    (json_get_string (bytes "\x7b\"id\": \"p12\"\x7d") (bytes "id") (fun _ => 7) 3).1 < 3 ∧
      (json_get_string (bytes "\x7b\"id\": \"p12\"\x7d") (bytes "id") (fun _ => 7) 3).1 =
        min (bytes "p12").length (3 - 1) ∧
      (json_get_string (bytes "\x7b\"id\": \"p12\"\x7d") (bytes "id") (fun _ => 7) 3).2 3 = 7 :=
  have h := json_get_string_truncates (bytes "\x7b\"id\": \"p12\"\x7d") (bytes "id") (fun _ => 7) 3
    (by decide)
  ⟨h.1, (h.2.2.2 (bytes "p12") (by decide)).1 (by decide), h.2.1 3 (by decide)⟩

theorem strtol_digits_of_not_digit (s : List Nat) (acc : Nat)
    (h : isdigit (s.headD 0) = false) : strtol_digits s acc = acc := by
  cases s with
  | nil => rfl
  | cons c t =>
    simp only [List.headD_cons] at h
    simp [strtol_digits, h]

theorem strtol_digits_append (ds rest : List Nat) (acc : Nat)
    (hds : ∀ c ∈ ds, isdigit c = true) (hrest : isdigit (rest.headD 0) = false) :
    strtol_digits (ds ++ rest) acc = ds.foldl (fun a c => a * 10 + (c - 48)) acc := by
  induction ds generalizing acc with
  | nil => simpa using strtol_digits_of_not_digit rest acc hrest
  | cons c t ih =>
    have hc : isdigit c = true := hds c (by simp)
    rw [List.cons_append, strtol_digits, if_pos hc, List.foldl_cons]
    exact ih _ (fun x hx => hds x (by simp [hx]))

theorem decimal_aux_digits (fuel m : Nat) : ∀ c ∈ decimal_aux fuel m, isdigit c = true := by
  induction fuel generalizing m with
  | zero => simp [decimal_aux]
  | succ f ih =>
    intro c hc
    rw [decimal_aux] at hc
    split at hc
    · simp only [List.mem_singleton] at hc
      subst hc
      simp [isdigit]
      omega
    · rcases List.mem_append.1 hc with h | h
      · exact ih _ c h
      · simp only [List.mem_singleton] at h
        subst h
        simp [isdigit]
        omega

theorem decimal_aux_value (fuel m : Nat) (h : m < fuel) :
    (decimal_aux fuel m).foldl (fun a c => a * 10 + (c - 48)) 0 = m := by
  induction fuel generalizing m with
  | zero => omega
  | succ f ih =>
    rw [decimal_aux]
    split
    · simp
    · rw [List.foldl_append, ih (m / 10) (by omega)]
      simp
      omega

theorem decimal_aux_ne_nil (fuel m : Nat) (h : 0 < fuel) : decimal_aux fuel m ≠ [] := by
  cases fuel with
  | zero => omega
  | succ f =>
    rw [decimal_aux]
    split <;> simp

theorem decimal_head_digit (m : Nat) : isdigit ((decimal m).headD 0) = true := by
  have h1 := decimal_aux_ne_nil (m + 1) m (by omega)
  have h2 := decimal_aux_digits (m + 1) m
  unfold decimal
  cases h : decimal_aux (m + 1) m with
  | nil => exact absurd h h1
  | cons c t =>
    rw [h] at h2
    simpa using h2 c (by simp)

theorem strtol_digits_decimal (m : Nat) (rest : List Nat)
    (hrest : isdigit (rest.headD 0) = false) : strtol_digits (decimal m ++ rest) 0 = m := by
  unfold decimal
  rw [strtol_digits_append _ _ _ (decimal_aux_digits _ _) hrest,
    decimal_aux_value _ _ (by omega)]

theorem dropWhile_append_of_all (p : Nat → Bool) (ws tok : List Nat)
    (hws : ∀ c ∈ ws, p c = true) (htok : p (tok.headD 0) = false) :
    (ws ++ tok).dropWhile p = tok := by
  induction ws with
  | nil =>
    cases tok with
    | nil => rfl
    | cons c t =>
      simp only [List.headD_cons] at htok
      simp [List.dropWhile_cons, htok]
  | cons c t ih =>
    rw [List.cons_append, List.dropWhile_cons, if_pos (hws c (by simp))]
    exact ih (fun x hx => hws x (by simp [hx]))

theorem not_space_of_digit (c : Nat) (h : isdigit c = true) : isspace c = false := by
  simp [isdigit] at h
  simp [isspace]
  omega

theorem strtol_numeral (n : Int) (rest : List Nat) (hlo : -2147483648 ≤ n)
    (hhi : n ≤ 2147483647) (hrest : isdigit (rest.headD 0) = false) :
    strtol (numeral n ++ rest) = n := by
  unfold numeral
  by_cases hn : n < 0
  · rw [if_pos hn]
    have hd : (45 :: decimal n.natAbs ++ rest).dropWhile isspace =
        45 :: (decimal n.natAbs ++ rest) := by
      rw [List.cons_append, List.dropWhile_cons]
      simp [isspace]
    unfold strtol
    rw [hd]
    simp only [List.head?_cons, if_true, List.tail_cons]
    rw [strtol_digits_decimal _ _ hrest]
    unfold LONG_MIN
    omega
  · rw [if_neg hn]
    have hh := decimal_head_digit n.natAbs
    have hne : decimal n.natAbs ≠ [] := decimal_aux_ne_nil _ _ (by omega)
    obtain ⟨c, t, hct⟩ := List.exists_cons_of_ne_nil hne
    rw [hct] at hh
    simp only [List.headD_cons] at hh
    have hd : (decimal n.natAbs ++ rest).dropWhile isspace = decimal n.natAbs ++ rest := by
      rw [hct, List.cons_append, List.dropWhile_cons, not_space_of_digit c hh]
      simp
    unfold strtol
    rw [hd]
    have h45 : ¬ (decimal n.natAbs ++ rest).head? = some 45 := by
      rw [hct]
      simp [isdigit] at hh
      simp
      omega
    have h43 : ¬ (decimal n.natAbs ++ rest).head? = some 43 := by
      rw [hct]
      simp [isdigit] at hh
      simp
      omega
    rw [if_neg h45, if_neg h43, strtol_digits_decimal _ _ hrest]
    unfold LONG_MAX
    omega

theorem strtol_of_not_numeral (tok : List Nat) (htok : isspace (tok.headD 0) = false)
    (hnum : starts_numeral tok = false) : strtol tok = 0 := by
  have hd : tok.dropWhile isspace = tok := by
    simpa using dropWhile_append_of_all isspace [] tok (by simp) htok
  unfold strtol
  rw [hd]
  unfold starts_numeral at hnum
  simp only [Bool.or_eq_false_iff, Bool.and_eq_false_iff] at hnum
  obtain ⟨h1, h2⟩ := hnum
  cases tok with
  | nil => simp [strtol_digits, LONG_MAX]
  | cons c t =>
    simp only [List.headD_cons, List.tail_cons] at h1 h2
    simp only [List.head?_cons, List.tail_cons, Option.some.injEq]
    by_cases h45 : c = 45
    · subst h45
      have ht : isdigit (t.headD 0) = false := by simpa using h2
      simp [strtol_digits_of_not_digit t 0 ht, LONG_MIN]
    · by_cases h43 : c = 43
      · subst h43
        have ht : isdigit (t.headD 0) = false := by simpa using h2
        simp [strtol_digits_of_not_digit t 0 ht, LONG_MAX]
      · simp [h45, h43, strtol_digits, h1, LONG_MAX]


/-- What `json_get_int` does once the first occurrence of its pattern is known. -/
theorem json_get_int_of_first (json key : List Nat) (value : Int) (i : Nat)
    (h : first_occurrence (search_key key) (cstr json) = some i) :
    json_get_int json key value =
      (1, strtol (((cstr json).drop (i + (search_key key).length)).dropWhile isspace)) := by
  unfold json_get_int
  rw [strstr_eq, h]
  simp only [Option.map_some', skip_space_eq, List.drop_drop]

/-- C4, as stated, fails for a key that does not fit the 128-byte search buffer: with a
key of 125 bytes `a` the pattern is cut to `"aaa...a"` without its colon, so
`json_get_int` reports found on a buffer in which the literal `"<key>":` does not occur. -/
theorem json_get_int_long_key_counterexample :
    (json_get_int (34 :: List.replicate 125 97 ++ [34]) (List.replicate 125 97) 5).1 = 1 ∧
      ¬ (34 :: cstr (List.replicate 125 97) ++ [34, 58]) <:+:
          cstr (34 :: List.replicate 125 97 ++ [34]) := by
  set_option maxRecDepth 100000 in decide

/-- C4, amended. For every key of at most 124 bytes: `json_get_int` returns 1 if and only
if the literal `"<key>":` occurs in the buffer; for every integer `n` of the int32 range,
when the first occurrence of the literal is followed by optional white space and the
base-10 numeral of `n` ended by a non-digit, it returns 1 and stores exactly `n`; when
the literal does not occur it returns 0 and leaves the output value unchanged. -/
theorem json_get_int_round_trip (json key : List Nat) (value : Int)
    (hkey : (cstr key).length ≤ 124) :
    ((json_get_int json key value).1 = 1 ↔ (34 :: cstr key ++ [34, 58]) <:+: cstr json) ∧
      (∀ (n : Int) (i : Nat) (ws rest : List Nat),
        -2147483648 ≤ n → n ≤ 2147483647 →
        first_occurrence (34 :: cstr key ++ [34, 58]) (cstr json) = some i →
        (cstr json).drop (i + (34 :: cstr key ++ [34, 58]).length) = ws ++ numeral n ++ rest →
        (∀ c ∈ ws, isspace c = true) → isdigit (rest.headD 0) = false →
        json_get_int json key value = (1, n)) ∧
      (¬ (34 :: cstr key ++ [34, 58]) <:+: cstr json →
        json_get_int json key value = (0, value)) := by
  have hnone : ¬ (34 :: cstr key ++ [34, 58]) <:+: cstr json →
      json_get_int json key value = (0, value) := by
    intro h
    have h0 := (first_occurrence_eq_none _ _).2 h
    unfold json_get_int
    rw [strstr_eq, search_key_eq key hkey, h0]
    rfl
  refine ⟨?_, ?_, hnone⟩
  · constructor
    · intro h
      by_contra hc
      rw [hnone hc] at h
      simp at h
    · intro h
      cases hf : first_occurrence (34 :: cstr key ++ [34, 58]) (cstr json) with
      | none => exact absurd h ((first_occurrence_eq_none _ _).1 hf)
      | some i =>
        rw [← search_key_eq key hkey] at hf
        rw [json_get_int_of_first json key value i hf]
  · intro n i ws rest hlo hhi hfirst hafter hws hrest
    rw [← search_key_eq key hkey] at hfirst hafter
    rw [json_get_int_of_first json key value i hfirst, hafter, List.append_assoc]
    have hsp : isspace ((numeral n ++ rest).headD 0) = false := by
      unfold numeral
      split
      · simp [isspace]
      · have hh := decimal_head_digit n.natAbs
        have hne : decimal n.natAbs ≠ [] := decimal_aux_ne_nil _ _ (by omega)
        obtain ⟨c, t, hct⟩ := List.exists_cons_of_ne_nil hne
        rw [hct] at hh ⊢
        exact not_space_of_digit c (by simpa using hh)
    rw [dropWhile_append_of_all isspace ws _ hws hsp, strtol_numeral n rest hlo hhi hrest]

/-- An instance: the field `x` of `{"x": -12,"y":3}`. -/
theorem json_get_int_round_trip_witness :
    json_get_int (bytes "\x7b\"x\": -12,\"y\":3\x7d") (bytes "x") 99 = (1, -12) :=
  (json_get_int_round_trip (bytes "\x7b\"x\": -12,\"y\":3\x7d") (bytes "x") 99 (by decide)).2.1
    (-12) 1 (bytes " ") (bytes ",\"y\":3\x7d") (by decide) (by decide) (by decide) (by decide)
    (by decide) (by decide)

/-- C5, as stated, fails for a key that does not fit the 128-byte search buffer: for the
127-byte key `aaa...a7` the pattern is cut before the `7`, so on the buffer
`"aaa...a7":null` the conversion starts at `7":null` and stores 7, not 0. -/
theorem json_get_int_non_numeric_counterexample :
    first_occurrence (34 :: cstr (List.replicate 126 97 ++ [55]) ++ [34, 58])
        (cstr (34 :: (List.replicate 126 97 ++ [55]) ++ [34, 58] ++ bytes "null")) = some 0 ∧
      (cstr (34 :: (List.replicate 126 97 ++ [55]) ++ [34, 58] ++ bytes "null")).drop
          (0 + (34 :: cstr (List.replicate 126 97 ++ [55]) ++ [34, 58]).length) = bytes "null" ∧
      starts_numeral (bytes "null") = false ∧
      json_get_int (34 :: (List.replicate 126 97 ++ [55]) ++ [34, 58] ++ bytes "null")
          (List.replicate 126 97 ++ [55]) 5 = (1, 7) := by
  set_option maxRecDepth 100000 in decide

/-- C5, amended. For every key of at most 124 bytes and every buffer in which the first
occurrence of the literal `"<key>":` is followed, after optional white space `ws`, by a
token `tok` (it does not begin with white space) that does not start with an optional
sign and a decimal digit (a quoted string, `true`, `null`, the end of the buffer),
`json_get_int` returns 1 and stores 0. -/
theorem json_get_int_non_numeric (json key : List Nat) (value : Int) (i : Nat)
    (ws tok : List Nat) (hkey : (cstr key).length ≤ 124)
    (hfirst : first_occurrence (34 :: cstr key ++ [34, 58]) (cstr json) = some i)
    (hafter : (cstr json).drop (i + (34 :: cstr key ++ [34, 58]).length) = ws ++ tok)
    (hws : ∀ c ∈ ws, isspace c = true) (htok : isspace (tok.headD 0) = false)
    (hnum : starts_numeral tok = false) :
    json_get_int json key value = (1, 0) := by
  rw [← search_key_eq key hkey] at hfirst hafter
  rw [json_get_int_of_first json key value i hfirst, hafter,
    dropWhile_append_of_all isspace ws tok hws htok, strtol_of_not_numeral tok htok hnum]

/-- An instance: the field `x` of `{"x": null,"y":3}`. -/
theorem json_get_int_non_numeric_witness :
    json_get_int (bytes "\x7b\"x\": null,\"y\":3\x7d") (bytes "x") 99 = (1, 0) :=
  json_get_int_non_numeric (bytes "\x7b\"x\": null,\"y\":3\x7d") (bytes "x") 99 1 (bytes " ")
    (bytes "null,\"y\":3\x7d") (by decide) (by decide) (by decide) (by decide) (by decide)
    (by decide)

/-- C6. For every buffer and key, `json_get_uint` returns 1 if and only if `json_get_int`
returns 1 with a value `v ≥ 0`, and then it stores exactly `v`; otherwise (key absent or
negative value) it returns 0 and leaves the caller's output value unchanged. -/
theorem json_get_uint_rejects_negative (json key : List Nat) (value : Nat) (v0 : Int) :
    ((json_get_uint json key value).1 = 1 ↔
        (json_get_int json key v0).1 = 1 ∧ 0 ≤ (json_get_int json key v0).2) ∧
      ((json_get_uint json key value).1 = 1 →
        ((json_get_uint json key value).2 : Int) = (json_get_int json key v0).2) ∧
      (¬ ((json_get_int json key v0).1 = 1 ∧ 0 ≤ (json_get_int json key v0).2) →
        json_get_uint json key value = (0, value)) := by
  unfold json_get_uint json_get_int
  cases strstr (cstr json) (search_key key) with
  | none => simp
  | some pos =>
    simp only
    by_cases h : strtol (skip_space (List.drop (search_key key).length pos)) < 0
    · simp [h]
    · simp [h]
      omega

/-- An instance: the negative field `x` of `{"x": -12}` is rejected. -/
theorem json_get_uint_rejects_negative_witness :
    json_get_uint (bytes "\x7b\"x\": -12\x7d") (bytes "x") 5 = (0, 5) :=
  (json_get_uint_rejects_negative (bytes "\x7b\"x\": -12\x7d") (bytes "x") 5 0).2.2
    (by decide)


theorem strncmp_true (s : List Nat) :
    strncmp s [116, 114, 117, 101] 4 = 0 ↔ [116, 114, 117, 101] <+: s := by
  rcases s with _ | ⟨x0, _ | ⟨x1, _ | ⟨x2, _ | ⟨x3, t⟩⟩⟩⟩
  · simp [strncmp]
  · by_cases h0 : x0 = 116
    · simp [strncmp, h0, List.prefix_cons_inj]
    · simp [strncmp, h0, List.prefix_cons_inj, sub_eq_zero]
      omega
  · by_cases h0 : x0 = 116 <;> by_cases h1 : x1 = 114 <;>
      simp [strncmp, h0, h1, List.prefix_cons_inj, sub_eq_zero] <;> omega
  · by_cases h0 : x0 = 116 <;> by_cases h1 : x1 = 114 <;> by_cases h2 : x2 = 117 <;>
      simp [strncmp, h0, h1, h2, List.prefix_cons_inj, sub_eq_zero] <;> omega
  · by_cases h0 : x0 = 116 <;> by_cases h1 : x1 = 114 <;> by_cases h2 : x2 = 117 <;>
      by_cases h3 : x3 = 101 <;>
      simp [strncmp, h0, h1, h2, h3, List.prefix_cons_inj, sub_eq_zero] <;> omega


/-- What `json_is_success` does once the first occurrence of `"success":` is known. -/
theorem json_is_success_of_first (json : List Nat) (i : Nat)
    (h : first_occurrence (bytes "\"success\":") (cstr json) = some i) :
    json_is_success json =
      if bytes "true" <+:
          ((cstr json).drop (i + (bytes "\"success\":").length)).dropWhile isspace
      then 1 else 0 := by
  unfold json_is_success
  rw [strstr_eq, h]
  simp only [Option.map_some', skip_space_eq, List.drop_drop]
  have ht : bytes "true" = [116, 114, 117, 101] := by decide
  rw [ht]
  simp only [strncmp_true]

/-- C7, as stated, fails: the buffer `{"success":false,"success":true}` contains the
literal `"success":` followed by `true`, yet `json_is_success` returns 0; and the buffer
`{"success":true,"success":false}` contains `"success":false`, yet it returns 1. -/
theorem json_is_success_later_occurrence_counterexample :
    (∃ pre ws rest : List Nat,
        cstr (bytes "\x7b\"success\":false,\"success\":true\x7d") =
          pre ++ bytes "\"success\":" ++ ws ++ bytes "true" ++ rest ∧
        ∀ c ∈ ws, isspace c = true) ∧
      json_is_success (bytes "\x7b\"success\":false,\"success\":true\x7d") = 0 ∧
      bytes "\"success\":false" <:+: cstr (bytes "\x7b\"success\":true,\"success\":false\x7d") ∧
      json_is_success (bytes "\x7b\"success\":true,\"success\":false\x7d") = 1 := by
  refine ⟨⟨bytes "\x7b\"success\":false,", [], bytes "\x7d", by decide, by simp⟩, ?_, ?_, ?_⟩ <;>
    decide

/-- C7, amended. For every buffer, `json_is_success` returns 1 if and only if the literal
`"success":` occurs and its FIRST occurrence is followed by optional white space and then
the literal `true`, and returns 0 otherwise; in particular it returns 0 when the first
occurrence is followed by optional white space and `false`. -/
theorem json_is_success_first_occurrence (json : List Nat) :
    (json_is_success json = 1 ↔
        ∃ (i : Nat) (ws rest : List Nat),
          first_occurrence (bytes "\"success\":") (cstr json) = some i ∧
          (cstr json).drop (i + (bytes "\"success\":").length) = ws ++ bytes "true" ++ rest ∧
          ∀ c ∈ ws, isspace c = true) ∧
      (json_is_success json = 1 ∨ json_is_success json = 0) ∧
      (∀ (i : Nat) (ws rest : List Nat),
          first_occurrence (bytes "\"success\":") (cstr json) = some i →
          (cstr json).drop (i + (bytes "\"success\":").length) = ws ++ bytes "false" ++ rest →
          (∀ c ∈ ws, isspace c = true) → json_is_success json = 0) := by
  have ht : isspace ((bytes "true").headD 0) = false := by decide
  refine ⟨?_, ?_, ?_⟩
  · constructor
    · intro h
      cases hf : first_occurrence (bytes "\"success\":") (cstr json) with
      | none =>
        unfold json_is_success at h
        rw [strstr_eq, hf] at h
        simp at h
      | some i =>
        rw [json_is_success_of_first json i hf] at h
        split at h
        · rename_i hp
          obtain ⟨rest, hrest⟩ := hp
          refine ⟨i, List.takeWhile isspace
            ((cstr json).drop (i + (bytes "\"success\":").length)), rest, rfl, ?_, ?_⟩
          · rw [List.append_assoc, hrest, List.takeWhile_append_dropWhile]
          · intro c hc
            exact (List.mem_takeWhile_imp hc)
        · exact absurd h (by decide)
    · rintro ⟨i, ws, rest, hfirst, hafter, hws⟩
      rw [json_is_success_of_first json i hfirst, hafter, List.append_assoc,
        dropWhile_append_of_all isspace ws _ hws (by
          have e : (bytes "true" ++ rest).headD 0 = (bytes "true").headD 0 := by
            have : bytes "true" = [116, 114, 117, 101] := by decide
            rw [this]
            rfl
          rw [e]
          exact ht)]
      simp
  · unfold json_is_success
    split
    · exact Or.inr rfl
    · split
      · exact Or.inl rfl
      · exact Or.inr rfl
  · intro i ws rest hfirst hafter hws
    have hf : bytes "false" = [102, 97, 108, 115, 101] := by decide
    have htr : bytes "true" = [116, 114, 117, 101] := by decide
    rw [json_is_success_of_first json i hfirst, hafter, List.append_assoc,
      dropWhile_append_of_all isspace ws _ hws (by rw [hf]; rfl), hf, htr]
    simp [List.prefix_cons_inj]

/-- An instance: the buffer `{"success": true}`. -/
theorem json_is_success_first_occurrence_witness :
    json_is_success (bytes "\x7b\"success\": true\x7d") = 1 :=
  (json_is_success_first_occurrence (bytes "\x7b\"success\": true\x7d")).1.2
    ⟨1, bytes " ", bytes "\x7d", by decide, by decide, by decide⟩


/-! ## Lemmas on the transport -/

/-- More fuel than `10 - retry` does not change the result of the retry loop. -/
theorem read_retry_fuel (dev : Device) (devicespec : List Nat) (len extra : Nat) :
    ∀ (fuel : Nat) (bytes_read : Int) (retry : Nat) (response : Nat → Nat) (w : Wire),
      fuel + retry = 10 →
      read_retry dev devicespec len (fuel + extra) bytes_read retry response w =
        read_retry dev devicespec len fuel bytes_read retry response w := by
  intro fuel
  induction fuel with
  | zero =>
    intro b retry response w h
    cases extra with
    | zero => rfl
    | succ e =>
      have hr : ¬ (b = 0 ∧ retry < 10) := by omega
      simp only [Nat.zero_add, read_retry, if_neg hr]
  | succ f ih =>
    intro b retry response w h
    rw [show f + 1 + extra = (f + extra) + 1 by omega]
    simp only [read_retry]
    split
    · exact ih _ _ _ _ (by omega)
    · rfl

theorem network_read_nb_count (dev : Device) (w : Wire) (d : List Nat) (buf : Nat → Nat)
    (len : Nat) : (network_read_nb dev w d buf len).1 = (dev.read_nb w.reads len).1 := rfl

theorem network_read_nb_reads (dev : Device) (w : Wire) (d : List Nat) (buf : Nat → Nat)
    (len : Nat) : (network_read_nb dev w d buf len).2.2.reads = w.reads + 1 := rfl

theorem network_read_nb_trace (dev : Device) (w : Wire) (d : List Nat) (buf : Nat → Nat)
    (len : Nat) :
    (network_read_nb dev w d buf len).2.2.trace =
      w.trace ++ [DevCall.network_read_nb d len] := rfl

/-- The retry loop, summarised: it makes `m ≤ fuel` further reads, all but the last of
which returned zero, and ends on a non-zero count or with the fuel used up. -/
theorem read_retry_spec (dev : Device) (devicespec : List Nat) (len : Nat) :
    ∀ (fuel : Nat) (bytes_read : Int) (retry : Nat) (response : Nat → Nat) (w : Wire),
      fuel + retry = 10 →
      ∃ m, m ≤ fuel ∧
        (read_retry dev devicespec len fuel bytes_read retry response w).2.2.reads =
          w.reads + m ∧
        (read_retry dev devicespec len fuel bytes_read retry response w).2.2.trace =
          w.trace ++ List.replicate m (DevCall.network_read_nb devicespec len) ∧
        (m = 0 → (read_retry dev devicespec len fuel bytes_read retry response w).1 =
          bytes_read) ∧
        (0 < m → bytes_read = 0 ∧
          (read_retry dev devicespec len fuel bytes_read retry response w).1 =
            (dev.read_nb (w.reads + m - 1) len).1) ∧
        (∀ j, j + 1 < m → (dev.read_nb (w.reads + j) len).1 = 0) ∧
        ((read_retry dev devicespec len fuel bytes_read retry response w).1 ≠ 0 ∨
          m = fuel) := by
  intro fuel
  induction fuel with
  | zero =>
    intro b retry response w _
    exact ⟨0, le_refl _, rfl, by simp [read_retry], fun _ => rfl,
      fun h => absurd h (by omega), fun j hj => absurd hj (by omega), Or.inr rfl⟩
  | succ f ih =>
    intro b retry response w h
    by_cases hb : b = 0
    · have hc : b = 0 ∧ retry < 10 := ⟨hb, by omega⟩
      simp only [read_retry, if_pos hc]
      obtain ⟨m, hm, hreads, htrace, hzero, hpos, hall, hend⟩ :=
        ih (network_read_nb dev w devicespec response len).1 (retry + 1)
          (network_read_nb dev w devicespec response len).2.1
          (network_read_nb dev w devicespec response len).2.2 (by omega)
      simp only [network_read_nb_count, network_read_nb_reads, network_read_nb_trace]
        at hreads htrace hzero hpos hall hend ⊢
      refine ⟨m + 1, by omega, ?_, ?_, fun h0 => absurd h0 (by omega), fun _ => ⟨hb, ?_⟩,
        ?_, ?_⟩
      · rw [hreads]
        omega
      · rw [htrace]
        simp only [List.append_assoc, List.singleton_append, List.replicate_succ]
      · by_cases hm0 : m = 0
        · rw [hzero hm0, hm0]
          rfl
        · rw [(hpos (by omega)).2, show w.reads + 1 + m - 1 = w.reads + (m + 1) - 1 by omega]
      · intro j hj
        by_cases hj0 : j = 0
        · subst hj0
          exact (hpos (by omega)).1
        · have := hall (j - 1) (by omega)
          rw [show w.reads + j = w.reads + 1 + (j - 1) by omega]
          exact this
      · rcases hend with h1 | h1
        · exact Or.inl h1
        · exact Or.inr (by omega)
    · have hc : ¬ (b = 0 ∧ retry < 10) := fun h => hb h.1
      have e : read_retry dev devicespec len (f + 1) b retry response w = (b, response, w) := by
        simp only [read_retry, if_neg hc]
      rw [e]
      exact ⟨0, by omega, rfl, by simp, fun _ => rfl, fun h => absurd h (by omega),
        fun j hj => absurd hj (by omega), Or.inl hb⟩

/-- The read phase, summarised: it makes `N` reads, `1 ≤ N ≤ 11`, then closes; all reads
but the last returned zero, the result is the count of the last read, and either that
count is non-zero or all 11 reads were made. -/
theorem read_response_spec (dev : Device) (w : Wire) (device_spec : List Nat)
    (response : Nat → Nat) (response_len : Nat) (hw : w.reads = 0) :
    ∃ N, 1 ≤ N ∧ N ≤ 11 ∧
      (read_response dev w device_spec response response_len).trace =
        w.trace ++ List.replicate N
            (DevCall.network_read_nb device_spec ((response_len + 65535) % 65536)) ++
          [DevCall.network_close device_spec] ∧
      (read_response dev w device_spec response response_len).ret =
        read_count dev response_len (N - 1) ∧
      (∀ j < N - 1, read_count dev response_len j = 0) ∧
      (read_count dev response_len (N - 1) ≠ 0 ∨ N = 11) := by
  obtain ⟨m, hm, -, htrace, hzero, hpos, hall, hend⟩ :=
    read_retry_spec dev device_spec ((response_len + 65535) % 65536) 10
      (network_read_nb dev w device_spec response ((response_len + 65535) % 65536)).1 0
      (network_read_nb dev w device_spec response ((response_len + 65535) % 65536)).2.1
      (network_read_nb dev w device_spec response ((response_len + 65535) % 65536)).2.2
      (by omega)
  simp only [network_read_nb_count, network_read_nb_reads, network_read_nb_trace, hw,
    Nat.zero_add] at htrace hzero hpos hall hend
  have hret : (read_response dev w device_spec response response_len).ret =
      read_count dev response_len m := by
    simp only [read_response, read_count, network_read_nb_count, hw]
    by_cases hm0 : m = 0
    · rw [hzero hm0, hm0]
    · rw [(hpos (by omega)).2, show 1 + m - 1 = m by omega]
  refine ⟨m + 1, by omega, by omega, ?_, by simpa using hret, ?_, ?_⟩
  · simp only [read_response, network_close, network_read_nb_count, hw, htrace]
    simp only [List.append_assoc, List.singleton_append, List.replicate_succ,
      List.cons_append, List.nil_append]
  · intro j hj
    by_cases hj0 : j = 0
    · subst hj0
      exact (hpos (by omega)).1
    · have := hall (j - 1) (by omega)
      unfold read_count
      rw [show j = 1 + (j - 1) by omega]
      exact this
  · rw [Nat.add_sub_cancel, ← hret]
    rcases hend with h1 | h1
    · left
      simpa only [read_response, network_read_nb_count, hw] using h1
    · right
      omega


theorem read_calls_append (s t : List DevCall) :
    read_calls (s ++ t) = read_calls s + read_calls t := by
  simp [read_calls, List.countP_append]

theorem read_calls_replicate (n : Nat) (d : List Nat) (len : Nat) :
    read_calls (List.replicate n (DevCall.network_read_nb d len)) = n := by
  induction n with
  | zero => rfl
  | succ k ih =>
    rw [List.replicate_succ, show DevCall.network_read_nb d len ::
      List.replicate k (DevCall.network_read_nb d len) =
      [DevCall.network_read_nb d len] ++ List.replicate k (DevCall.network_read_nb d len)
      from rfl, read_calls_append, ih]
    simp [read_calls, is_read]
    omega

/-- The read phase in terms of the number of reads it makes. -/
theorem read_response_calls (dev : Device) (w : Wire) (device_spec : List Nat)
    (response : Nat → Nat) (response_len : Nat) (hw : w.reads = 0)
    (hpre : read_calls w.trace = 0) :
    1 ≤ read_calls (read_response dev w device_spec response response_len).trace ∧
      read_calls (read_response dev w device_spec response response_len).trace ≤ 11 ∧
      (read_response dev w device_spec response response_len).trace =
        w.trace ++ List.replicate
            (read_calls (read_response dev w device_spec response response_len).trace)
            (DevCall.network_read_nb device_spec ((response_len + 65535) % 65536)) ++
          [DevCall.network_close device_spec] ∧
      (read_response dev w device_spec response response_len).ret =
        read_count dev response_len
          (read_calls (read_response dev w device_spec response response_len).trace - 1) ∧
      (∀ j < read_calls (read_response dev w device_spec response response_len).trace - 1,
        read_count dev response_len j = 0) ∧
      ((read_response dev w device_spec response response_len).ret ≠ 0 ∨
        read_calls (read_response dev w device_spec response response_len).trace = 11) := by
  obtain ⟨N, h1, h2, htrace, hret, hall, hend⟩ :=
    read_response_spec dev w device_spec response response_len hw
  have hN : read_calls (read_response dev w device_spec response response_len).trace = N := by
    rw [htrace, read_calls_append, read_calls_append, read_calls_replicate, hpre]
    simp [read_calls, is_read]
  rw [hN]
  refine ⟨h1, h2, htrace, hret, hall, ?_⟩
  rw [hret]
  exact hend

theorem kz_network_http_get_ok (cfg : Config) (dev : Device) (path : List Nat)
    (response : Nat → Nat) (response_len : Nat) (hopen : dev.open_status = FN_ERR_OK) :
    kz_network_http_get cfg dev network_status_t.NET_CONNECTED path response response_len =
      read_response dev
        ⟨0, [DevCall.network_open (build_device_spec cfg path) open_mode.OPEN_MODE_HTTP_GET]⟩
        (build_device_spec cfg path) response response_len := by
  simp [kz_network_http_get, network_open, hopen]

theorem kz_network_http_post_ok (cfg : Config) (dev : Device) (path body : List Nat)
    (response : Nat → Nat) (response_len : Nat) (hopen : dev.open_status = FN_ERR_OK)
    (hstart : dev.start_add_headers_status = FN_ERR_OK)
    (hadd : dev.add_header_status = FN_ERR_OK)
    (hend : dev.end_add_headers_status = FN_ERR_OK) (hpost : dev.post_status = FN_ERR_OK) :
    kz_network_http_post cfg dev network_status_t.NET_CONNECTED path body response
        response_len =
      read_response dev
        ⟨0, [DevCall.network_open (build_device_spec cfg path) open_mode.OPEN_MODE_HTTP_POST,
          DevCall.network_http_start_add_headers (build_device_spec cfg path),
          DevCall.network_http_add_header (build_device_spec cfg path)
            (bytes "Content-Type: application/json"),
          DevCall.network_http_end_add_headers (build_device_spec cfg path),
          DevCall.network_http_post (build_device_spec cfg path) (cstr body)]⟩
        (build_device_spec cfg path) response response_len := by
  simp [kz_network_http_post, network_open, network_http_start_add_headers,
    network_http_add_header, network_http_end_add_headers, network_http_post, hopen, hstart,
    hadd, hend, hpost]

/-- Number of reads of the read phase, from the index of the first non-zero read. -/
theorem read_response_count (dev : Device) (w : Wire) (device_spec : List Nat)
    (response : Nat → Nat) (response_len : Nat) (hw : w.reads = 0)
    (hpre : read_calls w.trace = 0) :
    (∀ a, attempts_until_nonzero dev response_len a →
        read_calls (read_response dev w device_spec response response_len).trace =
          min a 11) ∧
      ((∀ j, read_count dev response_len j = 0) →
        read_calls (read_response dev w device_spec response response_len).trace = 11) := by
  obtain ⟨h1, h2, -, hret, hall, hend⟩ :=
    read_response_calls dev w device_spec response response_len hw hpre
  rw [hret] at hend
  generalize read_calls (read_response dev w device_spec response response_len).trace = N
    at h1 h2 hall hend
  constructor
  · rintro a ⟨ha1, ha2, ha3⟩
    rcases Nat.lt_trichotomy (N - 1) (a - 1) with h | h | h
    · have h0 := ha3 (N - 1) h
      rcases hend with hne | h11
      · exact absurd h0 hne
      · omega
    · omega
    · exact absurd (hall (a - 1) h) ha2
  · intro hz
    rcases hend with hne | h11
    · exact absurd (hz _) hne
    · exact h11


/-- The read phase when the first `k ≤ 10` reads return zero and the next one does not. -/
theorem read_response_first_data (dev : Device) (w : Wire) (device_spec : List Nat)
    (response : Nat → Nat) (response_len : Nat) (hw : w.reads = 0)
    (hpre : read_calls w.trace = 0) (k : Nat) (hk : k ≤ 10)
    (hzero : ∀ j < k, read_count dev response_len j = 0)
    (hread : read_count dev response_len k ≠ 0) :
    (read_response dev w device_spec response response_len).ret =
        read_count dev response_len k ∧
      read_calls (read_response dev w device_spec response response_len).trace = k + 1 ∧
      (read_response dev w device_spec response response_len).trace =
        w.trace ++ List.replicate (k + 1)
            (DevCall.network_read_nb device_spec ((response_len + 65535) % 65536)) ++
          [DevCall.network_close device_spec] := by
  have hcount := (read_response_count dev w device_spec response response_len hw hpre).1
    (k + 1) ⟨by omega, by simpa using hread, by simpa using hzero⟩
  obtain ⟨-, -, htrace, hret, -, -⟩ :=
    read_response_calls dev w device_spec response response_len hw hpre
  have hN : read_calls (read_response dev w device_spec response response_len).trace =
      k + 1 := by
    rw [hcount]
    omega
  rw [hN] at htrace hret
  exact ⟨by simpa using hret, hN, htrace⟩

/-- The read phase returns zero exactly when every read it made returned zero, and then
it made all 11 reads. -/
theorem read_response_zero (dev : Device) (w : Wire) (device_spec : List Nat)
    (response : Nat → Nat) (response_len : Nat) (hw : w.reads = 0)
    (hpre : read_calls w.trace = 0) :
    ((read_response dev w device_spec response response_len).ret = 0 ↔
        ∀ j < read_calls (read_response dev w device_spec response response_len).trace,
          read_count dev response_len j = 0) ∧
      ((read_response dev w device_spec response response_len).ret = 0 →
        read_calls (read_response dev w device_spec response response_len).trace = 11) := by
  obtain ⟨h1, h2, -, hret, hall, hend⟩ :=
    read_response_calls dev w device_spec response response_len hw hpre
  generalize read_calls (read_response dev w device_spec response response_len).trace = N
    at h1 h2 hret hall hend
  refine ⟨⟨?_, ?_⟩, ?_⟩
  · intro h0 j hj
    by_cases hjN : j = N - 1
    · rw [hjN, ← hret, h0]
    · exact hall j (by omega)
  · intro h
    rw [hret]
    exact h (N - 1) (by omega)
  · intro h0
    rcases hend with hne | h11
    · exact absurd h0 hne
    · exact h11

/-! ## Theorems on the transport -/

/-- C8, as stated, fails: on a transport whose first ten reads return zero and whose
eleventh returns 5 bytes, the first non-zero read is attempt 11, `min 11 10 = 10`, yet
GET and POST both make 11 reads (the first read and ten retries) and return 5; on a
transport that only ever returns zero they make 11 reads as well, not 10. -/
theorem read_retry_bound_counterexample :
    attempts_until_nonzero (scripted_device [0, 0, 0, 0, 0, 0, 0, 0, 0, 0, 5]) 2048 11 ∧
      read_calls (kz_network_http_get sample_config
        (scripted_device [0, 0, 0, 0, 0, 0, 0, 0, 0, 0, 5]) network_status_t.NET_CONNECTED
        (bytes "/api/health") (fun _ => 0) 2048).trace = 11 ∧
      (kz_network_http_get sample_config
        (scripted_device [0, 0, 0, 0, 0, 0, 0, 0, 0, 0, 5]) network_status_t.NET_CONNECTED
        (bytes "/api/health") (fun _ => 0) 2048).ret = 5 ∧
      read_calls (kz_network_http_post sample_config
        (scripted_device [0, 0, 0, 0, 0, 0, 0, 0, 0, 0, 5]) network_status_t.NET_CONNECTED
        (bytes "/api/player/join") (bytes "\x7b\"name\":\"a\"\x7d") (fun _ => 0) 2048).trace = 11 ∧
      read_calls (kz_network_http_get sample_config (scripted_device [])
        network_status_t.NET_CONNECTED (bytes "/api/health") (fun _ => 0) 2048).trace = 11 ∧
      (11 : Nat) ≠ min 11 10 := by
  unfold attempts_until_nonzero
  decide

/-- C8, amended. For every simulated transport and every connected exchange of
`kz_network_http_get` or `kz_network_http_post` whose open (and, for POST, header and
submit steps) succeed, the number of read calls is `min a 11` when the first read that
returns a non-zero count is the `a`-th one (counted from 1), and 11 when every read
returns zero: the first read followed by at most 10 retries. -/
theorem read_retry_call_count (cfg : Config) (dev : Device) (path body : List Nat)
    (response : Nat → Nat) (response_len : Nat) (hopen : dev.open_status = FN_ERR_OK) :
    ((∀ a, attempts_until_nonzero dev response_len a →
          read_calls (kz_network_http_get cfg dev network_status_t.NET_CONNECTED path
            response response_len).trace = min a 11) ∧
        ((∀ j, read_count dev response_len j = 0) →
          read_calls (kz_network_http_get cfg dev network_status_t.NET_CONNECTED path
            response response_len).trace = 11)) ∧
      (dev.start_add_headers_status = FN_ERR_OK → dev.add_header_status = FN_ERR_OK →
        dev.end_add_headers_status = FN_ERR_OK → dev.post_status = FN_ERR_OK →
        (∀ a, attempts_until_nonzero dev response_len a →
          read_calls (kz_network_http_post cfg dev network_status_t.NET_CONNECTED path body
            response response_len).trace = min a 11) ∧
        ((∀ j, read_count dev response_len j = 0) →
          read_calls (kz_network_http_post cfg dev network_status_t.NET_CONNECTED path body
            response response_len).trace = 11)) := by
  constructor
  · rw [kz_network_http_get_ok cfg dev path response response_len hopen]
    exact read_response_count dev _ _ response response_len (by rfl) (by rfl)
  · intro hstart hadd hend hpost
    rw [kz_network_http_post_ok cfg dev path body response response_len hopen hstart hadd
      hend hpost]
    exact read_response_count dev _ _ response response_len (by rfl) (by rfl)

/-- An instance: a transport that returns 0, 0 and then 7 bytes. -/
theorem read_retry_call_count_witness :
    read_calls (kz_network_http_get sample_config (scripted_device [0, 0, 7])
        network_status_t.NET_CONNECTED (bytes "/api/health") (fun _ => 0) 2048).trace =
      min 3 11 :=
  (read_retry_call_count sample_config (scripted_device [0, 0, 7]) (bytes "/api/health")
    (bytes "\x7b\x7d") (fun _ => 0) 2048 (by decide)).1.1 3 (by unfold attempts_until_nonzero; decide)

/-- C9. For every `k < 10` and every `n > 0`, on a transport whose first `k` reads return
zero and whose next read returns `n`, a connected exchange of `kz_network_http_get` with
a successful open returns `n` and makes exactly `k + 1` reads, the close following the
read that returned `n`; the same holds for `kz_network_http_post` after successful
header and submit steps. -/
theorem read_stops_at_first_data (cfg : Config) (dev : Device) (path body : List Nat)
    (response : Nat → Nat) (response_len : Nat) (k : Nat) (n : Int) (hk : k < 10)
    (hn : 0 < n) (hopen : dev.open_status = FN_ERR_OK)
    (hzero : ∀ j < k, read_count dev response_len j = 0)
    (hread : read_count dev response_len k = n) :
    ((kz_network_http_get cfg dev network_status_t.NET_CONNECTED path response
          response_len).ret = n ∧
        read_calls (kz_network_http_get cfg dev network_status_t.NET_CONNECTED path response
          response_len).trace = k + 1 ∧
        (kz_network_http_get cfg dev network_status_t.NET_CONNECTED path response
          response_len).trace =
          [DevCall.network_open (build_device_spec cfg path) open_mode.OPEN_MODE_HTTP_GET] ++
            List.replicate (k + 1) (DevCall.network_read_nb (build_device_spec cfg path)
              ((response_len + 65535) % 65536)) ++
            [DevCall.network_close (build_device_spec cfg path)]) ∧
      (dev.start_add_headers_status = FN_ERR_OK → dev.add_header_status = FN_ERR_OK →
        dev.end_add_headers_status = FN_ERR_OK → dev.post_status = FN_ERR_OK →
        (kz_network_http_post cfg dev network_status_t.NET_CONNECTED path body response
          response_len).ret = n ∧
        read_calls (kz_network_http_post cfg dev network_status_t.NET_CONNECTED path body
          response response_len).trace = k + 1 ∧
        (kz_network_http_post cfg dev network_status_t.NET_CONNECTED path body response
          response_len).trace =
          [DevCall.network_open (build_device_spec cfg path) open_mode.OPEN_MODE_HTTP_POST,
            DevCall.network_http_start_add_headers (build_device_spec cfg path),
            DevCall.network_http_add_header (build_device_spec cfg path)
              (bytes "Content-Type: application/json"),
            DevCall.network_http_end_add_headers (build_device_spec cfg path),
            DevCall.network_http_post (build_device_spec cfg path) (cstr body)] ++
            List.replicate (k + 1) (DevCall.network_read_nb (build_device_spec cfg path)
              ((response_len + 65535) % 65536)) ++
            [DevCall.network_close (build_device_spec cfg path)]) := by
  have hne : read_count dev response_len k ≠ 0 := by
    rw [hread]
    omega
  constructor
  · rw [kz_network_http_get_ok cfg dev path response response_len hopen, ← hread]
    exact read_response_first_data dev _ _ response response_len (by rfl) (by rfl) k (by omega) hzero
      hne
  · intro hstart hadd hend hpost
    rw [kz_network_http_post_ok cfg dev path body response response_len hopen hstart hadd
      hend hpost, ← hread]
    exact read_response_first_data dev _ _ response response_len (by rfl) (by rfl) k (by omega) hzero
      hne

/-- An instance: a transport that returns 0, 0 and then 7 bytes. -/
theorem read_stops_at_first_data_witness :
    (kz_network_http_get sample_config (scripted_device [0, 0, 7])
        network_status_t.NET_CONNECTED (bytes "/api/health") (fun _ => 0) 2048).ret = 7 ∧
      read_calls (kz_network_http_get sample_config (scripted_device [0, 0, 7])
        network_status_t.NET_CONNECTED (bytes "/api/health") (fun _ => 0) 2048).trace =
        2 + 1 :=
  have h := (read_stops_at_first_data sample_config (scripted_device [0, 0, 7])
    (bytes "/api/health") (bytes "\x7b\x7d") (fun _ => 0) 2048 2 7 (by decide) (by decide)
    (by decide) (by decide) (by decide)).1
  ⟨h.1, h.2.1⟩

/-- C10. The result of `kz_network_http_get` is 0 exactly when the client is connected,
the open succeeded and every read call made returned zero bytes (and then all 11 reads
were made); the result of `kz_network_http_post` is 0 exactly when the client is
connected, the open, the three header steps and the submit succeeded and every read call
made returned zero bytes; when the client is not connected or one of those steps fails
the result is -1. -/
theorem no_data_is_not_failure (cfg : Config) (dev : Device)
    (current_status : network_status_t) (path body : List Nat) (response : Nat → Nat)
    (response_len : Nat) :
    ((kz_network_http_get cfg dev current_status path response response_len).ret = 0 ↔
        current_status = network_status_t.NET_CONNECTED ∧ dev.open_status = FN_ERR_OK ∧
        ∀ j < read_calls
            (kz_network_http_get cfg dev current_status path response response_len).trace,
          read_count dev response_len j = 0) ∧
      ((kz_network_http_get cfg dev current_status path response response_len).ret = 0 →
        read_calls
          (kz_network_http_get cfg dev current_status path response response_len).trace =
          11) ∧
      (current_status ≠ network_status_t.NET_CONNECTED ∨ dev.open_status ≠ FN_ERR_OK →
        (kz_network_http_get cfg dev current_status path response response_len).ret = -1) ∧
      ((kz_network_http_post cfg dev current_status path body response response_len).ret =
          0 ↔
        current_status = network_status_t.NET_CONNECTED ∧ dev.open_status = FN_ERR_OK ∧
        dev.start_add_headers_status = FN_ERR_OK ∧ dev.add_header_status = FN_ERR_OK ∧
        dev.end_add_headers_status = FN_ERR_OK ∧ dev.post_status = FN_ERR_OK ∧
        ∀ j < read_calls
            (kz_network_http_post cfg dev current_status path body response
              response_len).trace,
          read_count dev response_len j = 0) ∧
      ((kz_network_http_post cfg dev current_status path body response response_len).ret =
          0 →
        read_calls
          (kz_network_http_post cfg dev current_status path body response
            response_len).trace = 11) ∧
      (current_status ≠ network_status_t.NET_CONNECTED ∨ dev.open_status ≠ FN_ERR_OK ∨
          dev.start_add_headers_status ≠ FN_ERR_OK ∨ dev.add_header_status ≠ FN_ERR_OK ∨
          dev.end_add_headers_status ≠ FN_ERR_OK ∨ dev.post_status ≠ FN_ERR_OK →
        (kz_network_http_post cfg dev current_status path body response response_len).ret =
          -1) := by
  have hget : current_status ≠ network_status_t.NET_CONNECTED ∨
      dev.open_status ≠ FN_ERR_OK →
      (kz_network_http_get cfg dev current_status path response response_len).ret = -1 := by
    intro h
    unfold kz_network_http_get
    by_cases hs : current_status = network_status_t.NET_CONNECTED
    · have ho : dev.open_status ≠ FN_ERR_OK := h.resolve_left (fun hc => hc hs)
      simp [hs, network_open, ho]
    · simp [hs]
  have hpost : current_status ≠ network_status_t.NET_CONNECTED ∨
      dev.open_status ≠ FN_ERR_OK ∨ dev.start_add_headers_status ≠ FN_ERR_OK ∨
      dev.add_header_status ≠ FN_ERR_OK ∨ dev.end_add_headers_status ≠ FN_ERR_OK ∨
      dev.post_status ≠ FN_ERR_OK →
      (kz_network_http_post cfg dev current_status path body response response_len).ret =
        -1 := by
    intro h
    unfold kz_network_http_post
    by_cases hs : current_status = network_status_t.NET_CONNECTED
    · by_cases h1 : dev.open_status = FN_ERR_OK
      · by_cases h2 : dev.start_add_headers_status = FN_ERR_OK
        · by_cases h3 : dev.add_header_status = FN_ERR_OK
          · by_cases h4 : dev.end_add_headers_status = FN_ERR_OK
            · have h5 : dev.post_status ≠ FN_ERR_OK := by tauto
              simp [hs, network_open, network_http_start_add_headers,
                network_http_add_header, network_http_end_add_headers, network_http_post,
                h1, h2, h3, h4, h5]
            · simp [hs, network_open, network_http_start_add_headers,
                network_http_add_header, network_http_end_add_headers, h1, h2, h3, h4]
          · simp [hs, network_open, network_http_start_add_headers,
              network_http_add_header, h1, h2, h3]
        · simp [hs, network_open, network_http_start_add_headers, h1, h2]
      · simp [hs, network_open, h1]
    · simp [hs]
  refine ⟨?_, ?_, hget, ?_, ?_, hpost⟩
  · by_cases hok : current_status = network_status_t.NET_CONNECTED ∧
        dev.open_status = FN_ERR_OK
    · obtain ⟨hs, ho⟩ := hok
      subst hs
      rw [kz_network_http_get_ok cfg dev path response response_len ho]
      simp only [true_and, ho]
      exact (read_response_zero dev _ _ response response_len (by rfl) (by rfl)).1
    · have hm := hget (by tauto)
      constructor
      · intro h0
        rw [hm] at h0
        exact absurd h0 (by decide)
      · intro h
        exact absurd ⟨h.1, h.2.1⟩ hok
  · intro h0
    by_cases hok : current_status = network_status_t.NET_CONNECTED ∧
        dev.open_status = FN_ERR_OK
    · obtain ⟨hs, ho⟩ := hok
      subst hs
      rw [kz_network_http_get_ok cfg dev path response response_len ho] at h0 ⊢
      exact (read_response_zero dev _ _ response response_len (by rfl) (by rfl)).2 h0
    · rw [hget (by tauto)] at h0
      exact absurd h0 (by decide)
  · by_cases hok : current_status = network_status_t.NET_CONNECTED ∧
        dev.open_status = FN_ERR_OK ∧ dev.start_add_headers_status = FN_ERR_OK ∧
        dev.add_header_status = FN_ERR_OK ∧ dev.end_add_headers_status = FN_ERR_OK ∧
        dev.post_status = FN_ERR_OK
    · obtain ⟨hs, h1, h2, h3, h4, h5⟩ := hok
      subst hs
      rw [kz_network_http_post_ok cfg dev path body response response_len h1 h2 h3 h4 h5]
      simp only [true_and, h1, h2, h3, h4, h5]
      exact (read_response_zero dev _ _ response response_len (by rfl) (by rfl)).1
    · have hm := hpost (by tauto)
      constructor
      · intro h0
        rw [hm] at h0
        exact absurd h0 (by decide)
      · intro h
        exact absurd ⟨h.1, h.2.1, h.2.2.1, h.2.2.2.1, h.2.2.2.2.1, h.2.2.2.2.2.1⟩ hok
  · intro h0
    by_cases hok : current_status = network_status_t.NET_CONNECTED ∧
        dev.open_status = FN_ERR_OK ∧ dev.start_add_headers_status = FN_ERR_OK ∧
        dev.add_header_status = FN_ERR_OK ∧ dev.end_add_headers_status = FN_ERR_OK ∧
        dev.post_status = FN_ERR_OK
    · obtain ⟨hs, h1, h2, h3, h4, h5⟩ := hok
      subst hs
      rw [kz_network_http_post_ok cfg dev path body response response_len h1 h2 h3 h4 h5]
        at h0 ⊢
      exact (read_response_zero dev _ _ response response_len (by rfl) (by rfl)).2 h0
    · rw [hpost (by tauto)] at h0
      exact absurd h0 (by decide)

/-- An instance: a connected GET on a transport that only ever returns zero bytes. -/
theorem no_data_is_not_failure_witness :
    (kz_network_http_get sample_config (scripted_device []) network_status_t.NET_CONNECTED
      (bytes "/api/health") (fun _ => 0) 2048).ret = 0 :=
  (no_data_is_not_failure sample_config (scripted_device []) network_status_t.NET_CONNECTED
    (bytes "/api/health") (bytes "\x7b\x7d") (fun _ => 0) 2048).1.2
    ⟨rfl, rfl, by unfold read_count; decide⟩

/-! ## The exit paths of the transport -/

theorem close_calls_append (s t : List DevCall) :
    close_calls (s ++ t) = close_calls s + close_calls t := by
  simp [close_calls, List.countP_append]

theorem close_calls_replicate (n : Nat) (d : List Nat) (len : Nat) :
    close_calls (List.replicate n (DevCall.network_read_nb d len)) = 0 := by
  induction n with
  | zero => rfl
  | succ k ih =>
    rw [List.replicate_succ, show DevCall.network_read_nb d len ::
      List.replicate k (DevCall.network_read_nb d len) =
      [DevCall.network_read_nb d len] ++ List.replicate k (DevCall.network_read_nb d len)
      from rfl, close_calls_append, ih]
    rfl

theorem kz_network_http_get_open_fails (cfg : Config) (dev : Device) (path : List Nat)
    (response : Nat → Nat) (response_len : Nat) (hopen : dev.open_status ≠ FN_ERR_OK) :
    kz_network_http_get cfg dev network_status_t.NET_CONNECTED path response response_len =
      { ret := -1, response := response,
        trace := [DevCall.network_open (build_device_spec cfg path)
          open_mode.OPEN_MODE_HTTP_GET] } := by
  simp [kz_network_http_get, network_open, hopen]

theorem kz_network_http_post_open_fails (cfg : Config) (dev : Device) (path body : List Nat)
    (response : Nat → Nat) (response_len : Nat) (hopen : dev.open_status ≠ FN_ERR_OK) :
    kz_network_http_post cfg dev network_status_t.NET_CONNECTED path body response
        response_len =
      { ret := -1, response := response,
        trace := [DevCall.network_open (build_device_spec cfg path)
          open_mode.OPEN_MODE_HTTP_POST] } := by
  simp [kz_network_http_post, network_open, hopen]

theorem kz_network_http_post_start_fails (cfg : Config) (dev : Device)
    (path body : List Nat) (response : Nat → Nat) (response_len : Nat)
    (hopen : dev.open_status = FN_ERR_OK)
    (hstart : dev.start_add_headers_status ≠ FN_ERR_OK) :
    kz_network_http_post cfg dev network_status_t.NET_CONNECTED path body response
        response_len =
      { ret := -1, response := response,
        trace := [DevCall.network_open (build_device_spec cfg path)
            open_mode.OPEN_MODE_HTTP_POST,
          DevCall.network_http_start_add_headers (build_device_spec cfg path),
          DevCall.network_close (build_device_spec cfg path)] } := by
  simp [kz_network_http_post, network_open, network_http_start_add_headers, network_close,
    hopen, hstart]

theorem kz_network_http_post_add_fails (cfg : Config) (dev : Device)
    (path body : List Nat) (response : Nat → Nat) (response_len : Nat)
    (hopen : dev.open_status = FN_ERR_OK)
    (hstart : dev.start_add_headers_status = FN_ERR_OK)
    (hadd : dev.add_header_status ≠ FN_ERR_OK) :
    kz_network_http_post cfg dev network_status_t.NET_CONNECTED path body response
        response_len =
      { ret := -1, response := response,
        trace := [DevCall.network_open (build_device_spec cfg path)
            open_mode.OPEN_MODE_HTTP_POST,
          DevCall.network_http_start_add_headers (build_device_spec cfg path),
          DevCall.network_http_add_header (build_device_spec cfg path)
            (bytes "Content-Type: application/json"),
          DevCall.network_close (build_device_spec cfg path)] } := by
  simp [kz_network_http_post, network_open, network_http_start_add_headers,
    network_http_add_header, network_close, hopen, hstart, hadd]

theorem kz_network_http_post_end_fails (cfg : Config) (dev : Device)
    (path body : List Nat) (response : Nat → Nat) (response_len : Nat)
    (hopen : dev.open_status = FN_ERR_OK)
    (hstart : dev.start_add_headers_status = FN_ERR_OK)
    (hadd : dev.add_header_status = FN_ERR_OK)
    (hend : dev.end_add_headers_status ≠ FN_ERR_OK) :
    kz_network_http_post cfg dev network_status_t.NET_CONNECTED path body response
        response_len =
      { ret := -1, response := response,
        trace := [DevCall.network_open (build_device_spec cfg path)
            open_mode.OPEN_MODE_HTTP_POST,
          DevCall.network_http_start_add_headers (build_device_spec cfg path),
          DevCall.network_http_add_header (build_device_spec cfg path)
            (bytes "Content-Type: application/json"),
          DevCall.network_http_end_add_headers (build_device_spec cfg path),
          DevCall.network_close (build_device_spec cfg path)] } := by
  simp [kz_network_http_post, network_open, network_http_start_add_headers,
    network_http_add_header, network_http_end_add_headers, network_close, hopen, hstart,
    hadd, hend]

theorem kz_network_http_post_submit_fails (cfg : Config) (dev : Device)
    (path body : List Nat) (response : Nat → Nat) (response_len : Nat)
    (hopen : dev.open_status = FN_ERR_OK)
    (hstart : dev.start_add_headers_status = FN_ERR_OK)
    (hadd : dev.add_header_status = FN_ERR_OK)
    (hend : dev.end_add_headers_status = FN_ERR_OK)
    (hpost : dev.post_status ≠ FN_ERR_OK) :
    kz_network_http_post cfg dev network_status_t.NET_CONNECTED path body response
        response_len =
      { ret := -1, response := response,
        trace := [DevCall.network_open (build_device_spec cfg path)
            open_mode.OPEN_MODE_HTTP_POST,
          DevCall.network_http_start_add_headers (build_device_spec cfg path),
          DevCall.network_http_add_header (build_device_spec cfg path)
            (bytes "Content-Type: application/json"),
          DevCall.network_http_end_add_headers (build_device_spec cfg path),
          DevCall.network_http_post (build_device_spec cfg path) (cstr body),
          DevCall.network_close (build_device_spec cfg path)] } := by
  simp [kz_network_http_post, network_open, network_http_start_add_headers,
    network_http_add_header, network_http_end_add_headers, network_http_post, network_close,
    hopen, hstart, hadd, hend, hpost]

/-- The read phase closes exactly once, as its last device call. -/
theorem read_response_closes (dev : Device) (w : Wire) (device_spec : List Nat)
    (response : Nat → Nat) (response_len : Nat) (hw : w.reads = 0)
    (hpre : close_calls w.trace = 0) :
    close_calls (read_response dev w device_spec response response_len).trace = 1 ∧
      (read_response dev w device_spec response response_len).trace.getLast? =
        some (DevCall.network_close device_spec) := by
  obtain ⟨N, -, -, htrace, -, -, -⟩ :=
    read_response_spec dev w device_spec response response_len hw
  rw [htrace]
  constructor
  · rw [close_calls_append, close_calls_append, close_calls_replicate, hpre]
    rfl
  · simp

/-- C11, as stated, fails on the path where the open itself reports a non-OK status:
there `kz_network_http_get` and `kz_network_http_post` return -1 right after the open
call, and no close is made. -/
theorem close_after_failed_open_counterexample :
    (data_device 1 []).open_status ≠ FN_ERR_OK ∧
      (kz_network_http_get sample_config (data_device 1 []) network_status_t.NET_CONNECTED
        (bytes "/api/health") (fun _ => 0) 2048).trace =
        [DevCall.network_open (build_device_spec sample_config (bytes "/api/health"))
          open_mode.OPEN_MODE_HTTP_GET] ∧
      close_calls (kz_network_http_get sample_config (data_device 1 [])
        network_status_t.NET_CONNECTED (bytes "/api/health") (fun _ => 0) 2048).trace = 0 ∧
      close_calls (kz_network_http_post sample_config (data_device 1 [])
        network_status_t.NET_CONNECTED (bytes "/api/player/join") (bytes "\x7b\x7d")
        (fun _ => 0) 2048).trace = 0 := by
  decide

/-- C11, amended. For every connected exchange of `kz_network_http_get` and
`kz_network_http_post` whose open succeeded, on every exit path (a failing header or
submit step, data read, or the retry bound exhausted) the device close is invoked exactly
once and is the last device call before the function returns; when the open itself
reports a non-OK status, nothing was opened and no close is invoked. -/
theorem close_on_every_path_after_open (cfg : Config) (dev : Device) (path body : List Nat)
    (response : Nat → Nat) (response_len : Nat) :
    (dev.open_status = FN_ERR_OK →
        (close_calls (kz_network_http_get cfg dev network_status_t.NET_CONNECTED path
            response response_len).trace = 1 ∧
          (kz_network_http_get cfg dev network_status_t.NET_CONNECTED path response
            response_len).trace.getLast? =
            some (DevCall.network_close (build_device_spec cfg path))) ∧
        (close_calls (kz_network_http_post cfg dev network_status_t.NET_CONNECTED path body
            response response_len).trace = 1 ∧
          (kz_network_http_post cfg dev network_status_t.NET_CONNECTED path body response
            response_len).trace.getLast? =
            some (DevCall.network_close (build_device_spec cfg path)))) ∧
      (dev.open_status ≠ FN_ERR_OK →
        close_calls (kz_network_http_get cfg dev network_status_t.NET_CONNECTED path
          response response_len).trace = 0 ∧
        close_calls (kz_network_http_post cfg dev network_status_t.NET_CONNECTED path body
          response response_len).trace = 0) := by
  constructor
  · intro hopen
    constructor
    · rw [kz_network_http_get_ok cfg dev path response response_len hopen]
      exact read_response_closes dev _ _ response response_len (by rfl) (by rfl)
    · by_cases h1 : dev.start_add_headers_status = FN_ERR_OK
      · by_cases h2 : dev.add_header_status = FN_ERR_OK
        · by_cases h3 : dev.end_add_headers_status = FN_ERR_OK
          · by_cases h4 : dev.post_status = FN_ERR_OK
            · rw [kz_network_http_post_ok cfg dev path body response response_len hopen h1
                h2 h3 h4]
              exact read_response_closes dev _ _ response response_len (by rfl) (by rfl)
            · rw [kz_network_http_post_submit_fails cfg dev path body response response_len
                hopen h1 h2 h3 h4]
              exact ⟨rfl, rfl⟩
          · rw [kz_network_http_post_end_fails cfg dev path body response response_len
              hopen h1 h2 h3]
            exact ⟨rfl, rfl⟩
        · rw [kz_network_http_post_add_fails cfg dev path body response response_len hopen
            h1 h2]
          exact ⟨rfl, rfl⟩
      · rw [kz_network_http_post_start_fails cfg dev path body response response_len hopen
          h1]
        exact ⟨rfl, rfl⟩
  · intro hopen
    rw [kz_network_http_get_open_fails cfg dev path response response_len hopen,
      kz_network_http_post_open_fails cfg dev path body response response_len hopen]
    exact ⟨rfl, rfl⟩

/-- An instance: a GET that reads 2 bytes at once closes exactly once, at the end. -/
theorem close_on_every_path_after_open_witness :
    close_calls (kz_network_http_get sample_config (data_device 0 [[104, 105]])
        network_status_t.NET_CONNECTED (bytes "/api/health") (fun _ => 0) 2048).trace = 1 ∧
      (kz_network_http_get sample_config (data_device 0 [[104, 105]])
        network_status_t.NET_CONNECTED (bytes "/api/health") (fun _ => 0)
        2048).trace.getLast? =
        some (DevCall.network_close (build_device_spec sample_config (bytes "/api/health"))) :=
  ((close_on_every_path_after_open sample_config (data_device 0 [[104, 105]])
    (bytes "/api/health") (bytes "\x7b\x7d") (fun _ => 0) 2048).1 (by decide)).1

/-- C12. When the underlying open reports a non-OK status, a connected
`kz_network_http_get` or `kz_network_http_post` returns -1, its trace of device calls is
exactly the single open call, and the caller's response buffer is left unchanged. -/
theorem failed_open_stops_exchange (cfg : Config) (dev : Device) (path body : List Nat)
    (response : Nat → Nat) (response_len : Nat) (hopen : dev.open_status ≠ FN_ERR_OK) :
    ((kz_network_http_get cfg dev network_status_t.NET_CONNECTED path response
          response_len).ret = -1 ∧
        (kz_network_http_get cfg dev network_status_t.NET_CONNECTED path response
          response_len).trace =
          [DevCall.network_open (build_device_spec cfg path)
            open_mode.OPEN_MODE_HTTP_GET] ∧
        (kz_network_http_get cfg dev network_status_t.NET_CONNECTED path response
          response_len).response = response) ∧
      ((kz_network_http_post cfg dev network_status_t.NET_CONNECTED path body response
          response_len).ret = -1 ∧
        (kz_network_http_post cfg dev network_status_t.NET_CONNECTED path body response
          response_len).trace =
          [DevCall.network_open (build_device_spec cfg path)
            open_mode.OPEN_MODE_HTTP_POST] ∧
        (kz_network_http_post cfg dev network_status_t.NET_CONNECTED path body response
          response_len).response = response) := by
  rw [kz_network_http_get_open_fails cfg dev path response response_len hopen,
    kz_network_http_post_open_fails cfg dev path body response response_len hopen]
  exact ⟨⟨rfl, rfl, rfl⟩, rfl, rfl, rfl⟩

/-- An instance: a POST on a device whose open reports status 1. -/
theorem failed_open_stops_exchange_witness :
    (kz_network_http_post sample_config (data_device 1 [[104, 105]])
        network_status_t.NET_CONNECTED (bytes "/api/player/join") (bytes "\x7b\x7d")
        (fun _ => 7) 2048).ret = -1 ∧
      (kz_network_http_post sample_config (data_device 1 [[104, 105]])
        network_status_t.NET_CONNECTED (bytes "/api/player/join") (bytes "\x7b\x7d")
        (fun _ => 7) 2048).trace =
        [DevCall.network_open (build_device_spec sample_config (bytes "/api/player/join"))
          open_mode.OPEN_MODE_HTTP_POST] :=
  have h := (failed_open_stops_exchange sample_config (data_device 1 [[104, 105]])
    (bytes "/api/player/join") (bytes "\x7b\x7d") (fun _ => 7) 2048 (by decide)).2
  ⟨h.1, h.2.1⟩

/-- C13. For every connected `kz_network_http_post` exchange in which every device step
reports OK, the trace of device calls is, in this order and each exactly once: open in
POST mode, start header accumulation, add the header `Content-Type: application/json`,
end header accumulation, submit the caller's body; then come the reads of the read loop
(between 1 and 11 of them) and nothing else, and the close is the last call. -/
theorem post_step_order (cfg : Config) (dev : Device) (path body : List Nat)
    (response : Nat → Nat) (response_len : Nat) (hopen : dev.open_status = FN_ERR_OK)
    (hstart : dev.start_add_headers_status = FN_ERR_OK)
    (hadd : dev.add_header_status = FN_ERR_OK)
    (hend : dev.end_add_headers_status = FN_ERR_OK) (hpost : dev.post_status = FN_ERR_OK) :
    ∃ N, 1 ≤ N ∧ N ≤ 11 ∧
      (kz_network_http_post cfg dev network_status_t.NET_CONNECTED path body response
        response_len).trace =
        [DevCall.network_open (build_device_spec cfg path) open_mode.OPEN_MODE_HTTP_POST,
          DevCall.network_http_start_add_headers (build_device_spec cfg path),
          DevCall.network_http_add_header (build_device_spec cfg path)
            (bytes "Content-Type: application/json"),
          DevCall.network_http_end_add_headers (build_device_spec cfg path),
          DevCall.network_http_post (build_device_spec cfg path) (cstr body)] ++
          List.replicate N (DevCall.network_read_nb (build_device_spec cfg path)
            ((response_len + 65535) % 65536)) ++
          [DevCall.network_close (build_device_spec cfg path)] := by
  rw [kz_network_http_post_ok cfg dev path body response response_len hopen hstart hadd
    hend hpost]
  obtain ⟨N, h1, h2, htrace, -, -, -⟩ :=
    read_response_spec dev
      ⟨0, [DevCall.network_open (build_device_spec cfg path) open_mode.OPEN_MODE_HTTP_POST,
        DevCall.network_http_start_add_headers (build_device_spec cfg path),
        DevCall.network_http_add_header (build_device_spec cfg path)
          (bytes "Content-Type: application/json"),
        DevCall.network_http_end_add_headers (build_device_spec cfg path),
        DevCall.network_http_post (build_device_spec cfg path) (cstr body)]⟩
      (build_device_spec cfg path) response response_len rfl
  exact ⟨N, h1, h2, htrace⟩

/-- An instance: a POST whose first read delivers 2 bytes makes exactly one read. -/
theorem post_step_order_witness :
    ∃ N, 1 ≤ N ∧ N ≤ 11 ∧
      (kz_network_http_post sample_config (data_device 0 [[104, 105]])
        network_status_t.NET_CONNECTED (bytes "/p") (bytes "b") (fun _ => 0) 8).trace =
        [DevCall.network_open (build_device_spec sample_config (bytes "/p"))
            open_mode.OPEN_MODE_HTTP_POST,
          DevCall.network_http_start_add_headers (build_device_spec sample_config (bytes "/p")),
          DevCall.network_http_add_header (build_device_spec sample_config (bytes "/p"))
            (bytes "Content-Type: application/json"),
          DevCall.network_http_end_add_headers (build_device_spec sample_config (bytes "/p")),
          DevCall.network_http_post (build_device_spec sample_config (bytes "/p"))
            (cstr (bytes "b"))] ++
          List.replicate N (DevCall.network_read_nb (build_device_spec sample_config
            (bytes "/p")) ((8 + 65535) % 65536)) ++
          [DevCall.network_close (build_device_spec sample_config (bytes "/p"))] :=
  post_step_order sample_config (data_device 0 [[104, 105]]) (bytes "/p") (bytes "b")
    (fun _ => 0) 8 (by decide) (by decide) (by decide) (by decide) (by decide)

/-- C14. In a connected `kz_network_http_post` whose open succeeded, when the first step
among start-headers, add-header, end-headers and submit-body that reports a non-OK status
does so, the function returns -1 and the trace of device calls is the steps up to and
including the failing one, each once, followed by a single close: no later step and no
read is invoked, and the failing step is not retried. -/
theorem post_step_failure_aborts (cfg : Config) (dev : Device) (path body : List Nat)
    (response : Nat → Nat) (response_len : Nat) (hopen : dev.open_status = FN_ERR_OK) :
    (dev.start_add_headers_status ≠ FN_ERR_OK →
        (kz_network_http_post cfg dev network_status_t.NET_CONNECTED path body response
          response_len).ret = -1 ∧
        (kz_network_http_post cfg dev network_status_t.NET_CONNECTED path body response
          response_len).trace =
          [DevCall.network_open (build_device_spec cfg path) open_mode.OPEN_MODE_HTTP_POST,
            DevCall.network_http_start_add_headers (build_device_spec cfg path),
            DevCall.network_close (build_device_spec cfg path)]) ∧
      (dev.start_add_headers_status = FN_ERR_OK → dev.add_header_status ≠ FN_ERR_OK →
        (kz_network_http_post cfg dev network_status_t.NET_CONNECTED path body response
          response_len).ret = -1 ∧
        (kz_network_http_post cfg dev network_status_t.NET_CONNECTED path body response
          response_len).trace =
          [DevCall.network_open (build_device_spec cfg path) open_mode.OPEN_MODE_HTTP_POST,
            DevCall.network_http_start_add_headers (build_device_spec cfg path),
            DevCall.network_http_add_header (build_device_spec cfg path)
              (bytes "Content-Type: application/json"),
            DevCall.network_close (build_device_spec cfg path)]) ∧
      (dev.start_add_headers_status = FN_ERR_OK → dev.add_header_status = FN_ERR_OK →
        dev.end_add_headers_status ≠ FN_ERR_OK →
        (kz_network_http_post cfg dev network_status_t.NET_CONNECTED path body response
          response_len).ret = -1 ∧
        (kz_network_http_post cfg dev network_status_t.NET_CONNECTED path body response
          response_len).trace =
          [DevCall.network_open (build_device_spec cfg path) open_mode.OPEN_MODE_HTTP_POST,
            DevCall.network_http_start_add_headers (build_device_spec cfg path),
            DevCall.network_http_add_header (build_device_spec cfg path)
              (bytes "Content-Type: application/json"),
            DevCall.network_http_end_add_headers (build_device_spec cfg path),
            DevCall.network_close (build_device_spec cfg path)]) ∧
      (dev.start_add_headers_status = FN_ERR_OK → dev.add_header_status = FN_ERR_OK →
        dev.end_add_headers_status = FN_ERR_OK → dev.post_status ≠ FN_ERR_OK →
        (kz_network_http_post cfg dev network_status_t.NET_CONNECTED path body response
          response_len).ret = -1 ∧
        (kz_network_http_post cfg dev network_status_t.NET_CONNECTED path body response
          response_len).trace =
          [DevCall.network_open (build_device_spec cfg path) open_mode.OPEN_MODE_HTTP_POST,
            DevCall.network_http_start_add_headers (build_device_spec cfg path),
            DevCall.network_http_add_header (build_device_spec cfg path)
              (bytes "Content-Type: application/json"),
            DevCall.network_http_end_add_headers (build_device_spec cfg path),
            DevCall.network_http_post (build_device_spec cfg path) (cstr body),
            DevCall.network_close (build_device_spec cfg path)]) := by
  refine ⟨?_, ?_, ?_, ?_⟩
  · intro h1
    rw [kz_network_http_post_start_fails cfg dev path body response response_len hopen h1]
    exact ⟨rfl, rfl⟩
  · intro h1 h2
    rw [kz_network_http_post_add_fails cfg dev path body response response_len hopen h1 h2]
    exact ⟨rfl, rfl⟩
  · intro h1 h2 h3
    rw [kz_network_http_post_end_fails cfg dev path body response response_len hopen h1 h2
      h3]
    exact ⟨rfl, rfl⟩
  · intro h1 h2 h3 h4
    rw [kz_network_http_post_submit_fails cfg dev path body response response_len hopen h1
      h2 h3 h4]
    exact ⟨rfl, rfl⟩

/-- An instance: a device whose add-header step reports status 1. -/
theorem post_step_failure_aborts_witness :
    (kz_network_http_post sample_config
        { data_device 0 [[104, 105]] with add_header_status := 1 }
        network_status_t.NET_CONNECTED (bytes "/p") (bytes "b") (fun _ => 0) 8).ret = -1 ∧
      (kz_network_http_post sample_config
        { data_device 0 [[104, 105]] with add_header_status := 1 }
        network_status_t.NET_CONNECTED (bytes "/p") (bytes "b") (fun _ => 0) 8).trace =
        [DevCall.network_open (build_device_spec sample_config (bytes "/p"))
            open_mode.OPEN_MODE_HTTP_POST,
          DevCall.network_http_start_add_headers (build_device_spec sample_config (bytes "/p")),
          DevCall.network_http_add_header (build_device_spec sample_config (bytes "/p"))
            (bytes "Content-Type: application/json"),
          DevCall.network_close (build_device_spec sample_config (bytes "/p"))] :=
  (post_step_failure_aborts sample_config
    { data_device 0 [[104, 105]] with add_header_status := 1 } (bytes "/p") (bytes "b")
    (fun _ => 0) 8 (by decide)).2.1 (by decide) (by decide)

/-! ## The response buffer after the read phase -/

/-- The buffer that leaves the retry loop holds, at its start, what the last read made
so far has delivered. -/
theorem read_retry_last_blit (dev : Device) (devicespec : List Nat) (len : Nat) :
    ∀ (fuel : Nat) (bytes_read : Int) (retry : Nat) (response : Nat → Nat) (w : Wire),
      (∃ prev, response = blit prev (dev.read_nb (w.reads - 1) len).2) →
      ∃ prev, (read_retry dev devicespec len fuel bytes_read retry response w).2.1 =
        blit prev (dev.read_nb
          ((read_retry dev devicespec len fuel bytes_read retry response w).2.2.reads - 1)
          len).2 := by
  intro fuel
  induction fuel with
  | zero =>
    intro b retry response w h
    exact h
  | succ f ih =>
    intro b retry response w h
    simp only [read_retry]
    split
    · exact ih _ _ _ _ ⟨response, rfl⟩
    · exact h

/-- The response buffer after the read phase: what the last read delivered, with a NUL
stored at the offset of the returned count when that count is positive. -/
theorem read_response_buffer (dev : Device) (w : Wire) (device_spec : List Nat)
    (response : Nat → Nat) (response_len : Nat) (hw : w.reads = 0)
    (hpre : read_calls w.trace = 0) :
    ∃ prev, (read_response dev w device_spec response response_len).response =
      if (read_response dev w device_spec response response_len).ret > 0 then
        store (blit prev (dev.read_nb
            (read_calls (read_response dev w device_spec response response_len).trace - 1)
            ((response_len + 65535) % 65536)).2)
          (read_response dev w device_spec response response_len).ret.toNat 0
      else
        blit prev (dev.read_nb
          (read_calls (read_response dev w device_spec response response_len).trace - 1)
          ((response_len + 65535) % 65536)).2 := by
  obtain ⟨m, -, hreads, htrace, -, -, -, -⟩ :=
    read_retry_spec dev device_spec ((response_len + 65535) % 65536) 10
      (network_read_nb dev w device_spec response ((response_len + 65535) % 65536)).1 0
      (network_read_nb dev w device_spec response ((response_len + 65535) % 65536)).2.1
      (network_read_nb dev w device_spec response ((response_len + 65535) % 65536)).2.2
      (by omega)
  obtain ⟨prev, hprev⟩ :=
    read_retry_last_blit dev device_spec ((response_len + 65535) % 65536) 10
      (network_read_nb dev w device_spec response ((response_len + 65535) % 65536)).1 0
      (network_read_nb dev w device_spec response ((response_len + 65535) % 65536)).2.1
      (network_read_nb dev w device_spec response ((response_len + 65535) % 65536)).2.2
      ⟨response, rfl⟩
  have hcalls : read_calls (read_response dev w device_spec response response_len).trace =
      m + 1 := by
    simp only [read_response, network_close, htrace, network_read_nb_trace]
    rw [read_calls_append, read_calls_append, read_calls_append, read_calls_replicate, hpre]
    simp [read_calls, is_read]
    omega
  rw [hreads, network_read_nb_reads, hw] at hprev
  refine ⟨prev, ?_⟩
  rw [hcalls]
  simp only [read_response]
  rw [hprev]
  simp only [show 0 + 1 + m - 1 = m by omega, show m + 1 - 1 = m by omega]

/-- The read phase when the first `k ≤ 10` reads return zero and the next one delivers
`n > 0` bytes, no more than asked. -/
theorem read_response_terminated (dev : Device) (w : Wire) (device_spec : List Nat)
    (response : Nat → Nat) (response_len : Nat) (hw : w.reads = 0)
    (hpre : read_calls w.trace = 0) (k : Nat) (n : Int) (data : List Nat) (hk : k ≤ 10)
    (hlen : 1 ≤ response_len) (hlen16 : response_len < 65536)
    (hzero : ∀ j < k, read_count dev response_len j = 0)
    (hread : dev.read_nb k ((response_len + 65535) % 65536) = (n, data)) (hn : 0 < n)
    (hasked : n ≤ (((response_len + 65535) % 65536 : Nat) : Int))
    (hdata : data.length = n.toNat) :
    (read_response dev w device_spec response response_len).ret = n ∧
      (read_response dev w device_spec response response_len).response n.toNat = 0 ∧
      mem_take (read_response dev w device_spec response response_len).response n.toNat =
        data ∧
      n.toNat < response_len := by
  have hcount : read_count dev response_len k = n := by
    unfold read_count
    rw [hread]
  obtain ⟨hret, hcalls, -⟩ :=
    read_response_first_data dev w device_spec response response_len hw hpre k hk hzero
      (by rw [hcount]; omega)
  obtain ⟨prev, hbuf⟩ := read_response_buffer dev w device_spec response response_len hw hpre
  rw [hret, hcount] at hbuf
  rw [hcalls, if_pos hn, Nat.add_sub_cancel, hread] at hbuf
  rw [hret, hcount, hbuf]
  refine ⟨rfl, by simp [store], ?_, ?_⟩
  · unfold mem_take
    apply List.ext_getElem
    · simp [hdata]
    · intro i h1 h2
      simp only [List.length_map, List.length_range] at h1
      have hi : i ≠ n.toNat := by omega
      simp [store, blit, hi, hdata, h1, List.getD_eq_getElem?_getD]
  · omega

/-- C15. For every connected exchange of `kz_network_http_get` (open OK) and of
`kz_network_http_post` (open, header and submit steps OK) with
`1 ≤ response_len` (a `uint16_t`), in which the reads before the terminating one return
zero and the terminating read returns `n > 0`, no more than the `response_len - 1` bytes
asked for, and delivers `n` bytes: the return value is `n`, `response[n] = 0`, the bytes
at offsets `0..n-1` are the bytes delivered by that read, and `n < response_len`. -/
theorem positive_read_is_terminated (cfg : Config) (dev : Device) (path body : List Nat)
    (response : Nat → Nat) (response_len : Nat) (k : Nat) (n : Int) (data : List Nat)
    (hk : k ≤ 10) (hlen : 1 ≤ response_len) (hlen16 : response_len < 65536)
    (hopen : dev.open_status = FN_ERR_OK)
    (hzero : ∀ j < k, read_count dev response_len j = 0)
    (hread : dev.read_nb k ((response_len + 65535) % 65536) = (n, data)) (hn : 0 < n)
    (hasked : n ≤ (((response_len + 65535) % 65536 : Nat) : Int))
    (hdata : data.length = n.toNat) :
    ((kz_network_http_get cfg dev network_status_t.NET_CONNECTED path response
          response_len).ret = n ∧
        (kz_network_http_get cfg dev network_status_t.NET_CONNECTED path response
          response_len).response n.toNat = 0 ∧
        mem_take (kz_network_http_get cfg dev network_status_t.NET_CONNECTED path response
          response_len).response n.toNat = data ∧
        n.toNat < response_len) ∧
      (dev.start_add_headers_status = FN_ERR_OK → dev.add_header_status = FN_ERR_OK →
        dev.end_add_headers_status = FN_ERR_OK → dev.post_status = FN_ERR_OK →
        (kz_network_http_post cfg dev network_status_t.NET_CONNECTED path body response
          response_len).ret = n ∧
        (kz_network_http_post cfg dev network_status_t.NET_CONNECTED path body response
          response_len).response n.toNat = 0 ∧
        mem_take (kz_network_http_post cfg dev network_status_t.NET_CONNECTED path body
          response response_len).response n.toNat = data ∧
        n.toNat < response_len) := by
  constructor
  · rw [kz_network_http_get_ok cfg dev path response response_len hopen]
    exact read_response_terminated dev _ _ response response_len (by rfl) (by rfl) k n data
      hk hlen hlen16 hzero hread hn hasked hdata
  · intro hstart hadd hend hpost
    rw [kz_network_http_post_ok cfg dev path body response response_len hopen hstart hadd
      hend hpost]
    exact read_response_terminated dev _ _ response response_len (by rfl) (by rfl) k n data
      hk hlen hlen16 hzero hread hn hasked hdata

/-- An instance: a GET into a buffer of 8 bytes whose second read delivers `hi`. -/
theorem positive_read_is_terminated_witness :
    (kz_network_http_get sample_config (data_device 0 [[], [104, 105]])
        network_status_t.NET_CONNECTED (bytes "/api/health") (fun _ => 7) 8).ret = 2 ∧
      (kz_network_http_get sample_config (data_device 0 [[], [104, 105]])
        network_status_t.NET_CONNECTED (bytes "/api/health") (fun _ => 7) 8).response
          (2 : Int).toNat = 0 ∧
      mem_take (kz_network_http_get sample_config (data_device 0 [[], [104, 105]])
        network_status_t.NET_CONNECTED (bytes "/api/health") (fun _ => 7) 8).response
          (2 : Int).toNat = [104, 105] ∧
      (2 : Int).toNat < 8 :=
  (positive_read_is_terminated sample_config (data_device 0 [[], [104, 105]])
    (bytes "/api/health") (bytes "\x7b\x7d") (fun _ => 7) 8 1 2 [104, 105] (by decide)
    (by decide) (by decide) (by decide) (by unfold read_count; decide) (by decide)
    (by decide) (by decide) (by decide)).1

/-! ## Theorems on the session state machine -/

/-- C16. From state CONNECTING, one step of the state machine: when the health check
fails (returns non-zero) the state becomes ERROR, not JOINING, and `last_error` is set to
a non-empty string; when it succeeds the state becomes JOINING and `last_error` is not
modified. -/
theorem connecting_step (σ : Type) (net : Network σ) (env : Env) (c : Client σ)
    (hstate : c.session.current_state = client_state_t.STATE_CONNECTING) :
    ((net.network_health_check c.net).1 ≠ 0 →
        (game_loop_step net env c).1.session.current_state = client_state_t.STATE_ERROR ∧
        last_error_set (game_loop_step net env c).1.session ∧
        (game_loop_step net env c).1.session.current_state ≠
          client_state_t.STATE_JOINING) ∧
      ((net.network_health_check c.net).1 = 0 →
        (game_loop_step net env c).1.session.current_state = client_state_t.STATE_JOINING ∧
        (game_loop_step net env c).1.session.last_error = c.session.last_error) := by
  have hstep : (game_loop_step net env c).1 = handle_state_connecting net c := by
    simp only [game_loop_step, state_get_current, hstate]
  rw [hstep]
  constructor
  · intro h
    rw [handle_state_connecting, if_neg h]
    refine ⟨rfl, ⟨_, rfl, by decide⟩, ?_⟩
    simp [state_set_current]
  · intro h
    rw [handle_state_connecting, if_pos h]
    exact ⟨rfl, rfl⟩

/-- An instance: the network module of the sources before `network_init`, where the
health check fails because the transport is not connected. -/
theorem connecting_step_witness :
    (game_loop_step client_network idle_env
        { boot_client with
          session := state_set_current state_init client_state_t.STATE_CONNECTING }
      ).1.session.current_state = client_state_t.STATE_ERROR ∧
      last_error_set (game_loop_step client_network idle_env
        { boot_client with
          session := state_set_current state_init client_state_t.STATE_CONNECTING }
      ).1.session :=
  have h := (connecting_step ClientNet client_network idle_env
    { boot_client with
      session := state_set_current state_init client_state_t.STATE_CONNECTING } rfl).1
    (by decide)
  ⟨h.1, h.2.1⟩

/-- C17. From state PLAYING, one step of the state machine leaves `local_player` and
`current_state` (still PLAYING) unchanged, for every debounced direction and whatever the
move request returns, in particular when it fails with a value `≤ 0`. -/
theorem playing_step_keeps_session (σ : Type) (net : Network σ) (env : Env) (c : Client σ)
    (hstate : c.session.current_state = client_state_t.STATE_PLAYING) :
    (game_loop_step net env c).1.session.local_player = c.session.local_player ∧
      (game_loop_step net env c).1.session.current_state = client_state_t.STATE_PLAYING ∧
      (game_loop_step net env c).1.session = c.session := by
  have hstep : (game_loop_step net env c).1 = handle_state_playing net env c := by
    simp only [game_loop_step, state_get_current, hstate]
  rw [hstep]
  exact ⟨rfl, hstate, rfl⟩

/-- An instance: a joystick held up for the fourth poll, with a network that refuses the
move request. -/
theorem playing_step_keeps_session_witness :
    input_get_debounced (input_update 1
        (input_polls [1, 1, 1] input_init)) = input_direction_t.INPUT_UP ∧
      (refusing_network.network_move_player () [] (bytes "up") (fun _ => 0) 2048).1 ≤ 0 ∧
      (game_loop_step refusing_network { idle_env with raw := 1 }
        { client_in client_state_t.STATE_PLAYING with
          input := input_polls [1, 1, 1] input_init }).1.session.local_player = none ∧
      (game_loop_step refusing_network { idle_env with raw := 1 }
        { client_in client_state_t.STATE_PLAYING with
          input := input_polls [1, 1, 1] input_init }).1.session.current_state =
        client_state_t.STATE_PLAYING :=
  have h := playing_step_keeps_session Unit refusing_network { idle_env with raw := 1 }
    { client_in client_state_t.STATE_PLAYING with
      input := input_polls [1, 1, 1] input_init } rfl
  ⟨by decide, by decide, h.1, h.2.1⟩

/-- The states that the loop can be in, with the error message that ERROR carries. -/
theorem reachable_states (σ : Type) (net : Network σ) (boot c : Client σ)
    (h : Reachable net boot c) :
    c.session.current_state = client_state_t.STATE_CONNECTING ∨
      c.session.current_state = client_state_t.STATE_JOINING ∨
      c.session.current_state = client_state_t.STATE_PLAYING ∨
      (c.session.current_state = client_state_t.STATE_ERROR ∧ last_error_set c.session) := by
  induction h with
  | init => exact Or.inl rfl
  | step env c _ ih =>
    rcases ih with h | h | h | ⟨h, hmsg⟩
    · have hstep : (game_loop_step net env c).1 = handle_state_connecting net c := by
        simp only [game_loop_step, state_get_current, h]
      rw [hstep]
      by_cases hc : (net.network_health_check c.net).1 = 0
      · rw [handle_state_connecting, if_pos hc]
        exact Or.inr (Or.inl rfl)
      · rw [handle_state_connecting, if_neg hc]
        exact Or.inr (Or.inr (Or.inr ⟨rfl, _, rfl, by decide⟩))
    · have hstep : (game_loop_step net env c).1 = handle_state_joining net env c := by
        simp only [game_loop_step, state_get_current, h]
      rw [hstep]
      by_cases hj : (net.network_join_player c.net (read_player_name env) env.stack
          2048).1 > 0
      · rw [handle_state_joining, if_pos hj]
        exact Or.inr (Or.inr (Or.inl rfl))
      · rw [handle_state_joining, if_neg hj]
        exact Or.inr (Or.inr (Or.inr ⟨rfl, _, rfl, by decide⟩))
    · have hstep : (game_loop_step net env c).1 = handle_state_playing net env c := by
        simp only [game_loop_step, state_get_current, h]
      rw [hstep]
      exact Or.inr (Or.inr (Or.inl h))
    · have hstep : (game_loop_step net env c).1 = c := by
        simp only [game_loop_step, state_get_current, h, handle_state_error]
      rw [hstep]
      exact Or.inr (Or.inr (Or.inr ⟨h, hmsg⟩))

/-- C18. In every state reachable from `game_init` by iterations of `game_loop`, whatever
the health check and the join request return and whatever the user types,
`current_state == ERROR` implies that `last_error` is set to a non-empty string. -/
theorem error_state_has_message (σ : Type) (net : Network σ) (boot c : Client σ)
    (hreach : Reachable net boot c)
    (herror : c.session.current_state = client_state_t.STATE_ERROR) :
    last_error_set c.session := by
  rcases reachable_states σ net boot c hreach with h | h | h | ⟨-, hmsg⟩
  · rw [h] at herror
    exact absurd herror (by decide)
  · rw [h] at herror
    exact absurd herror (by decide)
  · rw [h] at herror
    exact absurd herror (by decide)
  · exact hmsg

/-- An instance: the first iteration after `game_init`, with a network that refuses the
health check. -/
theorem error_state_has_message_witness :
    last_error_set (game_loop_step refusing_network idle_env
      (game_init refusing_network (client_in client_state_t.STATE_INIT))).1.session :=
  error_state_has_message Unit refusing_network (client_in client_state_t.STATE_INIT) _
    (Reachable.step idle_env _ Reachable.init) (by decide)

/-- The step from DEAD to ERROR records no error: `handle_state_dead` is the one place
where ERROR is entered without `state_set_error`; no handler enters DEAD. -/
theorem handle_state_dead_records_no_error (σ : Type) (env : Env) (c : Client σ) :
    (handle_state_dead env c).session.last_error = c.session.last_error := by
  unfold handle_state_dead
  split <;> rfl

/-- `handle_state_joining` never changes the local player. -/
theorem handle_state_joining_local_player (σ : Type) (net : Network σ) (env : Env)
    (c : Client σ) :
    (handle_state_joining net env c).session.local_player = c.session.local_player := by
  unfold handle_state_joining
  split <;> rfl

/-- C19, at the failing input: the name `bob` is typed and the join request succeeds with
the response `{"id":"p1","x":5,"y":3}`, which carries the fields `id`, `x` and `y`; the
step from JOINING ends in PLAYING, but `local_player` is still unset, not the player `p1`
at `(5, 3)`. -/
theorem joining_step_ignores_response :
    read_player_name { idle_env with stdin := bytes "bob\n" } = bytes "bob" ∧
      ((replying_network (bytes "\x7b\"id\":\"p1\",\"x\":5,\"y\":3\x7d")).network_join_player ()
        (read_player_name { idle_env with stdin := bytes "bob\n" }) idle_env.stack 2048).1 =
        23 ∧
      json_get_int (bytes "\x7b\"id\":\"p1\",\"x\":5,\"y\":3\x7d") (bytes "x") 0 = (1, 5) ∧
      json_get_int (bytes "\x7b\"id\":\"p1\",\"x\":5,\"y\":3\x7d") (bytes "y") 0 = (1, 3) ∧
      (json_get_string (bytes "\x7b\"id\":\"p1\",\"x\":5,\"y\":3\x7d") (bytes "id")
        (fun _ => 0) 16).1 = 2 ∧
      (game_loop_step (replying_network (bytes "\x7b\"id\":\"p1\",\"x\":5,\"y\":3\x7d"))
        { idle_env with stdin := bytes "bob\n" }
        (client_in client_state_t.STATE_JOINING)).1.session.current_state =
        client_state_t.STATE_PLAYING ∧
      (game_loop_step (replying_network (bytes "\x7b\"id\":\"p1\",\"x\":5,\"y\":3\x7d"))
        { idle_env with stdin := bytes "bob\n" }
        (client_in client_state_t.STATE_JOINING)).1.session.local_player = none := by
  decide

/-! ## Theorems on the debouncer -/

/-- Polls that keep reading the recorded direction only raise the counter, modulo 256. -/
theorem input_polls_same (d : input_direction_t) (raws : List Nat)
    (hread : ∀ raw ∈ raws, input_read_direction raw = d) (n : Nat) :
    input_polls raws { last_direction := d, debounce_counter := n % 256 } =
      { last_direction := d, debounce_counter := (n + raws.length) % 256 } := by
  induction raws generalizing n with
  | nil => rfl
  | cons raw t ih =>
    have h1 : input_read_direction raw = d := hread raw (by simp)
    have hstep : input_update raw { last_direction := d, debounce_counter := n % 256 } =
        { last_direction := d, debounce_counter := (n + 1) % 256 } := by
      simp only [input_update, h1, if_true]
      congr 1
      omega
    simp only [input_polls, List.foldl_cons] at ih ⊢
    rw [hstep, ih (fun r hr => hread r (by simp [hr])) (n + 1), List.length_cons]
    congr 2
    omega

/-- The state after a run of polls that read `d`, the first of which changes the reading:
`d` is recorded and the counter is the length of the run less one, modulo 256. -/
theorem input_polls_run (st : InputState) (d : input_direction_t) (raws : List Nat)
    (hchange : st.last_direction ≠ d)
    (hread : ∀ raw ∈ raws, input_read_direction raw = d) (hlen : 1 ≤ raws.length) :
    input_polls raws st =
      { last_direction := d, debounce_counter := (raws.length - 1) % 256 } := by
  cases raws with
  | nil => simp at hlen
  | cons raw t =>
    have h1 : input_read_direction raw = d := hread raw (by simp)
    have hstep : input_update raw st = { last_direction := d, debounce_counter := 0 % 256 } := by
      have hne : ¬ input_read_direction raw = st.last_direction := by
        rw [h1]
        exact fun h => hchange h.symm
      unfold input_update
      rw [if_neg hne, h1]
    simp only [input_polls, List.foldl_cons]
    rw [hstep]
    have := input_polls_same d t (fun r hr => hread r (by simp [hr])) 0
    simp only [input_polls] at this
    rw [this, List.length_cons]
    congr 2
    omega

/-- C20, as stated, fails: starting from `input_init`, after three consecutive
`input_update` calls that each read UP, `input_get_debounced` still returns NONE; the
first of the three polls only records the new reading and sets the counter to 0, so the
counter is 2 after the third. -/
theorem debounce_three_polls_counterexample :
    input_read_direction 1 = input_direction_t.INPUT_UP ∧
      input_polls [1, 1, 1] input_init =
        { last_direction := input_direction_t.INPUT_UP, debounce_counter := 2 } ∧
      input_get_debounced (input_polls [1, 1, 1] input_init) =
        input_direction_t.INPUT_NONE ∧
      input_direction_t.INPUT_UP ≠ input_direction_t.INPUT_NONE := by
  decide

/-- C20, amended. From every state of the debouncer (hence after every sequence of polls
from `input_init`), once the reading changes to a direction `d`: after the 4th
consecutive `input_update` that reads `d` (and up to the 256th) `input_get_debounced`
returns `d`; after the 1st, 2nd and 3rd it returns NONE, so a reading that is stable for
fewer than 4 consecutive polls is never reported. -/
theorem debounce_needs_four_polls (st : InputState) (d : input_direction_t)
    (raws : List Nat) (hchange : st.last_direction ≠ d)
    (hread : ∀ raw ∈ raws, input_read_direction raw = d) :
    (4 ≤ raws.length → raws.length ≤ 256 →
        input_get_debounced (input_polls raws st) = d) ∧
      (1 ≤ raws.length → raws.length ≤ 3 →
        input_get_debounced (input_polls raws st) = input_direction_t.INPUT_NONE) := by
  constructor
  · intro h1 h2
    rw [input_polls_run st d raws hchange hread (by omega)]
    have h3 : (raws.length - 1) % 256 = raws.length - 1 := Nat.mod_eq_of_lt (by omega)
    have h4 : raws.length - 1 ≥ DEBOUNCE_FRAMES := by
      unfold DEBOUNCE_FRAMES
      omega
    simp only [input_get_debounced, h3, if_pos h4]
  · intro h1 h2
    rw [input_polls_run st d raws hchange hread h1]
    have h3 : (raws.length - 1) % 256 = raws.length - 1 := Nat.mod_eq_of_lt (by omega)
    have h4 : ¬ raws.length - 1 ≥ DEBOUNCE_FRAMES := by
      unfold DEBOUNCE_FRAMES
      omega
    simp only [input_get_debounced, h3, if_neg h4]

/-- An instance: from `input_init`, four polls that read UP. -/
theorem debounce_needs_four_polls_witness :
    input_get_debounced (input_polls [1, 1, 1, 1] input_init) =
      input_direction_t.INPUT_UP :=
  (debounce_needs_four_polls input_init input_direction_t.INPUT_UP [1, 1, 1, 1]
    (by decide) (by decide)).1 (by decide) (by decide)

/-! ## The transition table -/

theorem game_loop_states_head {σ : Type} (net : Network σ) (envs : List Env)
    (c : Client σ) : (game_loop_states net envs c).head? = some c.session.current_state := by
  cases envs with
  | nil => rfl
  | cons env envs =>
    rw [game_loop_states]
    split <;> rfl

/-- One iteration of the loop follows the transition table. -/
theorem game_loop_step_allowed {σ : Type} (net : Network σ) (env : Env) (c : Client σ)
    (h : (game_loop_step net env c).2 = true) :
    table_allows c.session.current_state
      (game_loop_step net env c).1.session.current_state = true := by
  cases hs : c.session.current_state
  · simp only [game_loop_step, state_get_current, hs]
    rfl
  · simp only [game_loop_step, state_get_current, hs, handle_state_connecting]
    split <;> rfl
  · simp only [game_loop_step, state_get_current, hs, handle_state_joining]
    split <;> rfl
  · simp only [game_loop_step, state_get_current, hs, handle_state_playing]
    rfl
  · simp only [game_loop_step, state_get_current, hs, handle_state_dead]
    split <;> rfl
  · simp [game_loop_step, state_get_current, hs] at h

/-- Every two consecutive states of a run of the loop are in the transition table. -/
theorem game_loop_states_chain {σ : Type} (net : Network σ) :
    ∀ (envs : List Env) (c : Client σ),
      List.Chain' (fun a b => table_allows a b = true) (game_loop_states net envs c) := by
  intro envs
  induction envs with
  | nil =>
    intro c
    exact List.chain'_singleton _
  | cons env envs ih =>
    intro c
    rw [game_loop_states]
    split
    · rename_i h
      rw [List.chain'_cons']
      refine ⟨?_, ih _⟩
      intro y hy
      rw [game_loop_states_head] at hy
      have hy2 : (game_loop_step net env c).1.session.current_state = y := by
        simpa using hy
      rw [← hy2]
      exact game_loop_step_allowed net env c h
    · exact List.chain'_singleton _

/-- C21. Every step of the session state machine follows the transition table.
`game_init` leaves the state CONNECTING.  One iteration of `game_loop` calls the handler
of the current state: from INIT `handle_state_init`, which goes to CONNECTING; from
CONNECTING `handle_state_connecting`, which goes only to JOINING or ERROR; from JOINING
`handle_state_joining`, only to PLAYING or ERROR; from PLAYING `handle_state_playing`,
only to PLAYING; from DEAD `handle_state_dead`, which goes to JOINING exactly when the
answer character is `y` or `Y` and to ERROR otherwise; from ERROR `handle_state_error`,
which changes nothing, and the loop stops after it (and only after it).  So every
iteration that keeps the loop running goes from its state to a state that the table
allows; in every run of the loop, whatever the iterations read, every two consecutive
states are in the table, and a run that is in ERROR makes that one iteration and ends: no
state is reached after ERROR. -/
theorem transition_table (σ : Type) (net : Network σ) (env : Env) (boot c : Client σ)
    (envs : List Env) :
    (game_init net boot).session.current_state = client_state_t.STATE_CONNECTING ∧
      (handle_state_init c).session.current_state = client_state_t.STATE_CONNECTING ∧
      ((handle_state_connecting net c).session.current_state = client_state_t.STATE_JOINING ∨
        (handle_state_connecting net c).session.current_state =
          client_state_t.STATE_ERROR) ∧
      ((handle_state_joining net env c).session.current_state =
          client_state_t.STATE_PLAYING ∨
        (handle_state_joining net env c).session.current_state =
          client_state_t.STATE_ERROR) ∧
      (c.session.current_state = client_state_t.STATE_PLAYING →
        (handle_state_playing net env c).session.current_state =
          client_state_t.STATE_PLAYING) ∧
      ((handle_state_dead env c).session.current_state = client_state_t.STATE_JOINING ↔
        (getchar env.stdin = 121 ∨ getchar env.stdin = 89)) ∧
      (¬ (getchar env.stdin = 121 ∨ getchar env.stdin = 89) →
        (handle_state_dead env c).session.current_state = client_state_t.STATE_ERROR) ∧
      handle_state_error c = c ∧
      (c.session.current_state = client_state_t.STATE_ERROR →
        game_loop_step net env c = (c, false)) ∧
      (∀ st, st ≠ client_state_t.STATE_ERROR → c.session.current_state = st →
        (game_loop_step net env c).2 = true) ∧
      (c.session.current_state = client_state_t.STATE_INIT →
        game_loop_step net env c = (handle_state_init c, true)) ∧
      (c.session.current_state = client_state_t.STATE_CONNECTING →
        game_loop_step net env c = (handle_state_connecting net c, true)) ∧
      (c.session.current_state = client_state_t.STATE_JOINING →
        game_loop_step net env c = (handle_state_joining net env c, true)) ∧
      (c.session.current_state = client_state_t.STATE_PLAYING →
        game_loop_step net env c = (handle_state_playing net env c, true)) ∧
      (c.session.current_state = client_state_t.STATE_DEAD →
        game_loop_step net env c = (handle_state_dead env c, true)) ∧
      ((game_loop_step net env c).2 = true →
        table_allows c.session.current_state
          (game_loop_step net env c).1.session.current_state = true) ∧
      (c.session.current_state = client_state_t.STATE_DEAD →
        ((game_loop_step net env c).1.session.current_state = client_state_t.STATE_JOINING ↔
          (getchar env.stdin = 121 ∨ getchar env.stdin = 89)) ∧
        (¬ (getchar env.stdin = 121 ∨ getchar env.stdin = 89) →
          (game_loop_step net env c).1.session.current_state =
            client_state_t.STATE_ERROR)) ∧
      (game_loop_states net envs (game_init net boot)).head? =
        some client_state_t.STATE_CONNECTING ∧
      List.Chain' (fun a b => table_allows a b = true) (game_loop_states net envs c) ∧
      (c.session.current_state = client_state_t.STATE_ERROR →
        game_loop_states net envs c = [client_state_t.STATE_ERROR]) := by
  have hdead : ((handle_state_dead env c).session.current_state =
        client_state_t.STATE_JOINING ↔
        (getchar env.stdin = 121 ∨ getchar env.stdin = 89)) ∧
      (¬ (getchar env.stdin = 121 ∨ getchar env.stdin = 89) →
        (handle_state_dead env c).session.current_state = client_state_t.STATE_ERROR) := by
    constructor
    · unfold handle_state_dead
      split
      · rename_i h
        exact ⟨fun _ => h, fun _ => rfl⟩
      · rename_i h
        constructor
        · intro h1
          simp [state_set_current] at h1
        · intro h1
          exact absurd h1 h
    · intro h
      unfold handle_state_dead
      rw [if_neg h]
      rfl
  have herr : c.session.current_state = client_state_t.STATE_ERROR →
      game_loop_step net env c = (c, false) := by
    intro h
    simp only [game_loop_step, state_get_current, h, handle_state_error]
  refine ⟨rfl, rfl, ?_, ?_, fun h => h, hdead.1, hdead.2, rfl, herr, ?_, ?_, ?_, ?_, ?_, ?_,
    game_loop_step_allowed net env c, ?_, game_loop_states_head net envs _,
    game_loop_states_chain net envs c, ?_⟩
  · unfold handle_state_connecting
    split
    · exact Or.inl rfl
    · exact Or.inr rfl
  · unfold handle_state_joining
    split
    · exact Or.inl rfl
    · exact Or.inr rfl
  · intro st hst h
    cases st <;> simp_all [game_loop_step, state_get_current]
  · intro h
    simp only [game_loop_step, state_get_current, h]
  · intro h
    simp only [game_loop_step, state_get_current, h]
  · intro h
    simp only [game_loop_step, state_get_current, h]
  · intro h
    simp only [game_loop_step, state_get_current, h]
  · intro h
    simp only [game_loop_step, state_get_current, h]
  · intro h
    have e : game_loop_step net env c = (handle_state_dead env c, true) := by
      simp only [game_loop_step, state_get_current, h]
    rw [e]
    exact hdead
  · intro h
    cases envs with
    | nil =>
      simp only [game_loop_states, state_get_current, h]
    | cons e es =>
      have hstep : game_loop_step net e c = (c, false) := by
        simp only [game_loop_step, state_get_current, h, handle_state_error]
      rw [game_loop_states, hstep]
      simp [state_get_current, h]

/-- An instance: a run of the loop from DEAD on a server that refuses every request.  The
answer `Y` leads to JOINING, where the join fails and the run ends in ERROR although
more could be read; the answer `n` leads to ERROR at once. -/
theorem transition_table_witness :
    game_loop_states refusing_network
        [{ idle_env with stdin := bytes "Y" }, { idle_env with stdin := bytes "bob\n" },
          idle_env, idle_env, idle_env]
        (client_in client_state_t.STATE_DEAD) =
        [client_state_t.STATE_DEAD, client_state_t.STATE_JOINING,
          client_state_t.STATE_ERROR] ∧
      (game_loop_step refusing_network { idle_env with stdin := bytes "Y" }
        (client_in client_state_t.STATE_DEAD)).1.session.current_state =
        client_state_t.STATE_JOINING ∧
      (game_loop_step refusing_network { idle_env with stdin := bytes "n" }
        (client_in client_state_t.STATE_DEAD)).1.session.current_state =
        client_state_t.STATE_ERROR :=
  ⟨by decide,
    ((transition_table Unit refusing_network { idle_env with stdin := bytes "Y" }
      (client_in client_state_t.STATE_INIT) (client_in client_state_t.STATE_DEAD)
      []).2.2.2.2.2.2.2.2.2.2.2.2.2.2.2.2.1 rfl).1.2 (by decide),
    ((transition_table Unit refusing_network { idle_env with stdin := bytes "n" }
      (client_in client_state_t.STATE_INIT) (client_in client_state_t.STATE_DEAD)
      []).2.2.2.2.2.2.2.2.2.2.2.2.2.2.2.2.1 rfl).2 (by decide)⟩

/-! ## The endpoint operations -/

theorem snprintf256_fits (text : List Nat) (h : text.length ≤ 255) :
    snprintf256 text = text := by
  unfold snprintf256
  exact List.take_of_length_le h

/-- C23. For every buffer, `json_is_success` returns 1 if and only if the literal
`"success":` occurs and, at its FIRST occurrence, the text after any white space begins
with the four bytes `t`, `r`, `u`, `e`, and returns 0 otherwise.  Consequently, whatever
follows later in the buffer: a first occurrence followed by `false` yields 0, a first
occurrence followed by `true` and any further bytes (as in `truex`) yields 1, and a
first occurrence followed by a double quote (as in `"true"`) yields 0. -/
theorem json_is_success_first_match (json : List Nat) :
    (json_is_success json = 1 ↔
        ∃ i, first_occurrence (bytes "\"success\":") (cstr json) = some i ∧
          bytes "true" <+:
            ((cstr json).drop (i + (bytes "\"success\":").length)).dropWhile isspace) ∧
      (json_is_success json ≠ 1 → json_is_success json = 0) ∧
      (∀ (i : Nat) (ws rest : List Nat),
        first_occurrence (bytes "\"success\":") (cstr json) = some i →
        (∀ c ∈ ws, isspace c = true) →
        ((cstr json).drop (i + (bytes "\"success\":").length) = ws ++ bytes "false" ++ rest →
          json_is_success json = 0) ∧
        ((cstr json).drop (i + (bytes "\"success\":").length) = ws ++ bytes "true" ++ rest →
          json_is_success json = 1) ∧
        ((cstr json).drop (i + (bytes "\"success\":").length) = ws ++ 34 :: rest →
          json_is_success json = 0)) := by
  refine ⟨?_, ?_, ?_⟩
  · cases hf : first_occurrence (bytes "\"success\":") (cstr json) with
    | none =>
      have h0 : json_is_success json = 0 := by
        unfold json_is_success
        rw [strstr_eq, hf]
        rfl
      rw [h0]
      simp
    | some i =>
      rw [json_is_success_of_first json i hf]
      constructor
      · intro h
        refine ⟨i, rfl, ?_⟩
        by_contra hp
        rw [if_neg hp] at h
        exact absurd h (by decide)
      · rintro ⟨j, hj, hp⟩
        have hij : i = j := by simpa using hj
        subst hij
        rw [if_pos hp]
  · intro h
    unfold json_is_success at h ⊢
    cases hs : strstr (cstr json) (bytes "\"success\":") with
    | none => rfl
    | some pos =>
      rw [hs] at h
      by_cases h1 : strncmp (skip_space (List.drop (bytes "\"success\":").length pos))
          (bytes "true") 4 = 0
      · simp only [if_pos h1] at h
        exact absurd rfl h
      · simp only [if_neg h1]
  · intro i ws rest hfirst hws
    have htr : bytes "true" = [116, 114, 117, 101] := by decide
    have hfa : bytes "false" = [102, 97, 108, 115, 101] := by decide
    refine ⟨?_, ?_, ?_⟩
    · intro hafter
      rw [json_is_success_of_first json i hfirst, hafter, List.append_assoc,
        dropWhile_append_of_all isspace ws _ hws (by rw [hfa]; rfl), hfa, htr]
      simp [List.prefix_cons_inj]
    · intro hafter
      rw [json_is_success_of_first json i hfirst, hafter, List.append_assoc,
        dropWhile_append_of_all isspace ws _ hws (by rw [htr]; rfl)]
      simp
    · intro hafter
      rw [json_is_success_of_first json i hfirst, hafter,
        dropWhile_append_of_all isspace ws _ hws (by rfl), htr]
      simp [List.prefix_cons_inj]

/-- An instance: `false` before a later `true` yields 0, `truex` yields 1 and the quoted
`"true"` yields 0. -/
theorem json_is_success_first_match_witness :
    json_is_success (bytes "\x7b\"success\":false,\"success\":true\x7d") = 0 ∧
      json_is_success (bytes "\x7b\"success\": truex\x7d") = 1 ∧
      json_is_success (bytes "\x7b\"success\": \"true\"\x7d") = 0 :=
  ⟨((json_is_success_first_match (bytes "\x7b\"success\":false,\"success\":true\x7d")).2.2
      1 [] (bytes ",\"success\":true\x7d") (by decide) (by decide)).1 (by decide),
    ((json_is_success_first_match (bytes "\x7b\"success\": truex\x7d")).2.2
      1 (bytes " ") (bytes "x\x7d") (by decide) (by decide)).2.1 (by decide),
    ((json_is_success_first_match (bytes "\x7b\"success\": \"true\"\x7d")).2.2
      1 (bytes " ") (bytes "true\"\x7d") (by decide) (by decide)).2.2 (by decide)⟩

/-! ## The move request of `handle_state_playing` -/

/-- C25, as stated, fails in its last part: with the joystick held up and a move request
that succeeds with the response `{"id":"p1","x":5,"y":2}`, the step from PLAYING makes the
request but leaves `local_player` at `(5, 3)`; the response is only printed. -/
theorem playing_step_ignores_response_counterexample :
    input_get_debounced (input_update 1 (playing_client Unit ()).input) =
        input_direction_t.INPUT_UP ∧
      ((replying_network (bytes "\x7b\"id\":\"p1\",\"x\":5,\"y\":2\x7d")).network_move_player ()
        (bytes "p1") (bytes "up") idle_env.stack 2048).1 > 0 ∧
      json_get_int (bytes "\x7b\"id\":\"p1\",\"x\":5,\"y\":2\x7d") (bytes "y") 0 = (1, 2) ∧
      (game_loop_step (replying_network (bytes "\x7b\"id\":\"p1\",\"x\":5,\"y\":2\x7d"))
        { idle_env with raw := 1 } (playing_client Unit ())).1.session.local_player =
        some { id := bytes "p1", x := 5, y := 3, health := 100, status := bytes "alive" } := by
  decide

/-- C25, amended. In state PLAYING, one step issues exactly one move request for the
local player's id when the debounced direction is UP, DOWN, LEFT or RIGHT, with the
direction string `up`, `down`, `left` or `right` respectively, and issues none when it is
NONE or FIRE; the response of a successful request is only printed, and the session,
`local_player` included, is left as it was. -/
theorem playing_step_move_request (σ : Type) (net : Network σ) (env : Env) (c : Client σ)
    (hstate : c.session.current_state = client_state_t.STATE_PLAYING) :
    (input_get_debounced (input_update env.raw c.input) = input_direction_t.INPUT_UP →
        (game_loop_step net env c).1.net =
          (net.network_move_player c.net (state_get_local_player c.session).id (bytes "up")
            env.stack 2048).2.2) ∧
      (input_get_debounced (input_update env.raw c.input) = input_direction_t.INPUT_DOWN →
        (game_loop_step net env c).1.net =
          (net.network_move_player c.net (state_get_local_player c.session).id
            (bytes "down") env.stack 2048).2.2) ∧
      (input_get_debounced (input_update env.raw c.input) = input_direction_t.INPUT_LEFT →
        (game_loop_step net env c).1.net =
          (net.network_move_player c.net (state_get_local_player c.session).id
            (bytes "left") env.stack 2048).2.2) ∧
      (input_get_debounced (input_update env.raw c.input) = input_direction_t.INPUT_RIGHT →
        (game_loop_step net env c).1.net =
          (net.network_move_player c.net (state_get_local_player c.session).id
            (bytes "right") env.stack 2048).2.2) ∧
      (input_get_debounced (input_update env.raw c.input) = input_direction_t.INPUT_NONE ∨
          input_get_debounced (input_update env.raw c.input) =
            input_direction_t.INPUT_FIRE →
        (game_loop_step net env c).1.net = c.net) ∧
      (game_loop_step net env c).1.session = c.session := by
  have hstep : (game_loop_step net env c).1 = handle_state_playing net env c := by
    simp only [game_loop_step, state_get_current, hstate]
  rw [hstep]
  refine ⟨?_, ?_, ?_, ?_, ?_, rfl⟩
  · intro h
    simp [handle_state_playing, playing_move, h, dir_str]
  · intro h
    simp [handle_state_playing, playing_move, h, dir_str]
  · intro h
    simp [handle_state_playing, playing_move, h, dir_str]
  · intro h
    simp [handle_state_playing, playing_move, h, dir_str]
  · intro h
    rcases h with h | h <;> simp [handle_state_playing, playing_move, h, dir_str]

/-- An instance: with the joystick held up, one request `(p1, up)` is recorded. -/
theorem playing_step_move_request_witness :
    (game_loop_step (recording_network 24) { idle_env with raw := 1 }
      (playing_client (List (List Nat × List Nat)) [])).1.net = [(bytes "p1", bytes "up")] :=
  ((playing_step_move_request (List (List Nat × List Nat)) (recording_network 24)
    { idle_env with raw := 1 } (playing_client (List (List Nat × List Nat)) []) rfl).1
    (by decide)).trans (by decide)

/-! ## The wrap of the debounce counter -/

/-- C27, at the failing input: from `input_init`, while every poll reads UP, the
debouncer reports UP after the 4th and still after the 256th poll, where the 8-bit
counter holds 255; the 257th poll wraps the counter to 0 and the report is NONE again. -/
theorem debounce_counter_wraps :
    input_read_direction 1 = input_direction_t.INPUT_UP ∧
      input_get_debounced (input_polls (List.replicate 4 1) input_init) =
        input_direction_t.INPUT_UP ∧
      input_polls (List.replicate 256 1) input_init =
        { last_direction := input_direction_t.INPUT_UP, debounce_counter := 255 } ∧
      input_get_debounced (input_polls (List.replicate 256 1) input_init) =
        input_direction_t.INPUT_UP ∧
      input_polls (List.replicate 257 1) input_init =
        { last_direction := input_direction_t.INPUT_UP, debounce_counter := 0 } ∧
      input_get_debounced (input_polls (List.replicate 257 1) input_init) =
        input_direction_t.INPUT_NONE := by
  have hread : ∀ n, ∀ raw ∈ List.replicate n 1,
      input_read_direction raw = input_direction_t.INPUT_UP := by
    intro n raw h
    rw [List.eq_of_mem_replicate h]
    decide
  have hrun : ∀ n, 1 ≤ n → input_polls (List.replicate n 1) input_init =
      { last_direction := input_direction_t.INPUT_UP, debounce_counter := (n - 1) % 256 } := by
    intro n hn
    have h := input_polls_run input_init input_direction_t.INPUT_UP (List.replicate n 1)
      (by decide) (hread n) (by simpa using hn)
    simpa using h
  refine ⟨by decide, ?_, ?_, ?_, ?_, ?_⟩
  · rw [hrun 4 (by omega)]
    decide
  · rw [hrun 256 (by omega)]
  · rw [hrun 256 (by omega)]
    decide
  · rw [hrun 257 (by omega)]
  · rw [hrun 257 (by omega)]
    decide

/-! ## The decision of `handle_state_joining` -/

/-- C29. From state JOINING, for every join response, the next state is PLAYING if and
only if `network_join_player` returned a value `> 0`; otherwise it is ERROR and
`last_error` is set to a non-empty string.  The response content plays no part: the
session after a positive count is the session before with the state PLAYING. -/
theorem joining_decides_by_count (σ : Type) (net : Network σ) (env : Env) (c : Client σ)
    (hstate : c.session.current_state = client_state_t.STATE_JOINING) :
    ((game_loop_step net env c).1.session.current_state = client_state_t.STATE_PLAYING ↔
        (net.network_join_player c.net (read_player_name env) env.stack 2048).1 > 0) ∧
      ((net.network_join_player c.net (read_player_name env) env.stack 2048).1 > 0 →
        (game_loop_step net env c).1.session =
          state_set_current c.session client_state_t.STATE_PLAYING) ∧
      (¬ (net.network_join_player c.net (read_player_name env) env.stack 2048).1 > 0 →
        (game_loop_step net env c).1.session.current_state = client_state_t.STATE_ERROR ∧
        last_error_set (game_loop_step net env c).1.session) := by
  have hstep : (game_loop_step net env c).1 = handle_state_joining net env c := by
    simp only [game_loop_step, state_get_current, hstate]
  rw [hstep]
  by_cases hj : (net.network_join_player c.net (read_player_name env) env.stack
      2048).1 > 0
  · rw [handle_state_joining, if_pos hj]
    exact ⟨⟨fun _ => hj, fun _ => rfl⟩, fun _ => rfl, fun h => absurd hj h⟩
  · rw [handle_state_joining, if_neg hj]
    refine ⟨⟨fun h => ?_, fun h => absurd h hj⟩, fun h => absurd h hj,
      fun _ => ⟨rfl, _, rfl, by decide⟩⟩
    simp [state_set_current] at h

/-- An instance: with the name `bob` typed, the response `{"success":false}`, for which
`json_is_success` is false, leads to PLAYING because its length is positive. -/
theorem joining_decides_by_count_witness :
    json_is_success (bytes "\x7b\"success\":false\x7d") = 0 ∧
      (game_loop_step (replying_network (bytes "\x7b\"success\":false\x7d"))
        { idle_env with stdin := bytes "bob\n" }
        (client_in client_state_t.STATE_JOINING)).1.session.current_state =
        client_state_t.STATE_PLAYING :=
  ⟨by decide,
    (joining_decides_by_count Unit (replying_network (bytes "\x7b\"success\":false\x7d"))
      { idle_env with stdin := bytes "bob\n" } (client_in client_state_t.STATE_JOINING)
      rfl).1.2 (by decide)⟩

/-! ## Exchanges while not connected -/

theorem status_after_failed_inits (errs : List Nat) (st : network_status_t)
    (hst : st ≠ network_status_t.NET_CONNECTED) (herrs : ∀ e ∈ errs, e ≠ FN_ERR_OK) :
    errs.foldl (fun st err => (kz_network_init err st).2) st ≠
      network_status_t.NET_CONNECTED := by
  induction errs generalizing st with
  | nil => exact hst
  | cons e t ih =>
    rw [List.foldl_cons]
    apply ih
    · have he : e ≠ FN_ERR_OK := herrs e (by simp)
      simp [kz_network_init, he]
    · intro x hx
      exact herrs x (by simp [hx])

/-- C30. When the transport is not in the connected state, `kz_network_http_get` and
`kz_network_http_post` return -1 with an empty trace of device calls and the caller's
response buffer as it was, and so do `network_get` and `network_post` of
`client/network.c`; `kz_network_close` (and the client's `network_close`) always leaves
the status disconnected, and the status stays other than connected through every
`kz_network_init` that fails, so every exchange after a close and before a successful
init returns -1. -/
theorem disconnected_exchange (cfg : Config) (dev : Device)
    (current_status : network_status_t) (ns : ClientNet) (path body : List Nat)
    (response : Nat → Nat) (response_len : Nat) :
    (current_status ≠ network_status_t.NET_CONNECTED →
        ((kz_network_http_get cfg dev current_status path response response_len).ret = -1 ∧
          (kz_network_http_get cfg dev current_status path response response_len).trace =
            [] ∧
          (kz_network_http_get cfg dev current_status path response
            response_len).response = response) ∧
        ((kz_network_http_post cfg dev current_status path body response
            response_len).ret = -1 ∧
          (kz_network_http_post cfg dev current_status path body response
            response_len).trace = [] ∧
          (kz_network_http_post cfg dev current_status path body response
            response_len).response = response)) ∧
      (ns.current_status ≠ network_status_t.NET_CONNECTED →
        network_get ns path response response_len = (-1, response) ∧
        network_post ns path body response response_len = (-1, response)) ∧
      (kz_network_close current_status).2 = network_status_t.NET_DISCONNECTED ∧
      (client_network_close ns).2.current_status = network_status_t.NET_DISCONNECTED ∧
      (∀ errs : List Nat, (∀ e ∈ errs, e ≠ FN_ERR_OK) →
        (kz_network_http_get cfg dev (status_after_inits errs current_status) path response
          response_len).ret = -1 ∧
        (kz_network_http_post cfg dev (status_after_inits errs current_status) path body
          response response_len).ret = -1) := by
  have hoff : ∀ st, st ≠ network_status_t.NET_CONNECTED →
      ((kz_network_http_get cfg dev st path response response_len).ret = -1 ∧
        (kz_network_http_get cfg dev st path response response_len).trace = [] ∧
        (kz_network_http_get cfg dev st path response response_len).response = response) ∧
      ((kz_network_http_post cfg dev st path body response response_len).ret = -1 ∧
        (kz_network_http_post cfg dev st path body response response_len).trace = [] ∧
        (kz_network_http_post cfg dev st path body response response_len).response =
          response) := by
    intro st hst
    unfold kz_network_http_get kz_network_http_post
    rw [if_pos hst, if_pos hst]
    exact ⟨⟨rfl, rfl, rfl⟩, rfl, rfl, rfl⟩
  refine ⟨hoff current_status, ?_, rfl, rfl, ?_⟩
  · intro h
    unfold network_get network_post stub_exchange
    rw [if_pos h, if_pos h]
    exact ⟨rfl, rfl⟩
  · intro errs herrs
    have hst := status_after_failed_inits errs (kz_network_close current_status).2
      (by simp [kz_network_close]) herrs
    have h := hoff (status_after_inits errs current_status) hst
    exact ⟨h.1.1, h.2.1⟩

/-- An instance: a GET after a close and two failed inits. -/
theorem disconnected_exchange_witness :
    (kz_network_http_get sample_config (data_device 0 [[104, 105]])
        (status_after_inits [1, 144] network_status_t.NET_CONNECTED) (bytes "/api/health")
        (fun _ => 0) 2048).ret = -1 :=
  ((disconnected_exchange sample_config (data_device 0 [[104, 105]])
    network_status_t.NET_CONNECTED boot_client.net (bytes "/api/health") (bytes "\x7b\x7d")
    (fun _ => 0) 2048).2.2.2.2 [1, 144] (by decide)).1

/-! ## World rendering -/

/-- The cells after the loop over the other players: a cell holds an enemy when one of
the players visited stands on it inside the screen, and is as before otherwise. -/
theorem graphics_draw_others_cell (xs ys : List Nat) :
    ∀ (n i : Nat) (buf : Nat → Nat) (idx : Nat),
      ((∃ j, i ≤ j ∧ j < i + n ∧ xs.getD j 0 < SCREEN_WIDTH ∧ ys.getD j 0 < SCREEN_HEIGHT ∧
          ys.getD j 0 * SCREEN_WIDTH + xs.getD j 0 = idx) →
        graphics_draw_others xs ys n i buf idx = CHAR_ENEMY) ∧
      ((¬ ∃ j, i ≤ j ∧ j < i + n ∧ xs.getD j 0 < SCREEN_WIDTH ∧
          ys.getD j 0 < SCREEN_HEIGHT ∧
          ys.getD j 0 * SCREEN_WIDTH + xs.getD j 0 = idx) →
        graphics_draw_others xs ys n i buf idx = buf idx) := by
  intro n
  induction n with
  | zero =>
    intro i buf idx
    constructor
    · rintro ⟨j, h1, h2, -⟩
      omega
    · intro _
      rfl
  | succ n ih =>
    intro i buf idx
    rw [graphics_draw_others]
    have hih := ih (i + 1)
      (if xs.getD i 0 < SCREEN_WIDTH ∧ ys.getD i 0 < SCREEN_HEIGHT then
        graphics_draw_char buf (xs.getD i 0) (ys.getD i 0) CHAR_ENEMY
      else buf) idx
    by_cases hlater : ∃ j, i + 1 ≤ j ∧ j < i + 1 + n ∧ xs.getD j 0 < SCREEN_WIDTH ∧
        ys.getD j 0 < SCREEN_HEIGHT ∧ ys.getD j 0 * SCREEN_WIDTH + xs.getD j 0 = idx
    · constructor
      · intro _
        exact hih.1 hlater
      · intro hno
        obtain ⟨j, h1, h2, h3⟩ := hlater
        exact absurd ⟨j, by omega, by omega, h3⟩ hno
    · rw [hih.2 hlater]
      by_cases hi : (xs.getD i 0 < SCREEN_WIDTH ∧ ys.getD i 0 < SCREEN_HEIGHT) ∧
          ys.getD i 0 * SCREEN_WIDTH + xs.getD i 0 = idx
      · constructor
        · intro _
          rw [if_pos hi.1, graphics_draw_char, if_pos hi.1]
          simp only [store]
          rw [if_pos hi.2.symm]
        · intro hno
          exact absurd ⟨i, by omega, by omega, hi.1.1, hi.1.2, hi.2⟩ hno
      · constructor
        · rintro ⟨j, h1, h2, h3, h4, h5⟩
          by_cases hj : j = i
          · subst hj
            exact absurd ⟨⟨h3, h4⟩, h5⟩ hi
          · exact absurd ⟨j, by omega, by omega, h3, h4, h5⟩ hlater
        · intro _
          by_cases hc : xs.getD i 0 < SCREEN_WIDTH ∧ ys.getD i 0 < SCREEN_HEIGHT
          · rw [if_pos hc, graphics_draw_char, if_pos hc]
            have hne : ¬ idx = ys.getD i 0 * SCREEN_WIDTH + xs.getD i 0 :=
              fun h => hi ⟨hc, h.symm⟩
            simp only [store]
            rw [if_neg hne]
          · rw [if_neg hc]

/-- The loop over the other players writes enemies only. -/
theorem graphics_draw_others_outside (xs ys : List Nat) :
    ∀ (n i : Nat) (buf : Nat → Nat) (idx : Nat), SCREEN_BUFFER_SIZE ≤ idx →
      graphics_draw_others xs ys n i buf idx = buf idx := by
  intro n i buf idx hidx
  apply (graphics_draw_others_cell xs ys n i buf idx).2
  rintro ⟨j, -, -, h3, h4, h5⟩
  unfold SCREEN_BUFFER_SIZE SCREEN_WIDTH SCREEN_HEIGHT at *
  omega

/-- The cells of the screen after `graphics_draw_world`, and the bytes beyond them. -/
theorem graphics_draw_world_cells (buf : Nat → Nat) (px py : Nat) (xs ys : List Nat)
    (count : Nat) :
    (∀ x y, x < SCREEN_WIDTH → y < SCREEN_HEIGHT →
        graphics_draw_world buf px py xs ys count (y * SCREEN_WIDTH + x) =
          world_cell px py xs ys count x y) ∧
      (∀ idx, SCREEN_BUFFER_SIZE ≤ idx →
        graphics_draw_world buf px py xs ys count idx = buf idx) := by
  constructor
  · intro x y hx hy
    unfold graphics_draw_world world_cell
    have hcell := graphics_draw_others_cell xs ys count 0 (graphics_clear_screen buf)
      (y * SCREEN_WIDTH + x)
    have hiff : (∃ j, 0 ≤ j ∧ j < 0 + count ∧ xs.getD j 0 < SCREEN_WIDTH ∧
        ys.getD j 0 < SCREEN_HEIGHT ∧
        ys.getD j 0 * SCREEN_WIDTH + xs.getD j 0 = y * SCREEN_WIDTH + x) ↔
        ∃ j, j < count ∧ xs.getD j 0 = x ∧ ys.getD j 0 = y := by
      unfold SCREEN_WIDTH SCREEN_HEIGHT at *
      constructor
      · rintro ⟨j, -, h2, h3, h4, h5⟩
        exact ⟨j, by omega, by omega, by omega⟩
      · rintro ⟨j, h1, h2, h3⟩
        exact ⟨j, by omega, by omega, by omega, by omega, by rw [h2, h3]⟩
    rw [hiff] at hcell
    have hothers : graphics_draw_others xs ys count 0 (graphics_clear_screen buf)
        (y * SCREEN_WIDTH + x) =
        if ∃ j, j < count ∧ xs.getD j 0 = x ∧ ys.getD j 0 = y then CHAR_ENEMY
        else CHAR_EMPTY := by
      split
      · rename_i h
        exact hcell.1 h
      · rename_i h
        rw [hcell.2 h]
        unfold graphics_clear_screen SCREEN_BUFFER_SIZE SCREEN_WIDTH SCREEN_HEIGHT at *
        rw [if_pos (by omega)]
    by_cases hp : px < SCREEN_WIDTH ∧ py < SCREEN_HEIGHT
    · simp only [if_pos hp, graphics_draw_char]
      by_cases hxy : px = x ∧ py = y
      · rw [if_pos hxy]
        simp only [store]
        rw [if_pos (by rw [hxy.1, hxy.2])]
      · rw [if_neg hxy]
        have hne : ¬ y * SCREEN_WIDTH + x = py * SCREEN_WIDTH + px := by
          unfold SCREEN_WIDTH SCREEN_HEIGHT at *
          omega
        simp only [store, if_neg hne]
        exact hothers
    · have hxy : ¬ (px = x ∧ py = y) := by
        rintro ⟨h1, h2⟩
        subst h1 h2
        exact hp ⟨hx, hy⟩
      simp only [if_neg hp, if_neg hxy]
      exact hothers
  · intro idx hidx
    unfold graphics_draw_world
    have hothers := graphics_draw_others_outside xs ys count 0 (graphics_clear_screen buf)
      idx hidx
    have hclear : graphics_clear_screen buf idx = buf idx := by
      unfold graphics_clear_screen
      rw [if_neg (by omega)]
    by_cases hp : px < SCREEN_WIDTH ∧ py < SCREEN_HEIGHT
    · simp only [if_pos hp, graphics_draw_char]
      have hne : ¬ idx = py * SCREEN_WIDTH + px := by
        unfold SCREEN_BUFFER_SIZE SCREEN_WIDTH SCREEN_HEIGHT at *
        omega
      simp only [store, if_neg hne]
      rw [hothers, hclear]
    · simp only [if_neg hp]
      rw [hothers, hclear]

/-- The inner loop of `display_clear` empties the cells of its row it visits. -/
theorem display_clear_cols_cell (y : Nat) :
    ∀ (n x : Nat) (buf : Nat → Nat) (idx : Nat),
      display_clear_cols y n x buf idx =
        if y * DISPLAY_WIDTH + x ≤ idx ∧ idx < y * DISPLAY_WIDTH + x + n then CHAR_EMPTY
        else buf idx := by
  intro n
  induction n with
  | zero =>
    intro x buf idx
    rw [display_clear_cols, if_neg (by omega)]
  | succ n ih =>
    intro x buf idx
    rw [display_clear_cols, ih]
    by_cases h1 : y * DISPLAY_WIDTH + (x + 1) ≤ idx ∧ idx < y * DISPLAY_WIDTH + (x + 1) + n
    · rw [if_pos h1, if_pos (by omega)]
    · rw [if_neg h1]
      simp only [store]
      by_cases h2 : idx = y * DISPLAY_WIDTH + x
      · rw [if_pos h2, if_pos (by omega)]
      · rw [if_neg h2, if_neg (by omega)]

/-- The outer loop of `display_clear` empties the rows it visits. -/
theorem display_clear_rows_cell :
    ∀ (n y : Nat) (buf : Nat → Nat) (idx : Nat),
      display_clear_rows n y buf idx =
        if y * DISPLAY_WIDTH ≤ idx ∧ idx < (y + n) * DISPLAY_WIDTH then CHAR_EMPTY
        else buf idx := by
  intro n
  induction n with
  | zero =>
    intro y buf idx
    rw [display_clear_rows, if_neg (by rw [Nat.add_zero]; omega)]
  | succ n ih =>
    intro y buf idx
    rw [display_clear_rows, ih, display_clear_cols_cell]
    unfold DISPLAY_WIDTH
    by_cases h1 : (y + 1) * 40 ≤ idx ∧ idx < (y + 1 + n) * 40
    · rw [if_pos h1, if_pos (by omega)]
    · rw [if_neg h1]
      by_cases h2 : y * 40 + 0 ≤ idx ∧ idx < y * 40 + 0 + 40
      · rw [if_pos h2, if_pos (by omega)]
      · rw [if_neg h2, if_neg (by omega)]

/-- The two nested loops of `display_clear` do what `graphics_clear_screen` does. -/
theorem display_clear_eq (buf : Nat → Nat) : display_clear buf = graphics_clear_screen buf := by
  funext idx
  rw [display_clear, display_clear_rows_cell]
  unfold graphics_clear_screen SCREEN_BUFFER_SIZE SCREEN_WIDTH SCREEN_HEIGHT DISPLAY_WIDTH
    DISPLAY_HEIGHT
  by_cases h : idx < 40 * 20
  · rw [if_pos h, if_pos (by omega)]
  · rw [if_neg h, if_neg (by omega)]

/-- The loop of `display_draw_world` over the other players is the loop of
`graphics_draw_world` on their coordinates. -/
theorem display_draw_others_eq (others : List player_state_t) :
    ∀ (n i : Nat) (buf : Nat → Nat),
      display_draw_others others n i buf =
        graphics_draw_others (others.map player_state_t.x) (others.map player_state_t.y)
          n i buf := by
  have hx : ∀ i, (other_player_at others i).x = (others.map player_state_t.x).getD i 0 := by
    intro i
    unfold other_player_at
    by_cases h : i < others.length
    · rw [List.getD_eq_getElem _ _ h, List.getD_eq_getElem _ _ (by simpa using h)]
      simp
    · rw [List.getD_eq_default _ _ (by omega), List.getD_eq_default _ _ (by simp; omega)]
  have hy : ∀ i, (other_player_at others i).y = (others.map player_state_t.y).getD i 0 := by
    intro i
    unfold other_player_at
    by_cases h : i < others.length
    · rw [List.getD_eq_getElem _ _ h, List.getD_eq_getElem _ _ (by simpa using h)]
      simp
    · rw [List.getD_eq_default _ _ (by omega), List.getD_eq_default _ _ (by simp; omega)]
  intro n
  induction n with
  | zero =>
    intro i buf
    rfl
  | succ n ih =>
    intro i buf
    rw [display_draw_others, graphics_draw_others, ih, hx, hy]
    rfl

/-- The Atari renderer draws the picture of `graphics_draw_world` on the coordinates of
its world snapshot. -/
theorem display_draw_world_eq (buf : Nat → Nat) (world : world_state_t) :
    display_draw_world buf world =
      graphics_draw_world buf world.local_player.x world.local_player.y
        (world.other_players.map player_state_t.x) (world.other_players.map player_state_t.y)
        world.other_player_count := by
  unfold display_draw_world graphics_draw_world
  simp only [display_clear_eq, display_draw_others_eq]
  rfl

/-- C26: after `graphics_draw_world`, and likewise after `display_draw_world`, the cell
(x, y) of the 40x20 screen holds the local player if it stands there, else an enemy if
one of the other players stands there, else the empty character, so that positions
outside the screen change no cell; the bytes beyond the 800 cells are as before; and
`graphics_draw_char` and `display_draw_char` with a position outside the screen leave the
whole buffer unchanged. -/
theorem world_rendering (buf : Nat → Nat) (px py : Nat) (xs ys : List Nat) (count : Nat)
    (world : world_state_t) :
    (∀ x y, x < SCREEN_WIDTH → y < SCREEN_HEIGHT →
        graphics_draw_world buf px py xs ys count (y * SCREEN_WIDTH + x) =
          world_cell px py xs ys count x y) ∧
      (∀ idx, SCREEN_BUFFER_SIZE ≤ idx →
        graphics_draw_world buf px py xs ys count idx = buf idx) ∧
      (∀ x y, x < DISPLAY_WIDTH → y < DISPLAY_HEIGHT →
        display_draw_world buf world (y * DISPLAY_WIDTH + x) =
          world_cell world.local_player.x world.local_player.y
            (world.other_players.map player_state_t.x)
            (world.other_players.map player_state_t.y) world.other_player_count x y) ∧
      (∀ idx, DISPLAY_WIDTH * DISPLAY_HEIGHT ≤ idx →
        display_draw_world buf world idx = buf idx) ∧
      (∀ x y c, SCREEN_WIDTH ≤ x ∨ SCREEN_HEIGHT ≤ y →
        graphics_draw_char buf x y c = buf ∧ display_draw_char buf x y c = buf) := by
  refine ⟨(graphics_draw_world_cells buf px py xs ys count).1,
    (graphics_draw_world_cells buf px py xs ys count).2, ?_, ?_, ?_⟩
  · intro x y hx hy
    rw [display_draw_world_eq]
    exact (graphics_draw_world_cells buf _ _ _ _ _).1 x y hx hy
  · intro idx hidx
    rw [display_draw_world_eq]
    exact (graphics_draw_world_cells buf _ _ _ _ _).2 idx hidx
  · intro x y c hout
    have hno : ¬ (x < SCREEN_WIDTH ∧ y < SCREEN_HEIGHT) := by omega
    constructor
    · rw [graphics_draw_char, if_neg hno]
    · have hno2 : ¬ (x < DISPLAY_WIDTH ∧ y < DISPLAY_HEIGHT) := hno
      rw [display_draw_char, if_neg hno2]

/-- C26, evaluated: two other players, one of them under the local player and one
outside the screen. -/
theorem world_rendering_witness :
    graphics_draw_world (fun _ => 0) 5 3 [5, 7, 45] [3, 3, 0] 3 (3 * SCREEN_WIDTH + 5) =
        CHAR_PLAYER ∧
      graphics_draw_world (fun _ => 0) 5 3 [5, 7, 45] [3, 3, 0] 3 (3 * SCREEN_WIDTH + 7) =
        CHAR_ENEMY ∧
      graphics_draw_world (fun _ => 0) 5 3 [5, 7, 45] [3, 3, 0] 3 (1 * SCREEN_WIDTH + 5) =
        CHAR_EMPTY ∧
      graphics_draw_world (fun _ => 0) 5 3 [5, 7, 45] [3, 3, 0] 3 800 = 0 ∧
      graphics_draw_char (fun _ => 0) 40 0 CHAR_PLAYER = (fun _ => 0) := by
  have h := world_rendering (fun _ => 0) 5 3 [5, 7, 45] [3, 3, 0] 3
    ⟨⟨[], 5, 3, 0, []⟩, [], 0⟩
  refine ⟨?_, ?_, ?_, ?_, ?_⟩
  · rw [h.1 5 3 (by decide) (by decide)]
    decide
  · rw [h.1 7 3 (by decide) (by decide)]
    decide
  · rw [h.1 5 1 (by decide) (by decide)]
    decide
  · exact h.2.1 800 (by decide)
  · exact (h.2.2.2.2 40 0 CHAR_PLAYER (Or.inl (by decide))).1

/-! ## Reading a field found by `strstr` -/

theorem cstr_eq_self (l : List Nat) (h : 0 ∉ l) : cstr l = l := by
  unfold cstr
  rw [List.takeWhile_eq_self_iff]
  intro c hc
  have : c ≠ 0 := fun h0 => h (h0 ▸ hc)
  simpa using this

theorem strstr_some_first (text pat pos : List Nat) (h : strstr text pat = some pos) :
    ∃ i, first_occurrence pat text = some i ∧ text.drop i = pos := by
  rw [strstr_eq] at h
  cases hf : first_occurrence pat text with
  | none =>
    rw [hf] at h
    simp at h
  | some i =>
    rw [hf] at h
    exact ⟨i, rfl, by simpa using h⟩

theorem strstr_cons_of_no_match (c : Nat) (t pat : List Nat)
    (h : ¬ pat <+: c :: t) : strstr (c :: t) pat = strstr t pat := by
  rw [strstr, if_neg (by rw [List.isPrefixOf_iff_prefix]; exact h)]

theorem strstr_of_match (c : Nat) (t pat : List Nat) (h : pat <+: c :: t) :
    strstr (c :: t) pat = some (c :: t) := by
  rw [strstr, if_pos (by rw [List.isPrefixOf_iff_prefix]; exact h)]

theorem field_value_of_spaced (pat text : List Nat) (i : Nat) (ws v rest : List Nat)
    (hfirst : first_occurrence pat text = some i)
    (hafter : text.drop (i + pat.length) = ws ++ (34 :: v ++ 34 :: rest))
    (hws : ∀ c ∈ ws, isspace c = true) (hv : 34 ∉ v) :
    field_value pat text = some v := by
  unfold field_value
  rw [hfirst]
  simp only [hafter]
  rw [dropWhile_append_of_all isspace ws (34 :: v ++ 34 :: rest) hws (by simp [isspace])]
  simp [takeWhile_ne_append 34 v rest hv]

/-- What `json_get_string` returns once `strstr` has found the pattern in front of white
space and a quoted value that fits the output. -/
theorem json_get_string_of_strstr (json key : List Nat) (value : Nat → Nat) (value_len : Nat)
    (ws v rest : List Nat) (hkey : (cstr key).length ≤ 124)
    (hs : strstr (cstr json) (34 :: cstr key ++ [34, 58]) =
      some ((34 :: cstr key ++ [34, 58]) ++ (ws ++ (34 :: v ++ 34 :: rest))))
    (hws : ∀ c ∈ ws, isspace c = true) (hv : 34 ∉ v) (hcap : v.length < value_len)
    (h16 : v.length < 65536) :
    (json_get_string json key value value_len).1 = v.length ∧
      mem_take (json_get_string json key value value_len).2 v.length = v := by
  obtain ⟨i, hfirst, hdrop⟩ := strstr_some_first _ _ _ hs
  have hafter : (cstr json).drop (i + (34 :: cstr key ++ [34, 58]).length) =
      ws ++ (34 :: v ++ 34 :: rest) := by
    have e : (cstr json).drop (i + (34 :: cstr key ++ [34, 58]).length) =
        ((cstr json).drop i).drop (34 :: cstr key ++ [34, 58]).length := by
      rw [List.drop_drop, Nat.add_comm]
    rw [e, hdrop, List.drop_left]
  rw [json_get_string_eq json key value value_len (by omega), search_key_eq key hkey,
    field_value_of_spaced _ _ i ws v rest hfirst hafter hws hv]
  have h3 : v.length % 65536 = v.length := Nat.mod_eq_of_lt h16
  have h4 : (if v.length ≥ value_len then value_len - 1 else v.length) = v.length := by
    rw [if_neg (by omega)]
  simp only [h3, h4, true_and]
  rw [mem_take_store_strncpy _ _ _ (Nat.le_refl _), List.take_length]

/-- What `json_get_int` returns once `strstr` has found the pattern in front of white
space and the numeral of an int32 ended by a non-digit. -/
theorem json_get_int_of_strstr (json key : List Nat) (value : Int) (n : Int)
    (ws rest : List Nat) (hkey : (cstr key).length ≤ 124)
    (hs : strstr (cstr json) (34 :: cstr key ++ [34, 58]) =
      some ((34 :: cstr key ++ [34, 58]) ++ (ws ++ (numeral n ++ rest))))
    (hws : ∀ c ∈ ws, isspace c = true) (hlo : -2147483648 ≤ n) (hhi : n ≤ 2147483647)
    (hrest : isdigit (rest.headD 0) = false) :
    json_get_int json key value = (1, n) := by
  obtain ⟨i, hfirst, hdrop⟩ := strstr_some_first _ _ _ hs
  have hafter : (cstr json).drop (i + (34 :: cstr key ++ [34, 58]).length) =
      ws ++ (numeral n ++ rest) := by
    have e : (cstr json).drop (i + (34 :: cstr key ++ [34, 58]).length) =
        ((cstr json).drop i).drop (34 :: cstr key ++ [34, 58]).length := by
      rw [List.drop_drop, Nat.add_comm]
    rw [e, hdrop, List.drop_left]
  rw [← search_key_eq key hkey] at hfirst hafter
  rw [json_get_int_of_first json key value i hfirst, hafter]
  have hsp : isspace ((numeral n ++ rest).headD 0) = false := by
    unfold numeral
    split
    · simp [isspace]
    · have hh := decimal_head_digit n.natAbs
      have hne : decimal n.natAbs ≠ [] := decimal_aux_ne_nil _ _ (by omega)
      obtain ⟨c, t, hct⟩ := List.exists_cons_of_ne_nil hne
      rw [hct] at hh ⊢
      exact not_space_of_digit c (by simpa using hh)
  rw [dropWhile_append_of_all isspace ws _ hws hsp, strtol_numeral n rest hlo hhi hrest]

/-! ## Request bodies -/

/-- A body of one quoted field, written into the 256-byte body buffer, read back. -/
theorem body_readable (key s : List Nat) (value : Nat → Nat) (cap : Nat)
    (hkey0 : 0 ∉ key) (hkeylen : key.length ≤ 124) (hs0 : 0 ∉ s)
    (hs : 34 ∉ s) (hfit : key.length + s.length + 7 ≤ 255) (hcap : s.length < cap) :
    (json_get_string (snprintf256 (123 :: 34 :: key ++ [34, 58, 34] ++ s ++ [34, 125])) key
        value cap).1 = s.length ∧
      mem_take (json_get_string (snprintf256 (123 :: 34 :: key ++ [34, 58, 34] ++ s ++ [34, 125]))
        key value cap).2 s.length = s := by
  rw [snprintf256_fits _ (by simp; omega)]
  have hk : cstr key = key := cstr_eq_self key hkey0
  have htext : cstr (123 :: 34 :: key ++ [34, 58, 34] ++ s ++ [34, 125]) =
      123 :: ((34 :: key ++ [34, 58]) ++ ([] ++ (34 :: s ++ 34 :: [125]))) := by
    rw [cstr_eq_self]
    · simp
    · intro h
      simp only [List.cons_append, List.append_assoc, List.mem_cons, List.mem_append,
        List.mem_singleton] at h
      rcases h with h | h | h | h | h | h | h | h | h <;> first | omega | contradiction
  apply json_get_string_of_strstr _ key value cap [] s [125] (by rw [hk]; exact hkeylen)
  · rw [htext, hk, strstr_cons_of_no_match]
    · exact strstr_of_match _ _ _ (List.prefix_append _ _)
    · intro h
      have := List.cons_prefix_cons.1 h
      omega
  · intro c hc
    simp at hc
  · exact hs
  · exact hcap
  · omega

/-- C28: the request bodies are readable by the extractor. For every player name without
double quote (a C string, so without NUL) of at most 244 bytes, so that the body fits the
256-byte body buffer, `json_get_string` on the join body that `kz_network_join_player`
posts, with key `name` and a capacity above the length of the name, returns the length
of the name and leaves exactly the name in the output; likewise the move body yields the
direction (at most 239 bytes) under key `direction`, and the leave body yields the id (at
most 246 bytes) under key `id`. -/
theorem request_bodies_readable (cfg : Config) (dev : Device) (st : network_status_t)
    (name direction player_id : List Nat) (response value : Nat → Nat)
    (response_len cap : Nat) :
    (kz_network_join_player cfg dev st name response response_len =
        kz_network_http_post cfg dev st (bytes "/api/player/join") (join_body name)
          response response_len ∧
      (34 ∉ cstr name → (cstr name).length ≤ 244 → (cstr name).length < cap →
        (json_get_string (join_body name) (bytes "name") value cap).1 = (cstr name).length ∧
          mem_take (json_get_string (join_body name) (bytes "name") value cap).2
            (cstr name).length = cstr name)) ∧
      (kz_network_move_player cfg dev st player_id direction response response_len =
        kz_network_http_post cfg dev st (move_path player_id) (move_body direction)
          response response_len ∧
      (34 ∉ cstr direction → (cstr direction).length ≤ 239 → (cstr direction).length < cap →
        (json_get_string (move_body direction) (bytes "direction") value cap).1 =
            (cstr direction).length ∧
          mem_take (json_get_string (move_body direction) (bytes "direction") value cap).2
            (cstr direction).length = cstr direction)) ∧
      (kz_network_leave_player cfg dev st player_id response response_len =
        kz_network_http_post cfg dev st (bytes "/api/player/leave") (leave_body player_id)
          response response_len ∧
      (34 ∉ cstr player_id → (cstr player_id).length ≤ 246 → (cstr player_id).length < cap →
        (json_get_string (leave_body player_id) (bytes "id") value cap).1 =
            (cstr player_id).length ∧
          mem_take (json_get_string (leave_body player_id) (bytes "id") value cap).2
            (cstr player_id).length = cstr player_id)) := by
  have h0 : ∀ l : List Nat, 0 ∉ cstr l := by
    intro l h
    have := List.mem_takeWhile_imp h
    simp at this
  refine ⟨⟨rfl, ?_⟩, ⟨rfl, ?_⟩, ⟨rfl, ?_⟩⟩
  · intro h34 hlen hcap
    have hb : join_body name =
        snprintf256 (123 :: 34 :: bytes "name" ++ [34, 58, 34] ++ cstr name ++ [34, 125]) := rfl
    rw [hb]
    exact body_readable (bytes "name") (cstr name) value cap (by decide) (by decide) (h0 name)
      h34 (by rw [show (bytes "name").length = 4 by decide]; omega) hcap
  · intro h34 hlen hcap
    have hb : move_body direction =
        snprintf256 (123 :: 34 :: bytes "direction" ++ [34, 58, 34] ++ cstr direction ++
          [34, 125]) := rfl
    rw [hb]
    exact body_readable (bytes "direction") (cstr direction) value cap (by decide) (by decide)
      (h0 direction) h34 (by rw [show (bytes "direction").length = 9 by decide]; omega) hcap
  · intro h34 hlen hcap
    have hb : leave_body player_id =
        snprintf256 (123 :: 34 :: bytes "id" ++ [34, 58, 34] ++ cstr player_id ++ [34, 125]) :=
      rfl
    rw [hb]
    exact body_readable (bytes "id") (cstr player_id) value cap (by decide) (by decide)
      (h0 player_id) h34 (by rw [show (bytes "id").length = 2 by decide]; omega) hcap

/-- C28, evaluated: the name `bob`, the direction `up` and the id `p1` read back from
their bodies. -/
theorem request_bodies_readable_witness :
    34 ∉ cstr (bytes "bob") ∧
      mem_take (json_get_string (join_body (bytes "bob")) (bytes "name") (fun _ => 7) 32).2
        (cstr (bytes "bob")).length = cstr (bytes "bob") ∧
      mem_take (json_get_string (move_body (bytes "up")) (bytes "direction") (fun _ => 7) 32).2
        (cstr (bytes "up")).length = cstr (bytes "up") ∧
      mem_take (json_get_string (leave_body (bytes "p1")) (bytes "id") (fun _ => 7) 32).2
        (cstr (bytes "p1")).length = cstr (bytes "p1") :=
  have h := request_bodies_readable sample_config (scripted_device []) network_status_t.NET_CONNECTED
    (bytes "bob") (bytes "up") (bytes "p1") (fun _ => 0) (fun _ => 7) 16 32
  ⟨by decide, (h.1.2 (by decide) (by decide) (by decide)).2,
    (h.2.1.2 (by decide) (by decide) (by decide)).2,
    (h.2.2.2 (by decide) (by decide) (by decide)).2⟩

/-! ## Flat objects -/

theorem ident_char_ne (c : Nat) (h : ident_char c = true) :
    c ≠ 0 ∧ c ≠ 34 ∧ c ≠ 44 ∧ c ≠ 58 ∧ c ≠ 125 := by
  unfold ident_char at h
  simp only [Bool.or_eq_true, Bool.and_eq_true, decide_eq_true_eq, beq_iff_eq] at h
  omega

theorem numeral_chars (n : Int) : ∀ c ∈ numeral n, c = 45 ∨ isdigit c = true := by
  intro c hc
  unfold numeral at hc
  split at hc
  · rcases List.mem_cons.1 hc with h | h
    · exact Or.inl h
    · exact Or.inr (decimal_aux_digits _ _ c h)
  · exact Or.inr (decimal_aux_digits _ _ c hc)

theorem numeral_char_ne (n : Int) (c : Nat) (hc : c ∈ numeral n) : c ≠ 0 ∧ c ≠ 34 := by
  rcases numeral_chars n c hc with h | h
  · omega
  · unfold isdigit at h
    simp only [Bool.and_eq_true, decide_eq_true_eq] at h
    omega

theorem space_ne (c : Nat) (hc : isspace c = true) : c ≠ 0 ∧ c ≠ 34 := by
  unfold isspace at hc
  simp only [Bool.or_eq_true, Bool.and_eq_true, decide_eq_true_eq, beq_iff_eq] at hc
  omega

theorem render_tail_head (fs : List JField) :
    (render_tail fs).headD 0 = 44 ∨ (render_tail fs).headD 0 = 125 := by
  cases fs with
  | nil => exact Or.inr rfl
  | cons f fs => exact Or.inl rfl

/-- A stretch of text without double quote holds no start of a quoted pattern. -/
theorem strstr_skip_segment (seg t ps : List Nat) (h : 34 ∉ seg) :
    strstr (seg ++ t) (34 :: ps) = strstr t (34 :: ps) := by
  induction seg with
  | nil => rfl
  | cons c seg ih =>
    rw [List.cons_append, strstr_cons_of_no_match, ih]
    · intro hm
      exact h (List.mem_cons_of_mem _ hm)
    · intro hp
      have h1 := (List.cons_prefix_cons.1 hp).1
      exact h (h1 ▸ List.mem_cons_self _ _)

/-- A quoted pattern that starts at the opening quote of a quoted token is that token,
and a colon follows. -/
theorem quoted_match (k : List Nat) :
    ∀ (s T : List Nat), 34 ∉ k → 34 ∉ s → (k ++ [34, 58]) <+: (s ++ 34 :: T) →
      k = s ∧ T.head? = some 58 := by
  induction k with
  | nil =>
    intro s T _ hs hp
    cases s with
    | nil =>
      have h1 := (List.cons_prefix_cons.1 hp).2
      obtain ⟨r, hr⟩ := h1
      subst hr
      exact ⟨rfl, rfl⟩
    | cons a s =>
      have h1 := (List.cons_prefix_cons.1 hp).1
      exact absurd (h1 ▸ List.mem_cons_self _ _) hs
  | cons a k ih =>
    intro s T hk hs hp
    cases s with
    | nil =>
      have h1 := (List.cons_prefix_cons.1 hp).1
      exact absurd (h1 ▸ List.mem_cons_self _ _) hk
    | cons b s =>
      have h1 := List.cons_prefix_cons.1 hp
      have h2 := ih s T (fun h => hk (List.mem_cons_of_mem _ h))
        (fun h => hs (List.mem_cons_of_mem _ h)) h1.2
      exact ⟨by rw [h1.1, h2.1], h2.2⟩

/-- No quoted pattern starts at a double quote that a separator follows. -/
theorem closing_quote_no_match (k T : List Nat) (hk : ∀ c ∈ k, ident_char c = true)
    (h34 : T.headD 0 ≠ 34) (hid : ident_char (T.headD 0) = false) :
    ¬ (34 :: (k ++ [34, 58])) <+: (34 :: T) := by
  intro hp
  have h1 := (List.cons_prefix_cons.1 hp).2
  obtain ⟨r, hr⟩ := h1
  subst hr
  cases k with
  | nil => exact h34 rfl
  | cons a k =>
    have h2 := hk a (List.mem_cons_self _ _)
    have h3 : ident_char a = false := hid
    rw [h2] at h3
    exact absurd h3 (by decide)

/-- A quoted token that is not the key in front of a colon is passed over. -/
theorem strstr_skip_quoted (k s T : List Nat) (hk : ∀ c ∈ k, ident_char c = true)
    (hs : 34 ∉ s) (hne : k ≠ s ∨ T.head? ≠ some 58) (h34 : T.headD 0 ≠ 34)
    (hid : ident_char (T.headD 0) = false) :
    strstr (34 :: (s ++ 34 :: T)) (34 :: (k ++ [34, 58])) =
      strstr T (34 :: (k ++ [34, 58])) := by
  have hk34 : 34 ∉ k := fun h => (ident_char_ne 34 (hk 34 h)).2.1 rfl
  rw [strstr_cons_of_no_match, strstr_skip_segment s _ _ hs, strstr_cons_of_no_match]
  · exact closing_quote_no_match k T hk h34 hid
  · intro hp
    have h1 := quoted_match k s T hk34 hs (List.cons_prefix_cons.1 hp).2
    rcases hne with h | h
    · exact h h1.1
    · exact h h1.2

/-- A member with another key is passed over. -/
theorem strstr_skip_field (k : List Nat) (f : JField) (T : List Nat)
    (hk : ∀ c ∈ k, ident_char c = true) (hf : field_ok f) (hne : k ≠ f.key)
    (hT : T.headD 0 = 44 ∨ T.headD 0 = 125) :
    strstr (render_field f ++ T) (34 :: (k ++ [34, 58])) =
      strstr T (34 :: (k ++ [34, 58])) := by
  obtain ⟨key, ws, value⟩ := f
  obtain ⟨hkey, -, hws, hval⟩ := hf
  have hkey34 : 34 ∉ key := fun h => (ident_char_ne 34 (hkey 34 h)).2.1 rfl
  have hws34 : 34 ∉ 58 :: ws := by
    intro h
    rcases List.mem_cons.1 h with h | h
    · omega
    · exact (space_ne 34 (hws 34 h)).2 rfl
  have hT34 : T.headD 0 ≠ 34 := by omega
  have hTid : ident_char (T.headD 0) = false := by
    rcases hT with h | h <;> rw [h] <;> decide
  have hT58 : T.head? ≠ some 58 := by
    cases T with
    | nil => simp
    | cons a T =>
      simp only [List.headD_cons] at hT
      simp only [List.head?_cons, ne_eq, Option.some.injEq]
      omega
  have e : render_field ⟨key, ws, value⟩ ++ T =
      34 :: (key ++ 34 :: ((58 :: ws) ++ (render_value value ++ T))) := by
    simp [render_field]
  rw [e, strstr_skip_quoted k key _ hk hkey34 (Or.inl hne) (by simp) (by simp; decide),
    strstr_skip_segment (58 :: ws) _ _ hws34]
  cases value with
  | str v =>
    have e2 : render_value (JValue.str v) ++ T = 34 :: (v ++ 34 :: T) := by
      simp [render_value]
    rw [e2]
    exact strstr_skip_quoted k v T hk hval.1 (Or.inr hT58) hT34 hTid
  | num n =>
    exact strstr_skip_segment (numeral n) T _ (fun h => (numeral_char_ne n 34 h).2 rfl)

/-- The scan for the pattern of a key of the object stops at the member of that key. -/
theorem strstr_finds_field :
    ∀ (fs : List JField) (f f0 : JField), (∀ g ∈ f :: fs, field_ok g) →
      ((f :: fs).map JField.key).Nodup → f0 ∈ f :: fs →
      ∃ T, (T.headD 0 = 44 ∨ T.headD 0 = 125) ∧
        strstr (render_field f ++ render_tail fs) (34 :: (f0.key ++ [34, 58])) =
          some ((34 :: (f0.key ++ [34, 58])) ++ (f0.ws ++ (render_value f0.value ++ T))) := by
  intro fs
  induction fs with
  | nil =>
    intro f f0 _ _ hmem
    have h0 : f0 = f := by simpa using hmem
    subst h0
    refine ⟨render_tail [], render_tail_head [], ?_⟩
    have e : render_field f0 ++ render_tail [] =
        34 :: ((f0.key ++ [34, 58]) ++ (f0.ws ++ (render_value f0.value ++ render_tail []))) := by
      simp [render_field]
    rw [e]
    exact strstr_of_match _ _ _ ⟨_, rfl⟩
  | cons g fs ih =>
    intro f f0 hok hnd hmem
    rcases List.mem_cons.1 hmem with h0 | hin
    · subst h0
      refine ⟨render_tail (g :: fs), render_tail_head (g :: fs), ?_⟩
      have e : render_field f0 ++ render_tail (g :: fs) =
          34 :: ((f0.key ++ [34, 58]) ++
            (f0.ws ++ (render_value f0.value ++ render_tail (g :: fs)))) := by
        simp [render_field]
      rw [e]
      exact strstr_of_match _ _ _ ⟨_, rfl⟩
    · have hne : f0.key ≠ f.key := by
        intro h
        have h1 := (List.nodup_cons.1 hnd).1
        exact h1 (h ▸ List.mem_map_of_mem JField.key hin)
      have hk : ∀ c ∈ f0.key, ident_char c = true := (hok f0 hmem).1
      rw [strstr_skip_field f0.key f _ hk (hok f (List.mem_cons_self _ _)) hne
        (render_tail_head (g :: fs))]
      have e : render_tail (g :: fs) = 44 :: (render_field g ++ render_tail fs) := rfl
      rw [e, strstr_cons_of_no_match]
      · exact ih g f0 (fun x hx => hok x (List.mem_cons_of_mem _ hx))
          (List.nodup_cons.1 hnd).2 hin
      · intro hp
        have h1 := (List.cons_prefix_cons.1 hp).1
        omega

theorem render_field_nul_free (f : JField) (hf : field_ok f) : 0 ∉ render_field f := by
  obtain ⟨key, ws, value⟩ := f
  obtain ⟨hkey, -, hws, hval⟩ := hf
  have e : render_field ⟨key, ws, value⟩ =
      34 :: (key ++ (34 :: 58 :: (ws ++ render_value value))) := by
    simp [render_field]
  intro h
  rw [e] at h
  simp only [List.mem_cons, List.mem_append] at h
  rcases h with h | h | h | h | h | h
  · omega
  · exact (ident_char_ne 0 (hkey 0 h)).1 rfl
  · omega
  · omega
  · exact (space_ne 0 (hws 0 h)).1 rfl
  · cases value with
    | str v =>
      have e2 : render_value (JValue.str v) = 34 :: (v ++ [34]) := rfl
      rw [e2] at h
      simp only [List.mem_cons, List.mem_append, List.mem_singleton, List.not_mem_nil,
        or_false] at h
      rcases h with h | h | h
      · omega
      · exact hval.2 h
      · omega
    | num n => exact (numeral_char_ne n 0 h).1 rfl

theorem render_tail_nul_free :
    ∀ (fs : List JField), (∀ g ∈ fs, field_ok g) → 0 ∉ render_tail fs := by
  intro fs
  induction fs with
  | nil =>
    intro _ h
    simp [render_tail] at h
  | cons f fs ih =>
    intro hok h
    simp only [render_tail, List.cons_append, List.mem_cons, List.mem_append] at h
    rcases h with h | h | h
    · omega
    · exact render_field_nul_free f (hok f (List.mem_cons_self _ _)) h
    · exact ih (fun x hx => hok x (List.mem_cons_of_mem _ hx)) h

/-- The text of a flat object is a C string, and the scan for the pattern of one of its
keys stops at the member of that key. -/
theorem render_object_scan (fields : List JField) (hok : ∀ f ∈ fields, field_ok f)
    (hnd : (fields.map JField.key).Nodup) (f : JField) (hf : f ∈ fields) :
    ∃ T, (T.headD 0 = 44 ∨ T.headD 0 = 125) ∧
      strstr (cstr (render_object fields)) (34 :: cstr f.key ++ [34, 58]) =
        some ((34 :: cstr f.key ++ [34, 58]) ++ (f.ws ++ (render_value f.value ++ T))) := by
  have hkey : cstr f.key = f.key :=
    cstr_eq_self _ (fun h => (ident_char_ne 0 ((hok f hf).1 0 h)).1 rfl)
  cases fields with
  | nil => simp at hf
  | cons g fs =>
    have hnul : 0 ∉ render_object (g :: fs) := by
      intro h
      simp only [render_object, List.cons_append, List.mem_cons, List.mem_append] at h
      rcases h with h | h | h
      · omega
      · exact render_field_nul_free g (hok g (List.mem_cons_self _ _)) h
      · exact render_tail_nul_free fs (fun x hx => hok x (List.mem_cons_of_mem _ hx)) h
    obtain ⟨T, hT, hs⟩ := strstr_finds_field fs g f hok hnd hf
    refine ⟨T, hT, ?_⟩
    rw [cstr_eq_self _ hnul, hkey]
    have e : render_object (g :: fs) = 123 :: (render_field g ++ render_tail fs) := rfl
    rw [e, List.cons_append, strstr_cons_of_no_match]
    · exact hs
    · intro hp
      have h1 := (List.cons_prefix_cons.1 hp).1
      omega

/-- C24: extraction undoes the serialisation of a flat object. For every object text
written as `"k":value` members separated by commas between braces, with pairwise
distinct keys of letters, digits and underscores (at most 124 bytes each), optional
white space after each colon, and values that are quoted strings without double quote
(C strings, so without NUL) or base-10 numerals of int32 numbers: for every member of the
object, `json_get_string` with its key and a capacity above the length of its string
value returns that length and leaves exactly that value in the output, and
`json_get_int` with its key reports found and stores exactly its integer value. -/
theorem flat_object_round_trip (fields : List JField) (hok : ∀ f ∈ fields, field_ok f)
    (hnd : (fields.map JField.key).Nodup) (f : JField) (hf : f ∈ fields)
    (value : Nat → Nat) (value_len : Nat) (x : Int) :
    (∀ v, f.value = JValue.str v → v.length < value_len → value_len < 65536 →
        (json_get_string (render_object fields) f.key value value_len).1 = v.length ∧
          mem_take (json_get_string (render_object fields) f.key value value_len).2
            v.length = v) ∧
      (∀ n, f.value = JValue.num n →
        json_get_int (render_object fields) f.key x = (1, n)) := by
  obtain ⟨T, hT, hs⟩ := render_object_scan fields hok hnd f hf
  have hkey : cstr f.key = f.key :=
    cstr_eq_self _ (fun h => (ident_char_ne 0 ((hok f hf).1 0 h)).1 rfl)
  have hlen : (cstr f.key).length ≤ 124 := by
    rw [hkey]
    exact (hok f hf).2.1
  have hws := (hok f hf).2.2.1
  have hval := (hok f hf).2.2.2
  constructor
  · intro v hv hcap h16
    rw [hv] at hs hval
    have e : render_value (JValue.str v) ++ T = 34 :: v ++ 34 :: T := by
      simp [render_value]
    rw [e] at hs
    exact json_get_string_of_strstr _ f.key value value_len f.ws v T hlen hs hws hval.1 hcap
      (by omega)
  · intro n hn
    rw [hn] at hs hval
    have hdig : isdigit (T.headD 0) = false := by
      rcases hT with h | h <;> rw [h] <;> decide
    exact json_get_int_of_strstr _ f.key x n f.ws T hlen hs hws hval.1 hval.2 hdig

/-- C24, evaluated on `{"id":"p1","x":5,"y":3}`: the extractors yield id = `p1`, x = 5
and y = 3. -/
theorem flat_object_round_trip_witness :
    render_object [⟨bytes "id", [], JValue.str (bytes "p1")⟩, ⟨bytes "x", [], JValue.num 5⟩,
        ⟨bytes "y", [], JValue.num 3⟩] = bytes "\x7b\"id\":\"p1\",\"x\":5,\"y\":3\x7d" ∧
      mem_take (json_get_string (bytes "\x7b\"id\":\"p1\",\"x\":5,\"y\":3\x7d") (bytes "id")
        (fun _ => 7) 16).2 2 = bytes "p1" ∧
      json_get_int (bytes "\x7b\"id\":\"p1\",\"x\":5,\"y\":3\x7d") (bytes "x") 99 = (1, 5) ∧
      json_get_int (bytes "\x7b\"id\":\"p1\",\"x\":5,\"y\":3\x7d") (bytes "y") 99 = (1, 3) := by
  have hok : ∀ f ∈ [(⟨bytes "id", [], JValue.str (bytes "p1")⟩ : JField),
      ⟨bytes "x", [], JValue.num 5⟩, ⟨bytes "y", [], JValue.num 3⟩], field_ok f := by
    intro f hf
    simp only [List.mem_cons, List.mem_singleton, List.not_mem_nil, or_false] at hf
    rcases hf with h | h | h <;> subst h <;>
      exact ⟨by decide, by decide, by decide, by decide, by decide⟩
  have hobj : render_object [⟨bytes "id", [], JValue.str (bytes "p1")⟩,
      ⟨bytes "x", [], JValue.num 5⟩, ⟨bytes "y", [], JValue.num 3⟩] =
      bytes "\x7b\"id\":\"p1\",\"x\":5,\"y\":3\x7d" := by decide
  have h := fun f hf => flat_object_round_trip _ hok (by decide) f hf (fun _ => 7) 16 99
  rw [hobj] at h
  exact ⟨hobj,
    ((h ⟨bytes "id", [], JValue.str (bytes "p1")⟩ (by decide)).1 (bytes "p1") rfl (by decide)
      (by decide)).2,
    (h ⟨bytes "x", [], JValue.num 5⟩ (by decide)).2 5 rfl,
    (h ⟨bytes "y", [], JValue.num 3⟩ (by decide)).2 3 rfl⟩

end KillZone
